import Mathlib

/-!
# imageclipper: the region-selection state machine and its display scaling

A shallow embedding of `src/imageclipper.cpp`.

* The C `int` values are mathematical integers: signed overflow is undefined
  behaviour in C++ and is outside the model.
* A `float` is the rational number it stands for.  In the expressions of the
  translation unit, the conversion of an `int` operand to `float`, the product
  of two `float` values and the quotient `1/scale_factor` are rounded to the
  nearest binary32 value, a tie to the one with the even significand
  (`to_float`), as `float` arithmetic evaluated in its own format is.  The
  halving of the scale factor, exact in binary32 down to 2^(-149), is exact
  here.  An overflow to infinity, a division by zero and the conversion to `int`
  of a `float` outside the range of `int` (undefined behaviour) are outside the
  model.  The products with the `double` constants 1.05 and 0.95 are left to the
  environment.
* Every call into OpenCV or into the headers that are not part of the
  translation unit is either recorded as an `Effect` or taken from the
  environment `Env`.
* One pass through the loop of `key_callback` ends in an `Outcome`: the loop goes
  on, it is left, or the process ends.
-/

namespace ImageClipper

/-! ## Data model -/

/-- OpenCV `CvSize`. -/
structure CvSize where
  width : Int
  height : Int
deriving DecidableEq, Repr

/-- OpenCV `CvPoint`. -/
structure CvPoint where
  x : Int
  y : Int
deriving DecidableEq, Repr

/-- OpenCV `CvRect`. -/
structure CvRect where
  x : Int
  y : Int
  width : Int
  height : Int
deriving DecidableEq, Repr

/-- OpenCV `CvPoint2D32f`; the floats are rationals here. -/
structure CvPoint2D32f where
  x : ℚ
  y : ℚ
deriving DecidableEq

/-- The rotated rectangle `CvRect32f` of `opencvx/cvrect32f.h`. -/
structure CvRect32f where
  x : ℚ
  y : ℚ
  width : ℚ
  height : ℚ
  rotate : ℚ
deriving DecidableEq

/-- An `IplImage`, reduced to its size and an identifier of the frame its
pixels come from. -/
structure IplImage where
  width : Int
  height : Int
  data : Nat
deriving DecidableEq, Repr

/-- A video capture: the decoded frames and `CV_CAP_PROP_POS_FRAMES`, the index
of the frame that the next `cvQueryFrame` returns. -/
structure CvCapture where
  frames : List IplImage
  pos : Int
deriving DecidableEq

/-- One call that leaves the program: a window update, a file-system action, or
the formatting of the output path. -/
inductive Effect where
  | cvShowImageAndRectangle (img : Option IplImage) (rect : CvRect32f) (shear : CvPoint2D32f)
  | cvShowCroppedImage (img : IplImage) (rect : CvRect32f) (shear : CvPoint2D32f)
  | cvShowImageAndWatershed (img : Option IplImage) (circle : CvRect)
  | icFormat (format dirname filename extension : String) (x y width height : ℚ)
      (frame rotate : Int)
  | create_directories (path : String)
  | cvCropImageROI (img crop : IplImage) (rect : CvRect32f) (shear : CvPoint2D32f)
  | cvSaveImage (path : String) (crop : IplImage)
deriving DecidableEq

/-- What the program takes from outside the translation unit. -/
structure Env where
  /-- `(int) cvPointNorm( a, b )` of `opencvx/cvpointnorm.h`. -/
  cvPointNorm : CvPoint → CvPoint → Int
  /-- The rectangle returned by `cvShowImageAndWatershed` of `cvdrawwatershed.h`. -/
  cvShowImageAndWatershed : Option IplImage → CvRect → CvRect
  /-- `cvLoadImage`: `none` is the `NULL` of an unreadable file. -/
  cvLoadImage : String → Option IplImage
  /-- The output path built by `icFormat` of `icformat.h`. -/
  icFormat : String → String → String → String → ℚ → ℚ → ℚ → ℚ → Int → Int → String
  /-- `fs::dirname` of `filesystem.h`. -/
  dirname : String → String
  /-- `fs::filename` of `filesystem.h`. -/
  filename : String → String
  /-- `fs::extension` of `filesystem.h`. -/
  extension : String → String
  /-- `fs::realpath` of `filesystem.h`. -/
  realpath : String → String
  /-- `fs::match_extensions` of `filesystem.h`. -/
  match_extensions : String → List String → Bool
  /-- The `float` result of `scale_factor *= 1.05`. -/
  mul_1_05 : ℚ → ℚ
  /-- The `float` result of `scale_factor *= 0.95`. -/
  mul_0_95 : ℚ → ℚ

/-- The session: the fields of `CvCallbackParam`, the `static` locals of
`mouse_callback` (`point0` and the seven drag flags) and the local `filename` of
`key_callback`.  `fileiter` is the index of the iterator in `filelist`. -/
structure Session where
  img_src : Option IplImage
  imtypes : List String
  output_format : String
  inc : Int
  rect : CvRect
  rotate : Int
  shear : CvPoint
  circle : CvRect
  watershed : Bool
  filelist : List String
  fileiter : Nat
  cap : Option CvCapture
  frame : Int
  screen_size : CvSize
  img_display : Option IplImage
  scale_factor : ℚ
  cap_scale_factor : ℚ
  point0 : CvPoint
  move_rect : Bool
  resize_rect_left : Bool
  resize_rect_right : Bool
  resize_rect_top : Bool
  resize_rect_bottom : Bool
  move_watershed : Bool
  resize_watershed : Bool
  filename : String
deriving DecidableEq

/-! ## OpenCV constants and helpers -/

def CV_EVENT_MOUSEMOVE : Int := 0
def CV_EVENT_LBUTTONDOWN : Int := 1
def CV_EVENT_RBUTTONDOWN : Int := 2
def CV_EVENT_MBUTTONDOWN : Int := 3
def CV_EVENT_LBUTTONUP : Int := 4
def CV_EVENT_RBUTTONUP : Int := 5
def CV_EVENT_MBUTTONUP : Int := 6

def CV_EVENT_FLAG_LBUTTON : Nat := 1
def CV_EVENT_FLAG_RBUTTON : Nat := 2
def CV_EVENT_FLAG_MBUTTON : Nat := 4
def CV_EVENT_FLAG_SHIFTKEY : Nat := 16

/-- The C test `flags & mask`. -/
def hasFlag (flags mask : Nat) : Bool := (flags &&& mask) != 0

/-- OpenCV `cvPointTo32f`. -/
def cvPointTo32f (p : CvPoint) : CvPoint2D32f := ⟨p.x, p.y⟩

/-- OpenCV `cvCreateImage`, followed by the `cvResize` or crop that fills it from
the image `src`. -/
def cvCreateImage (size : CvSize) (src : IplImage) : IplImage :=
  ⟨size.width, size.height, src.data⟩

/-- Modelled from the spec: `cvRect32fFromRect` of `opencvx/cvrect32f.h`, which is
not under `src/`; the rotated-rectangle representation of an integer rectangle
keeps x, y, width and height and carries the rotation angle. -/
def cvRect32fFromRect (rect : CvRect) (rotate : Int) : CvRect32f :=
  ⟨rect.x, rect.y, rect.width, rect.height, rotate⟩

/-- The conversion of a `float` to `int`: truncation toward zero.  For a value
outside the range of `int` the conversion is undefined behaviour and outside
the model. -/
def float_to_int (q : ℚ) : Int := if 0 ≤ q then ⌊q⌋ else ⌈q⌉

/-- The integer nearest to a rational, a tie going to the even one. -/
def round_half_even (q : ℚ) : Int :=
  if q - ⌊q⌋ < 1 / 2 then ⌊q⌋
  else if 1 / 2 < q - ⌊q⌋ then ⌊q⌋ + 1
  else if ⌊q⌋ % 2 = 0 then ⌊q⌋ else ⌊q⌋ + 1

/-- The unit in the last place at `q` of the binary floating-point format with
`p` bits of precision and least exponent `emin`: 2^(e - (p - 1)), where 2^e is
the power of two at or below the magnitude of `q`, and e is `emin` for the
subnormal values. -/
def binary_ulp (p : Nat) (emin : Int) (q : ℚ) : ℚ :=
  (2 : ℚ) ^ (max (Int.log 2 |q|) emin - ((p : Int) - 1))

/-- The value of the format nearest to `q`, a tie going to the one with the even
significand (the default rounding of IEEE 754), without the overflow to
infinity. -/
def round_binary (p : Nat) (emin : Int) (q : ℚ) : ℚ :=
  round_half_even (q / binary_ulp p emin q) * binary_ulp p emin q

/-- The `float` (binary32: 24 bits of precision, least exponent -126) nearest to
a rational. -/
def to_float (q : ℚ) : ℚ := round_binary 24 (-126) q

/-- The `double` (binary64: 53 bits of precision, least exponent -1022) nearest to
a rational. -/
def to_double (q : ℚ) : ℚ := round_binary 53 (-1022) q

/-- The conversion of an `int` operand to `float` in a product with a `float`. -/
def int_to_float (n : Int) : ℚ := to_float n

/-- The product `a * b` of two `float` values. -/
def float_mul (a b : ℚ) : ℚ := to_float (a * b)

/-- The quotient `a / b` of two `float` values. -/
def float_div (a b : ℚ) : ℚ := to_float (a / b)

/-- The rectangle `cvRect32f( rect.x*(1/scale_factor), ..., rotate )` that the
scaled call sites build: each `int` field is converted to `float` and
multiplied by the `float` quotient `1/scale_factor`. -/
def scaled_rect32f (rect : CvRect) (scale_factor : ℚ) (rotate : Int) : CvRect32f :=
  ⟨float_mul (int_to_float rect.x) (float_div 1 scale_factor),
   float_mul (int_to_float rect.y) (float_div 1 scale_factor),
   float_mul (int_to_float rect.width) (float_div 1 scale_factor),
   float_mul (int_to_float rect.height) (float_div 1 scale_factor), rotate⟩

/-! ## `mouse_callback` -/

/-- The correction `if( x >= 32768 ) x -= 65536;` ("change left outsite to
negative") that `mouse_callback` applies to both coordinates of an event: the
pointer position as the program reads it. -/
def outside_to_negative (v : Int) : Int := if v ≥ 32768 then v - 65536 else v

/-- The branch `event == CV_EVENT_MBUTTONDOWN || ( event == CV_EVENT_LBUTTONDOWN &&
flags & CV_EVENT_FLAG_SHIFTKEY )`: the centre of the watershed marker is set. -/
def watershed_down (x y : Int) (param : Session) : Session × List Effect :=
  ({ param with circle := { param.circle with x := x, y := y } }, [])

/-- The branch of a move with the middle button, or with the left button and
shift: the watershed marker is drawn. -/
def watershed_draw (env : Env) (x y : Int) (img_src : IplImage) (param : Session) :
    Session × List Effect :=
  let circle : CvRect :=
    { param.circle with width := env.cvPointNorm ⟨param.circle.x, param.circle.y⟩ ⟨x, y⟩ }
  let rect := env.cvShowImageAndWatershed param.img_display circle
  ({ param with watershed := true, rotate := 0, shear := ⟨0, 0⟩, circle := circle,
                rect := rect },
   [Effect.cvShowImageAndWatershed param.img_display circle,
    Effect.cvShowCroppedImage img_src (cvRect32fFromRect rect 0) (cvPointTo32f ⟨0, 0⟩)])

/-- The branch `event == CV_EVENT_LBUTTONDOWN`: the anchor `point0` is set. -/
def left_down (x y : Int) (param : Session) : Session × List Effect :=
  ({ param with point0 := ⟨x, y⟩ }, [])

/-- The branch `event == CV_EVENT_MOUSEMOVE && flags & CV_EVENT_FLAG_LBUTTON`: the
rectangle is drawn from the anchor to the pointer. -/
def left_move (x y : Int) (img_src : IplImage) (param : Session) : Session × List Effect :=
  let rect : CvRect :=
    ⟨min param.point0.x x, min param.point0.y y, |param.point0.x - x|, |param.point0.y - y|⟩
  ({ param with watershed := false, rotate := 0, shear := ⟨0, 0⟩, rect := rect },
   [Effect.cvShowImageAndRectangle param.img_display (cvRect32fFromRect rect 0)
      (cvPointTo32f ⟨0, 0⟩),
    Effect.cvShowCroppedImage img_src (scaled_rect32f rect param.scale_factor 0)
      (cvPointTo32f ⟨0, 0⟩)])

/-- The block `if( param->watershed ) { ... }` of the branch
`event == CV_EVENT_RBUTTONDOWN`: a click on the rim of the marker resizes it, a
click inside moves it. -/
def right_down_watershed (env : Env) (param : Session) : Session :=
  if param.watershed then
    let radius := env.cvPointNorm ⟨param.circle.x, param.circle.y⟩ param.point0
    if param.circle.width - 1 ≤ radius ∧ radius ≤ param.circle.width then
      { param with resize_watershed := true }
    else if radius ≤ param.circle.width then
      { param with move_watershed := true }
    else param
  else param

/-- The block `if( !resize_watershed && !move_watershed ) { ... }` of the branch
`event == CV_EVENT_RBUTTONDOWN`: the click is classified against the rectangle. -/
def right_down_rectangle (x y : Int) (param : Session) : Session :=
  let r := param.rect
  { param with
    watershed := false
    move_rect :=
      if (r.x < x ∧ x < r.x + r.width) ∧ (r.y < y ∧ y < r.y + r.height) then true
      else param.move_rect
    resize_rect_left := if x ≤ r.x then true else param.resize_rect_left
    resize_rect_right :=
      if x ≤ r.x then param.resize_rect_right
      else if x ≥ r.x + r.width then true
      else param.resize_rect_right
    resize_rect_top := if y ≤ r.y then true else param.resize_rect_top
    resize_rect_bottom :=
      if y ≤ r.y then param.resize_rect_bottom
      else if y ≥ r.y + r.height then true
      else param.resize_rect_bottom }

/-- The branch `event == CV_EVENT_RBUTTONDOWN`. -/
def right_down (env : Env) (x y : Int) (param : Session) : Session × List Effect :=
  let p2 := right_down_watershed env { param with point0 := ⟨x, y⟩ }
  if !p2.resize_watershed && !p2.move_watershed then (right_down_rectangle x y p2, [])
  else (p2, [])

/-- The branch of a move with the right button in watershed mode: the marker is
moved or resized. -/
def right_move_watershed (env : Env) (x y : Int) (img_src : IplImage) (param : Session) :
    Session × List Effect :=
  if param.move_watershed then
    let circle : CvRect :=
      { param.circle with x := param.circle.x + (x - param.point0.x),
                          y := param.circle.y + (y - param.point0.y) }
    let rect := env.cvShowImageAndWatershed param.img_display circle
    ({ param with circle := circle, rect := rect, point0 := ⟨x, y⟩ },
     [Effect.cvShowImageAndWatershed param.img_display circle,
      Effect.cvShowCroppedImage img_src (cvRect32fFromRect rect param.rotate)
        (cvPointTo32f param.shear)])
  else if param.resize_watershed then
    let circle : CvRect :=
      { param.circle with width := env.cvPointNorm ⟨param.circle.x, param.circle.y⟩ ⟨x, y⟩ }
    let rect := env.cvShowImageAndWatershed param.img_display circle
    ({ param with circle := circle, rect := rect },
     [Effect.cvShowImageAndWatershed param.img_display circle,
      Effect.cvShowCroppedImage img_src (cvRect32fFromRect rect param.rotate)
        (cvPointTo32f param.shear)])
  else (param, [])

/-- The first four statements of the branch of a move with the right button in
rectangle mode: the signed move of the pointer since `point0` is applied to the
position (`move_rect`) and to the active edges. -/
def apply_move (x y : Int) (param : Session) : CvRect :=
  let r0 := param.rect
  let r1 : CvRect :=
    if param.move_rect then
      { r0 with x := r0.x + (x - param.point0.x), y := r0.y + (y - param.point0.y) }
    else r0
  let r2 : CvRect :=
    if param.resize_rect_left then
      { r1 with x := r1.x + (x - param.point0.x), width := r1.width - (x - param.point0.x) }
    else if param.resize_rect_right then
      { r1 with width := r1.width + (x - param.point0.x) }
    else r1
  if param.resize_rect_top then
    { r2 with y := r2.y + (y - param.point0.y), height := r2.height - (y - param.point0.y) }
  else if param.resize_rect_bottom then
    { r2 with height := r2.height + (y - param.point0.y) }
  else r2

/-- The block under "assure width is positive". -/
def assure_width (param : Session) : Session :=
  if param.rect.width ≤ 0 then
    { param with rect := { param.rect with x := param.rect.x + param.rect.width,
                                           width := param.rect.width * -1 },
                 resize_rect_right := param.resize_rect_left,
                 resize_rect_left := param.resize_rect_right }
  else param

/-- The block under "assure height is positive". -/
def assure_height (param : Session) : Session :=
  if param.rect.height ≤ 0 then
    { param with rect := { param.rect with y := param.rect.y + param.rect.height,
                                           height := param.rect.height * -1 },
                 resize_rect_top := param.resize_rect_bottom,
                 resize_rect_bottom := param.resize_rect_top }
  else param

/-- The branch of a move with the right button in rectangle mode: move or
resize, then the two sign corrections, the redraw and the preview, and the
update of `point0`. -/
def right_move (x y : Int) (img_src : IplImage) (param : Session) : Session × List Effect :=
  let p3 := assure_height (assure_width { param with rect := apply_move x y param })
  ({ p3 with point0 := ⟨x, y⟩ },
   [Effect.cvShowImageAndRectangle p3.img_display (cvRect32fFromRect p3.rect p3.rotate)
      (cvPointTo32f p3.shear),
    Effect.cvShowCroppedImage img_src (cvRect32fFromRect p3.rect p3.rotate)
      (cvPointTo32f p3.shear)])

/-- The branch "common finalization" of any button-up. -/
def button_up (param : Session) : Session × List Effect :=
  ({ param with move_rect := false, resize_rect_left := false,
                resize_rect_right := false, resize_rect_top := false,
                resize_rect_bottom := false, move_watershed := false,
                resize_watershed := false }, [])

/-- The callback `mouse_callback( event, x, y, flags, param )`: the new session and
the calls it made. -/
def mouse_callback (env : Env) (event x0 y0 : Int) (flags : Nat) (param : Session) :
    Session × List Effect :=
  match param.img_src, param.img_display with
  | some img_src, some _ =>
    let x := outside_to_negative x0
    let y := outside_to_negative y0
    if event = CV_EVENT_MBUTTONDOWN ∨
        (event = CV_EVENT_LBUTTONDOWN ∧ hasFlag flags CV_EVENT_FLAG_SHIFTKEY) then
      watershed_down x y param
    else if (event = CV_EVENT_MOUSEMOVE ∧ hasFlag flags CV_EVENT_FLAG_MBUTTON) ∨
        (event = CV_EVENT_MOUSEMOVE ∧ hasFlag flags CV_EVENT_FLAG_LBUTTON ∧
          hasFlag flags CV_EVENT_FLAG_SHIFTKEY) then
      watershed_draw env x y img_src param
    else if event = CV_EVENT_LBUTTONDOWN then
      left_down x y param
    else if event = CV_EVENT_MOUSEMOVE ∧ hasFlag flags CV_EVENT_FLAG_LBUTTON then
      left_move x y img_src param
    else if event = CV_EVENT_RBUTTONDOWN then
      right_down env x y param
    else if event = CV_EVENT_MOUSEMOVE ∧ hasFlag flags CV_EVENT_FLAG_RBUTTON ∧
        param.watershed then
      right_move_watershed env x y img_src param
    else if event = CV_EVENT_MOUSEMOVE ∧ hasFlag flags CV_EVENT_FLAG_RBUTTON then
      right_move x y img_src param
    else if event = CV_EVENT_LBUTTONUP ∨ event = CV_EVENT_MBUTTONUP ∨
        event = CV_EVENT_RBUTTONUP then
      button_up param
    else (param, [])
  | _, _ => (param, [])

/-! ## Display scaling -/

/-- The loop
`while (_size.width > screen_size.width || _size.height > screen_size.height)
 { _size.width /= 2; _size.height /= 2; scale_factor /= 2; }`
run for at most `fuel` tests of its condition; `none` when the fuel runs out
before the loop is left.  C++ `/` on `int` truncates toward zero. -/
def fit_loop : Nat → CvSize → CvSize → ℚ → Option (CvSize × ℚ)
  | 0, _, _, _ => none
  | fuel + 1, screen_size, size, scale_factor =>
    if size.width > screen_size.width ∨ size.height > screen_size.height then
      fit_loop fuel screen_size ⟨Int.tdiv size.width 2, Int.tdiv size.height 2⟩
        (scale_factor / 2)
    else some (size, scale_factor)

/-- A number of tests after which the loop has either been left or has reached
the size 0 x 0, where it stays. -/
def fit_fuel (size : CvSize) : Nat := size.width.natAbs + size.height.natAbs + 1

/-- The same loop as a function of its inputs: `none` when it is never left. -/
def fit_while (screen_size size : CvSize) (scale_factor : ℚ) : Option (CvSize × ℚ) :=
  fit_loop (fit_fuel size) screen_size size scale_factor

/-- The block of `load_reference` after the reference has been resolved to the
frame `img_src`: the screen resolution is stored, and the image is resized "to
fit screen resolution" by the halving loop, starting from the scale factor in
`param` (1.0 in `init_param`). -/
def load_reference (screen_size : CvSize) (img_src : IplImage) (param : Session) :
    Option Session :=
  match fit_while screen_size ⟨img_src.width, img_src.height⟩ param.scale_factor with
  | none => none
  | some (size, scale_factor) =>
    some { param with img_src := some img_src, screen_size := screen_size,
                      scale_factor := scale_factor,
                      img_display := some (cvCreateImage size img_src) }

/-! ## `key_callback` -/

/-- How one pass through the body of the `while( true )` loop of `key_callback`
ends, with the calls made on the way. -/
inductive Outcome where
  /-- The loop goes on to the next `cvWaitKey`. -/
  | running (param : Session) (out : List Effect)
  /-- The loop is left by `break`. -/
  | quit (param : Session) (out : List Effect)
  /-- The process ends in `exit(1)`. -/
  | exit1 (out : List Effect)
  /-- A `NULL` image or an iterator outside the list is dereferenced. -/
  | null_deref (out : List Effect)
  /-- The halving loop is never left. -/
  | hang (out : List Effect)
deriving DecidableEq

/-- Put the calls `out0` before those of an outcome. -/
def Outcome.after (out0 : List Effect) : Outcome → Outcome
  | .running param out => .running param (out0 ++ out)
  | .quit param out => .quit param (out0 ++ out)
  | .exit1 out => .exit1 (out0 ++ out)
  | .null_deref out => .null_deref (out0 ++ out)
  | .hang out => .hang (out0 ++ out)

/-- Sequencing of two parts of the loop body. -/
def Outcome.bind (o : Outcome) (f : Session → Outcome) : Outcome :=
  match o with
  | .running param out => (f param).after out
  | other => other

/-- The body shared by the `+` and `-` blocks at the top of the loop: the display
image is created anew at `img_src->width * scale_factor` by
`img_src->height * scale_factor`, each a `float` product converted to `int`. -/
def rescale_display (scale_factor : ℚ) (param : Session) : Outcome :=
  match param.img_src with
  | none => .null_deref []
  | some img_src =>
    let img_display := cvCreateImage
      ⟨float_to_int (float_mul (int_to_float img_src.width) scale_factor),
       float_to_int (float_mul (int_to_float img_src.height) scale_factor)⟩ img_src
    .running { param with scale_factor := scale_factor, img_display := some img_display }
      [Effect.cvShowImageAndRectangle (some img_display)
        (cvRect32fFromRect param.rect param.rotate) (cvPointTo32f param.shear)]

/-- The two blocks `if (key == '+')` and `if (key == '-')` at the top of the loop. -/
def zoom_keys (env : Env) (key : Char) (param : Session) : Outcome :=
  (if key = '+' then rescale_display (env.mul_1_05 param.scale_factor) param
   else .running param []).bind fun p =>
  if key = '-' then rescale_display (env.mul_0_95 p.scale_factor) p
  else .running p []

/-- The rectangle in source coordinates as the scaled call sites choose it:
`if(param->scale_factor!=1.0f)` the rectangle with every field multiplied by
`1/scale_factor`, else the rectangle itself. -/
def source_rect32f (rect : CvRect) (scale_factor : ℚ) (rotate : Int) : CvRect32f :=
  if scale_factor ≠ 1 then scaled_rect32f rect scale_factor rotate
  else cvRect32fFromRect rect rotate

/-- The size of the crop image that `Save` creates: `if(param->scale_factor!=1.0f)`
the `int` values of the `float` products `rect.width*(1/scale_factor)` and
`rect.height*(1/scale_factor)`, else the width and height of the rectangle. -/
def crop_size (rect : CvRect) (scale_factor : ℚ) : CvSize :=
  if scale_factor ≠ 1 then
    ⟨float_to_int (float_mul (int_to_float rect.width) (float_div 1 scale_factor)),
     float_to_int (float_mul (int_to_float rect.height) (float_div 1 scale_factor))⟩
  else ⟨rect.width, rect.height⟩

/-- The body of `if( key == 's' || key == 32 ) // Save`: the x, y, width and
height of `source_rect32f` are the values handed to `icFormat`, and the
rectangle itself is the one handed to `cvCropImageROI`. -/
def save (env : Env) (param : Session) : Outcome :=
  if param.rect.width > 0 ∧ param.rect.height > 0 then
    let dirname := env.dirname param.filename
    let filename := env.filename param.filename
    let extension := env.extension param.filename
    let r := source_rect32f param.rect param.scale_factor param.rotate
    let output_path := env.icFormat param.output_format dirname filename extension
      r.x r.y r.width r.height param.frame param.rotate
    let out1 := [Effect.icFormat param.output_format dirname filename extension
      r.x r.y r.width r.height param.frame param.rotate]
    if env.match_extensions output_path param.imtypes = false then .exit1 out1
    else
      match param.img_src with
      | none => .null_deref (out1 ++ [Effect.create_directories (env.dirname output_path)])
      | some img_src =>
        let crop := cvCreateImage (crop_size param.rect param.scale_factor) img_src
        .running param
          (out1 ++ [Effect.create_directories (env.dirname output_path),
                    Effect.cvCropImageROI img_src crop r (cvPointTo32f param.shear),
                    Effect.cvSaveImage (env.realpath output_path) crop])
  else .running param []

/-- OpenCV `cvQueryFrame` on the capture model: the frame at the position, and
the position moved on; `NULL` outside the stream. -/
def cvQueryFrame (cap : CvCapture) : Option IplImage × CvCapture :=
  if 0 ≤ cap.pos then
    match cap.frames.get? cap.pos.toNat with
    | some img => (some img, { cap with pos := cap.pos + 1 })
    | none => (none, cap)
  else (none, cap)

/-- The body of `if( key == 'f' || key == 32 )`. -/
def forward (env : Env) (param : Session) : Outcome :=
  match param.cap with
  | some cap =>
    match cvQueryFrame cap with
    | (some tmpimg, cap1) =>
      match fit_while param.screen_size ⟨tmpimg.width, tmpimg.height⟩ param.scale_factor with
      | none => .hang []
      | some (size, scale_factor) =>
        .running { param with cap := some cap1, img_src := some tmpimg,
                              scale_factor := scale_factor,
                              img_display := some (cvCreateImage size tmpimg),
                              frame := param.frame + 1 } []
    | (none, cap1) => .running { param with cap := some cap1 } []
  | none =>
    if param.fileiter + 1 ≠ param.filelist.length then
      match param.filelist.get? (param.fileiter + 1) with
      | none => .null_deref []
      | some filename =>
        match env.cvLoadImage (env.realpath filename) with
        | none => .null_deref []
        | some img_src =>
          let fits : Bool := !(decide (img_src.width > param.screen_size.width) ||
                               decide (img_src.height > param.screen_size.height))
          let size : CvSize :=
            if fits then ⟨img_src.width, img_src.height⟩
            else ⟨Int.tdiv img_src.width 2, Int.tdiv img_src.height 2⟩
          let scale_factor : ℚ := if fits then 1 else 1 / 2
          .running { param with fileiter := param.fileiter + 1, filename := filename,
                                img_src := some img_src, scale_factor := scale_factor,
                                img_display := some (cvCreateImage size img_src) } []
    else .running param []

/-- The body of `else if( key == 'b' )`. -/
def backward (env : Env) (param : Session) : Outcome :=
  match param.cap with
  | some cap =>
    let frame := max 1 (param.frame - 1)
    match cvQueryFrame { cap with pos := frame - 1 } with
    | (some tmpimg, cap1) =>
      let fits : Bool := !(decide (tmpimg.width > param.screen_size.width) ||
                           decide (tmpimg.height > param.screen_size.height))
      let size : CvSize :=
        if fits then ⟨tmpimg.width, tmpimg.height⟩
        else ⟨Int.tdiv tmpimg.width 2, Int.tdiv tmpimg.height 2⟩
      let scale_factor : ℚ := if fits then 1 else param.scale_factor / 2
      .running { param with cap := some cap1, frame := frame, img_src := some tmpimg,
                            scale_factor := scale_factor,
                            img_display := some (cvCreateImage size tmpimg) } []
    | (none, cap1) => .running { param with cap := some cap1, frame := frame } []
  | none =>
    if param.fileiter ≠ 0 then
      match param.filelist.get? (param.fileiter - 1) with
      | none => .null_deref []
      | some filename =>
        match env.cvLoadImage (env.realpath filename) with
        | none => .null_deref []
        | some img_src =>
          match fit_while param.screen_size ⟨img_src.width, img_src.height⟩ 1 with
          | none => .hang []
          | some (size, scale_factor) =>
            .running { param with fileiter := param.fileiter - 1, filename := filename,
                                  img_src := some img_src, scale_factor := scale_factor,
                                  img_display := some (cvCreateImage size img_src) } []
    else .running param []

/-- The chain `if( key == 'f' || key == 32 ) ... else if( key == 'b' ) ...
else if( key == 'q' || key == 27 ) ... else if( key == '+' ) ... else if( key == '-' )`. -/
def navigation_keys (env : Env) (key : Char) (param : Session) : Outcome :=
  if key = 'f' ∨ key = Char.ofNat 32 then forward env param
  else if key = 'b' then backward env param
  else if key = 'q' ∨ key = Char.ofNat 27 then .quit param []
  else if key = '+' then .running { param with inc := param.inc + 1 } []
  else if key = '-' then .running { param with inc := max 1 (param.inc - 1) } []
  else .running param []

/-- The chain of `if( key == ... )` in the branch `if( param->watershed )`: the
keys act on the watershed marker, the shear and the rotation. -/
def watershed_edit (key : Char) (param : Session) : Session :=
  let inc := param.inc
  let c := param.circle
  if key = 'h' then { param with circle := { c with x := c.x - inc } }
  else if key = 'j' then { param with circle := { c with y := c.y + inc } }
  else if key = 'k' then { param with circle := { c with y := c.y - inc } }
  else if key = 'l' then { param with circle := { c with x := c.x + inc } }
  else if key = 'y' then { param with circle := { c with width := c.width - inc } }
  else if key = 'u' then { param with circle := { c with width := c.width + inc } }
  else if key = 'i' then { param with circle := { c with width := c.width - inc } }
  else if key = 'o' then { param with circle := { c with width := c.width + inc } }
  else if key = 'n' then { param with shear := { param.shear with x := param.shear.x - inc } }
  else if key = 'm' then { param with shear := { param.shear with y := param.shear.y + inc } }
  else if key = ',' then { param with shear := { param.shear with y := param.shear.y - inc } }
  else if key = '.' then { param with shear := { param.shear with x := param.shear.x + inc } }
  else if key = 'r' then
    { param with rotate := if param.rotate + inc ≥ 360 then param.rotate + inc - 360
                           else param.rotate + inc }
  else if key = 'R' then
    { param with rotate := if param.rotate - inc < 0 then 360 + (param.rotate - inc)
                           else param.rotate - inc }
  else if key = 'e' then { param with circle := { c with width := c.width + inc } }
  else if key = 'E' then { param with circle := { c with width := c.width - inc } }
  else param

/-- The branch `if( param->watershed )` at the end of the loop body: after the
keys have acted, the region is the one the watershed returns. -/
def watershed_keys (env : Env) (key : Char) (param : Session) : Outcome :=
  let p1 := watershed_edit key param
  match p1.img_src with
  | some img_src =>
    let rect := env.cvShowImageAndWatershed p1.img_display p1.circle
    .running { p1 with rect := rect }
      [Effect.cvShowImageAndWatershed p1.img_display p1.circle,
       Effect.cvShowCroppedImage img_src (cvRect32fFromRect rect p1.rotate)
         (cvPointTo32f p1.shear)]
  | none => .running p1 []

/-- The chain of `if( key == ... )` in the `else` branch at the end of the loop
body: the keys act on the rectangle, the shear and the rotation; the key `E`
reads the size of `img_src`. -/
def rectangle_edit (key : Char) (param : Session) : Outcome :=
  let inc := param.inc
  let r := param.rect
  if key = 'h' then .running { param with rect := { r with x := r.x - inc } } []
  else if key = 'j' then .running { param with rect := { r with y := r.y + inc } } []
  else if key = 'k' then .running { param with rect := { r with y := r.y - inc } } []
  else if key = 'l' then .running { param with rect := { r with x := r.x + inc } } []
  else if key = 'y' then
    .running { param with rect := { r with width := max 0 (r.width - inc) } } []
  else if key = 'u' then .running { param with rect := { r with height := r.height + inc } } []
  else if key = 'i' then
    .running { param with rect := { r with height := max 0 (r.height - inc) } } []
  else if key = 'o' then .running { param with rect := { r with width := r.width + inc } } []
  else if key = 'n' then
    .running { param with shear := { param.shear with x := param.shear.x - inc } } []
  else if key = 'm' then
    .running { param with shear := { param.shear with y := param.shear.y + inc } } []
  else if key = ',' then
    .running { param with shear := { param.shear with y := param.shear.y - inc } } []
  else if key = '.' then
    .running { param with shear := { param.shear with x := param.shear.x + inc } } []
  else if key = 'r' then
    .running { param with rotate := if param.rotate + inc ≥ 360 then param.rotate + inc - 360
                                    else param.rotate + inc } []
  else if key = 'R' then
    .running { param with rotate := if param.rotate - inc < 0 then 360 + (param.rotate - inc)
                                    else param.rotate - inc } []
  else if key = 'e' then
    .running { param with rect := ⟨max 0 (r.x - inc), max 0 (r.y - inc),
                                   r.width + 2 * inc, r.height + 2 * inc⟩ } []
  else if key = 'E' then
    match param.img_src with
    | none => .null_deref []
    | some img_src =>
      .running { param with rect := ⟨min img_src.width (r.x + inc),
                                     min img_src.height (r.y + inc),
                                     max 0 (r.width - 2 * inc),
                                     max 0 (r.height - 2 * inc)⟩ } []
  else .running param []

/-- The `else` branch at the end of the loop body: after the keys have acted,
the rectangle is drawn and cropped for the preview. -/
def rectangle_keys (key : Char) (param : Session) : Outcome :=
  (rectangle_edit key param).bind fun p =>
    match p.img_src with
    | some img_src =>
      .running p
        [Effect.cvShowImageAndRectangle p.img_display (cvRect32fFromRect p.rect p.rotate)
           (cvPointTo32f p.shear),
         Effect.cvShowCroppedImage img_src (cvRect32fFromRect p.rect p.rotate)
           (cvPointTo32f p.shear)]
    | none => .running p []

/-- One pass through the body of the `while( true )` loop of `key_callback` for the
key returned by `cvWaitKey`. -/
def key_step (env : Env) (key : Char) (param : Session) : Outcome :=
  (zoom_keys env key param).bind fun p1 =>
  (if key = 's' ∨ key = Char.ofNat 32 then save env p1 else .running p1 []).bind fun p2 =>
  (navigation_keys env key p2).bind fun p3 =>
  if p3.watershed then watershed_keys env key p3 else rectangle_keys key p3

/-- The first statement of `key_callback`,
`string filename = param->cap == NULL ? *param->fileiter : arg->reference;`:
`none` when the iterator is outside the list. -/
def key_callback_filename (reference : String) (param : Session) : Option String :=
  match param.cap with
  | none => param.filelist.get? param.fileiter
  | some _ => some reference

/-- The part of `key_callback` before the loop: `filename` is chosen, the scale
factor is set to 1.0 and halved once when the frame is larger than the screen,
the display image is created at `img_src->width * scale_factor` by
`img_src->height * scale_factor`, and the image, the rectangle and the preview
are shown. -/
def key_callback_setup (reference : String) (param : Session) : Outcome :=
  match key_callback_filename reference param with
  | none => .null_deref []
  | some filename =>
    match param.img_src with
    | none => .null_deref []
    | some img_src =>
      let scale_factor : ℚ :=
        if img_src.width > param.screen_size.width ∨
            img_src.height > param.screen_size.height then 1 / 2 else 1
      let img_display := cvCreateImage
        ⟨float_to_int (float_mul (int_to_float img_src.width) scale_factor),
         float_to_int (float_mul (int_to_float img_src.height) scale_factor)⟩ img_src
      let rect32f := source_rect32f param.rect scale_factor param.rotate
      .running { param with filename := filename, scale_factor := scale_factor,
                            img_display := some img_display }
        [Effect.cvShowImageAndRectangle (some img_display)
           (cvRect32fFromRect param.rect param.rotate) (cvPointTo32f param.shear),
         Effect.cvShowCroppedImage img_src rect32f (cvPointTo32f param.shear),
         Effect.cvShowImageAndRectangle (some img_display)
           (cvRect32fFromRect param.rect param.rotate) (cvPointTo32f param.shear)]

/-! ## The interactive session -/

/-- An event of the interactive loop: a pointer event delivered to
`mouse_callback`, or a key returned by `cvWaitKey`. -/
inductive Event where
  | mouse (event x y : Int) (flags : Nat)
  | key (key : Char)
deriving DecidableEq

/-- The handling of one event. -/
def handle (env : Env) (e : Event) (param : Session) : Outcome :=
  match e with
  | .mouse event x y flags =>
    .running (mouse_callback env event x y flags param).1
      (mouse_callback env event x y flags param).2
  | .key key => key_step env key param

/-- The sessions after each event of a sequence, in order, up to the event at
which the loop is left or the process ends. -/
def trace (env : Env) : Session → List Event → List Session
  | _, [] => []
  | param, e :: es =>
    match handle env e param with
    | .running p _ => p :: trace env p es
    | _ => []

/-- A sequence of `CV_EVENT_MOUSEMOVE` events, each given by its x, y and flags,
delivered to `mouse_callback` one after the other. -/
def drag (env : Env) (param : Session) : List (Int × Int × Nat) → Session
  | [] => param
  | (x, y, flags) :: moves =>
    drag env (mouse_callback env CV_EVENT_MOUSEMOVE x y flags param).1 moves

/-- The flags of a move with the left button held and neither the shift key nor
the middle button: the move that draws the rectangle. -/
def left_drag_flags (flags : Nat) : Prop :=
  hasFlag flags CV_EVENT_FLAG_LBUTTON = true ∧ hasFlag flags CV_EVENT_FLAG_SHIFTKEY = false ∧
    hasFlag flags CV_EVENT_FLAG_MBUTTON = false

/-- The flags of a move with the right button held and neither the left nor the
middle button: the move that moves or resizes. -/
def right_drag_flags (flags : Nat) : Prop :=
  hasFlag flags CV_EVENT_FLAG_RBUTTON = true ∧ hasFlag flags CV_EVENT_FLAG_LBUTTON = false ∧
    hasFlag flags CV_EVENT_FLAG_MBUTTON = false

instance (flags : Nat) : Decidable (left_drag_flags flags) := by
  unfold left_drag_flags; infer_instance

instance (flags : Nat) : Decidable (right_drag_flags flags) := by
  unfold right_drag_flags; infer_instance

/-- The session `main` starts from: `init_param` with its fourteen `push_back`
calls on `imtypes`, and the `static` locals of `mouse_callback` at their
initial values. -/
def init_param : Session :=
  { img_src := none
    imtypes := ["bmp", "dib", "jpeg", "jpg", "jpe", "png", "pbm", "pbm", "ppm", "sr", "ras",
                "tiff", "exr", "jp2"]
    output_format := ""
    inc := 1
    rect := ⟨0, 0, 0, 0⟩
    rotate := 0
    shear := ⟨0, 0⟩
    circle := ⟨0, 0, 0, 0⟩
    watershed := false
    filelist := []
    fileiter := 0
    cap := none
    frame := 0
    screen_size := ⟨0, 0⟩
    img_display := none
    scale_factor := 1
    cap_scale_factor := 2
    point0 := ⟨0, 0⟩
    move_rect := false
    resize_rect_left := false
    resize_rect_right := false
    resize_rect_top := false
    resize_rect_bottom := false
    move_watershed := false
    resize_watershed := false
    filename := "" }

/-- The alternatives of the line
`bmp|dib|jpeg|jpg|jpe|png|pbm|pgm|ppm|sr|ras|tiff|exr|jp2` that `usage` prints
under "Supported Image Types". -/
def usage_supported_image_types : List String :=
  ["bmp", "dib", "jpeg", "jpg", "jpe", "png", "pbm", "pgm", "ppm", "sr", "ras", "tiff", "exr",
   "jp2"]

/-- The pointer position, as the program reads it, after a sequence of moves that
starts with the pointer at `p`. -/
def pointer_after (p : CvPoint) : List (Int × Int × Nat) → CvPoint
  | [] => p
  | (x, y, _) :: moves => pointer_after ⟨outside_to_negative x, outside_to_negative y⟩ moves

/-- The horizontal state of a resize drag, relative to the edge `fixed` that is
not dragged and to the offset of the dragged edge from the pointer: the
rectangle spans the fixed and the dragged edge, and the active resize flag is
on the side of the fixed edge where the dragged edge lies. -/
def horizontal_resize (fixed offset : Int) (s : Session) : Prop :=
  s.watershed = false ∧ s.move_rect = false ∧
  s.rect.x = min fixed (s.point0.x + offset) ∧
  s.rect.width = |fixed - (s.point0.x + offset)| ∧
  ((s.resize_rect_left = true ∧ s.resize_rect_right = false ∧ s.point0.x + offset ≤ fixed) ∨
   (s.resize_rect_right = true ∧ s.resize_rect_left = false ∧ fixed ≤ s.point0.x + offset))

/-- The vertical state of a resize drag; see `horizontal_resize`. -/
def vertical_resize (fixed offset : Int) (s : Session) : Prop :=
  s.watershed = false ∧ s.move_rect = false ∧
  s.rect.y = min fixed (s.point0.y + offset) ∧
  s.rect.height = |fixed - (s.point0.y + offset)| ∧
  ((s.resize_rect_top = true ∧ s.resize_rect_bottom = false ∧ s.point0.y + offset ≤ fixed) ∨
   (s.resize_rect_bottom = true ∧ s.resize_rect_top = false ∧ fixed ≤ s.point0.y + offset))

/-- A frame is loaded and shown, as it is from `load_reference` on. -/
def loaded (s : Session) : Prop := s.img_src.isSome = true ∧ s.img_display.isSome = true

instance (s : Session) : Decidable (loaded s) := by
  unfold loaded; infer_instance

/-- No drag is in progress: the seven `static` flags of `mouse_callback` are
false, as they are initially and after any button-up. -/
def idle (s : Session) : Prop :=
  s.move_rect = false ∧ s.resize_rect_left = false ∧ s.resize_rect_right = false ∧
  s.resize_rect_top = false ∧ s.resize_rect_bottom = false ∧
  s.move_watershed = false ∧ s.resize_watershed = false

instance (s : Session) : Decidable (idle s) := by
  unfold idle; infer_instance

/-- The event draws the watershed marker (a move with the middle button, or with
the left button and shift) and so leaves the manual rectangle mode. -/
def Event.draws_watershed : Event → Prop
  | .mouse event _ _ flags =>
    event = CV_EVENT_MOUSEMOVE ∧
      (hasFlag flags CV_EVENT_FLAG_MBUTTON = true ∨
        (hasFlag flags CV_EVENT_FLAG_LBUTTON = true ∧
          hasFlag flags CV_EVENT_FLAG_SHIFTKEY = true))
  | .key _ => False

instance (e : Event) : Decidable e.draws_watershed := by
  cases e <;> unfold Event.draws_watershed <;> infer_instance

/-- The manual rectangle mode with a region of non-negative width and height and
an increment step of at least 1. -/
def region_ok (s : Session) : Prop :=
  s.watershed = false ∧ 0 ≤ s.rect.width ∧ 0 ≤ s.rect.height ∧ 1 ≤ s.inc

/-- A concrete environment, used to evaluate the program on examples: the norm is
the integer part of the Euclidean distance, three image files can be read, the
output path ends in `png`, and the products with 1.05 and 0.95 are the `double`
products of the scale factor and the `double` nearest to the constant,
converted to `float`. -/
def sample_env : Env :=
  { cvPointNorm := fun a b => Int.sqrt ((a.x - b.x) * (a.x - b.x) + (a.y - b.y) * (a.y - b.y))
    cvShowImageAndWatershed := fun _ circle =>
      ⟨circle.x - circle.width, circle.y - circle.width, 2 * circle.width, 2 * circle.width⟩
    cvLoadImage := fun path =>
      if path = "a.png" then some ⟨1920, 1080, 1⟩
      else if path = "b.png" then some ⟨640, 480, 2⟩
      else if path = "c.png" then some ⟨4000, 3000, 3⟩
      else none
    icFormat := fun _ dirname filename _ _ _ _ _ _ _ => dirname ++ "/" ++ filename ++ ".png"
    dirname := fun _ => "."
    filename := fun path => path
    extension := fun _ => "png"
    realpath := fun path => path
    match_extensions := fun _ imtypes => imtypes.contains "png"
    mul_1_05 := fun q => to_float (to_double (q * to_double (21 / 20)))
    mul_0_95 := fun q => to_float (to_double (q * to_double (19 / 20))) }

/-- A concrete session in directory mode on a 1366 x 768 screen: of the three
files `a.png` (1920 x 1080), `b.png` (640 x 480) and `c.png` (4000 x 3000) the
second is shown, at scale 1, with the region (10, 10, 10, 20). -/
def sample_session : Session :=
  { init_param with
    img_src := some ⟨640, 480, 2⟩
    img_display := some ⟨640, 480, 2⟩
    screen_size := ⟨1366, 768⟩
    filelist := ["a.png", "b.png", "c.png"]
    fileiter := 1
    filename := "b.png"
    rect := ⟨10, 10, 10, 20⟩ }

/-- The rectangle side `pos`, `size` spans a fixed and a dragged edge, the size
is not negative, and of the two resize flags the one of the lower side
(`low`: left, top) is set when the dragged edge is below the fixed one, the one
of the upper side (`high`: right, bottom) when it is above, and exactly one of
them is set in every case. -/
def spans (fixed dragged pos size : Int) (low high : Bool) : Prop :=
  pos = min fixed dragged ∧ size = |fixed - dragged| ∧ 0 ≤ size ∧
  (dragged < fixed → low = true ∧ high = false) ∧
  (fixed < dragged → high = true ∧ low = false) ∧
  low ≠ high

/-- The fields that the keys of the zoom, save and navigation parts leave alone. -/
def same_selection (a b : Session) : Prop :=
  b.rect = a.rect ∧ b.watershed = a.watershed ∧ b.rotate = a.rotate ∧ b.shear = a.shear ∧
  b.circle = a.circle

/-- The sample session with the region (0, 0, 0, 0) that `main` starts from. -/
def initial_session : Session := { sample_session with rect := ⟨0, 0, 0, 0⟩ }

/-- A concrete session in video mode on a 1366 x 768 screen: a stream of four
1920 x 1080 frames, the second of which is shown at scale 0.5 as a 960 x 540
display image (what `key_callback` sets up), with the region (10, 10, 10, 20). -/
def video_session : Session :=
  { init_param with
    img_src := some ⟨1920, 1080, 2⟩
    img_display := some ⟨960, 540, 2⟩
    screen_size := ⟨1366, 768⟩
    cap := some ⟨[⟨1920, 1080, 1⟩, ⟨1920, 1080, 2⟩, ⟨1920, 1080, 3⟩, ⟨1920, 1080, 4⟩], 2⟩
    frame := 2
    scale_factor := 1 / 2
    filename := "movie.avi"
    rect := ⟨10, 10, 10, 20⟩ }

/-- The frame of size w x h halved k times fits the screen of size W x H. -/
def fits_after (W H w h : Int) (k : Nat) : Prop := w / 2 ^ k ≤ W ∧ h / 2 ^ k ≤ H

instance (W H w h : Int) (k : Nat) : Decidable (fits_after W H w h k) := by
  unfold fits_after; infer_instance

/-- The fields of the media source and of the display: the file list and its
cursor, the capture and its frame number, the loaded frame, the display image,
the scale factor, the screen size and the file name. -/
def same_media (a b : Session) : Prop :=
  b.filelist = a.filelist ∧ b.fileiter = a.fileiter ∧ b.cap = a.cap ∧ b.frame = a.frame ∧
  b.img_src = a.img_src ∧ b.img_display = a.img_display ∧
  b.scale_factor = a.scale_factor ∧ b.screen_size = a.screen_size ∧
  b.filename = a.filename

/-- Directory mode with the file list `filelist` and the cursor inside it. -/
def cursor_ok (filelist : List String) (s : Session) : Prop :=
  s.cap = none ∧ s.filelist = filelist ∧ s.fileiter < filelist.length

/-- The rotation after the key `r`: one step forward, less 360 from 360 on. -/
def rotate_r (rotate inc : Int) : Int :=
  if rotate + inc ≥ 360 then rotate + inc - 360 else rotate + inc

/-- The rotation after the key `R`: one step back, plus 360 below 0. -/
def rotate_R (rotate inc : Int) : Int :=
  if rotate - inc < 0 then 360 + (rotate - inc) else rotate - inc

/-- The call belongs to an export: the formatting of the output path, the
creation of a directory, the crop from the source or the writing of a file. -/
def Effect.is_export : Effect → Bool
  | .icFormat .. => true
  | .create_directories _ => true
  | .cvCropImageROI .. => true
  | .cvSaveImage .. => true
  | _ => false

/-- The call writes an image file. -/
def Effect.writes_file : Effect → Bool
  | .cvSaveImage .. => true
  | _ => false

/-- The two calls of the redraw at the end of the loop body in rectangle mode,
made `if( param->img_src )`. -/
def redraw_calls (p : Session) : List Effect :=
  match p.img_src with
  | some img_src =>
    [Effect.cvShowImageAndRectangle p.img_display (cvRect32fFromRect p.rect p.rotate)
       (cvPointTo32f p.shear),
     Effect.cvShowCroppedImage img_src (cvRect32fFromRect p.rect p.rotate)
       (cvPointTo32f p.shear)]
  | none => []

/-- The sample session after the rotation, the shear and the watershed mode have
been set by keys and by a drag of the watershed marker. -/
def turned_session : Session :=
  { sample_session with rotate := 90, shear := ⟨3, 4⟩, watershed := true }

/-- The increment step after the chain of `else if` for the key. -/
def inc_after (key : Char) (inc : Int) : Int :=
  if key = '+' then inc + 1 else if key = '-' then max 1 (inc - 1) else inc

/-- The calls made on the way to an outcome. -/
def Outcome.calls : Outcome → List Effect
  | .running _ out => out
  | .quit _ out => out
  | .exit1 out => out
  | .null_deref out => out
  | .hang out => out

/-- The calls of an outcome that belong to an export, in order. -/
def Outcome.exports (o : Outcome) : List Effect := o.calls.filter Effect.is_export

/-- The outcome without its calls: how the pass ends, and with which session. -/
def Outcome.result : Outcome → Outcome
  | .running param _ => .running param []
  | .quit param _ => .quit param []
  | .exit1 _ => .exit1 []
  | .null_deref _ => .null_deref []
  | .hang _ => .hang []

/-- The two passes that SPACE is compared with: the pass through the loop body
for the key `s` and then, when the loop goes on, the pass for the key `f`. -/
def save_then_forward (env : Env) (param : Session) : Outcome :=
  (key_step env 's' param).bind (key_step env 'f')

/-- The `output_path` that `Save` builds with `icFormat` for the session. -/
def save_output_path (env : Env) (param : Session) : String :=
  let r := source_rect32f param.rect param.scale_factor param.rotate
  env.icFormat param.output_format (env.dirname param.filename)
    (env.filename param.filename) (env.extension param.filename)
    r.x r.y r.width r.height param.frame param.rotate

/-- The four calls of an export of the region of `param` from the frame `img`:
the output path is formatted, its directory is created, the crop is taken from
`img` and the file is written. -/
def export_calls (env : Env) (img : IplImage) (param : Session) : List Effect :=
  let r := source_rect32f param.rect param.scale_factor param.rotate
  let output_path := save_output_path env param
  let crop := cvCreateImage (crop_size param.rect param.scale_factor) img
  [Effect.icFormat param.output_format (env.dirname param.filename)
     (env.filename param.filename) (env.extension param.filename)
     r.x r.y r.width r.height param.frame param.rotate,
   Effect.create_directories (env.dirname output_path),
   Effect.cvCropImageROI img crop r (cvPointTo32f param.shear),
   Effect.cvSaveImage (env.realpath output_path) crop]

/-- The state of a move drag of a region of size w x h, relative to the offset
(dx, dy) of the position of the region from the pointer: rectangle mode,
`move_rect` set and no resize flag set, the position at the pointer plus the
offset, and the size, the rotation and the shear as given. -/
def move_drag (dx dy w h rotate : Int) (shear : CvPoint) (s : Session) : Prop :=
  s.watershed = false ∧ s.move_rect = true ∧
  s.resize_rect_left = false ∧ s.resize_rect_right = false ∧
  s.resize_rect_top = false ∧ s.resize_rect_bottom = false ∧
  s.rect.x = s.point0.x + dx ∧ s.rect.y = s.point0.y + dy ∧
  s.rect.width = w ∧ s.rect.height = h ∧ s.rotate = rotate ∧ s.shear = shear

/-- The session of `main` on a directory whose only image file is the
4000 x 3000 image `c.png`, before `load_reference` loads it. -/
def large_image_session : Session := { init_param with filelist := ["c.png"] }

/-- An `int` that the conversion to `float` keeps as it is: its magnitude is at
most 2^24. -/
def float_exact (n : Int) : Prop := -16777216 ≤ n ∧ n ≤ 16777216

instance (n : Int) : Decidable (float_exact n) := by
  unfold float_exact; infer_instance

/-- The greatest value of the 32-bit `int`. -/
def INT_MAX : Int := 2147483647

/-- The video session with a region whose x is 2^24 + 1, for which `float` has no
value. -/
def far_region_session : Session := { video_session with rect := ⟨16777217, 10, 10, 20⟩ }

/-- A session in directory mode with the 1920 x 1080 frame of `a.png` loaded on a
1366 x 768 screen that comes with the scale factor 1/8 and a 240 x 135 display
image. -/
def drifted_session : Session :=
  { init_param with
    img_src := some ⟨1920, 1080, 1⟩
    img_display := some ⟨240, 135, 1⟩
    screen_size := ⟨1366, 768⟩
    filelist := ["a.png"]
    scale_factor := 1 / 2 / 2 / 2 }

/-! ## Theorems -/

/-! ### Binary32 arithmetic -/

theorem float_to_int_intCast (n : Int) : float_to_int (n : ℚ) = n := by
  unfold float_to_int
  split_ifs
  · exact Int.floor_intCast n
  · exact Int.ceil_intCast n

theorem round_half_even_intCast (n : Int) : round_half_even (n : ℚ) = n := by
  unfold round_half_even
  rw [Int.floor_intCast, sub_self, if_pos (by norm_num)]

/-- A rational N * 2^i whose exponent i is not below that of the unit in the
last place is a value of the format: rounding leaves it as it is. -/
theorem round_binary_exact (p : Nat) (emin : Int) (N i : Int) (q : ℚ)
    (hq : q = N * (2 : ℚ) ^ i)
    (hi : max (Int.log 2 |q|) emin - ((p : Int) - 1) ≤ i) :
    round_binary p emin q = q := by
  unfold round_binary binary_ulp
  generalize max (Int.log 2 |q|) emin - ((p : Int) - 1) = u at hi
  have h2 : (2 : ℚ) ≠ 0 := by norm_num
  obtain ⟨d, hd⟩ := Int.eq_ofNat_of_zero_le (sub_nonneg.mpr hi)
  have e : q / (2 : ℚ) ^ u = ((N * 2 ^ d : Int) : ℚ) := by
    rw [hq, mul_div_assoc, ← zpow_sub₀ h2, hd]
    push_cast
    rw [zpow_natCast]
  rw [e, round_half_even_intCast]
  push_cast
  rw [hq, mul_assoc, ← zpow_natCast, ← hd, ← zpow_add₀ h2]
  congr 2
  omega

/-- The value of the format is determined by the power of two at or below the
magnitude of the rational. -/
theorem round_binary_of_log (p : Nat) (emin e : Int) (q : ℚ) (he : emin ≤ e)
    (h1 : (2 : ℚ) ^ e ≤ |q|) (h2 : |q| < (2 : ℚ) ^ (e + 1)) :
    round_binary p emin q =
      round_half_even (q / (2 : ℚ) ^ (e - ((p : Int) - 1))) * (2 : ℚ) ^ (e - ((p : Int) - 1)) := by
  have hpos : 0 < |q| := lt_of_lt_of_le (by positivity) h1
  have a : e ≤ Int.log 2 |q| :=
    (Int.zpow_le_iff_le_log (by norm_num) hpos).mp (by exact_mod_cast h1)
  have b : Int.log 2 |q| < e + 1 :=
    (Int.lt_zpow_iff_log_lt (by norm_num) hpos).mp (by exact_mod_cast h2)
  have c : max (Int.log 2 |q|) emin = e := by
    rw [max_eq_left (by omega)]
    omega
  unfold round_binary binary_ulp
  rw [c]

theorem log_abs_lt (q : ℚ) (n : Int) (h : |q| < (2 : ℚ) ^ n) (hn : 0 < n) :
    Int.log 2 |q| < n := by
  by_cases h0 : q = 0
  · rw [h0, abs_zero, Int.log_zero_right]; exact hn
  · have hpos : 0 < |q| := abs_pos.mpr h0
    exact (Int.lt_zpow_iff_log_lt (by norm_num) hpos).mp (by exact_mod_cast h)

theorem to_float_int_mul_pow (m : Int) (j : Nat) (hm : |m| < 2 ^ 24) :
    to_float ((m : ℚ) * 2 ^ j) = m * 2 ^ j := by
  unfold to_float
  apply round_binary_exact 24 (-126) m j
  · rw [zpow_natCast]
  · have hlt : |(m : ℚ) * 2 ^ j| < (2 : ℚ) ^ ((j : Int) + 24) := by
      rw [abs_mul, abs_of_pos (by positivity : (0 : ℚ) < 2 ^ j), zpow_add₀ (by norm_num),
        zpow_natCast, mul_comm]
      apply mul_lt_mul_of_pos_left _ (by positivity)
      have h3 : ((|m| : Int) : ℚ) < ((2 ^ 24 : Int) : ℚ) := Int.cast_lt.mpr hm
      rw [Int.cast_abs] at h3
      push_cast at h3
      exact lt_of_lt_of_eq h3 (by norm_num)
    have hl := log_abs_lt _ _ hlt (by omega)
    have : max (Int.log 2 |(m : ℚ) * 2 ^ j|) (-126) ≤ (j : Int) + 23 := by
      apply max_le <;> omega
    push_cast
    omega

/-- An `int` of magnitude at most 2^24 times a power of two is a binary32 value. -/
theorem to_float_exact (m : Int) (j : Nat) (hm : |m| ≤ 2 ^ 24) :
    to_float ((m : ℚ) * 2 ^ j) = m * 2 ^ j := by
  rcases lt_or_eq_of_le hm with h | h
  · exact to_float_int_mul_pow m j h
  · have hc : m = 2 ^ 24 ∨ m = -(2 ^ 24) := by
      rcases abs_cases m with ⟨h1, _⟩ | ⟨h1, _⟩ <;> omega
    rcases hc with rfl | rfl
    · have := to_float_int_mul_pow 1 (j + 24) (by norm_num)
      have e : ((2 ^ 24 : Int) : ℚ) * 2 ^ j = ((1 : Int) : ℚ) * 2 ^ (j + 24) := by
        push_cast; ring
      rw [e]; exact this
    · have := to_float_int_mul_pow (-1) (j + 24) (by norm_num)
      have e : ((-(2 ^ 24) : Int) : ℚ) * 2 ^ j = ((-1 : Int) : ℚ) * 2 ^ (j + 24) := by
        push_cast; ring
      rw [e]; exact this

theorem float_exact_abs (n : Int) (h : float_exact n) : |n| ≤ 2 ^ 24 := by
  obtain ⟨a, b⟩ := h
  rw [abs_le]
  constructor <;> omega

theorem int_to_float_exact (n : Int) (h : float_exact n) : int_to_float n = n := by
  have e := to_float_exact n 0 (float_exact_abs n h)
  simp only [pow_zero, mul_one] at e
  exact e

/-- The quotient `1/scale_factor` for the scale factor 2^(-k) is 2^k. -/
theorem float_div_one_two_pow (k : Nat) : float_div 1 (1 / 2 ^ k) = 2 ^ k := by
  have e := to_float_exact 1 k (by norm_num)
  simp only [Int.cast_one, one_mul] at e
  unfold float_div
  rw [one_div_one_div]
  exact e

/-- The product of an `int` of magnitude at most 2^24 with `1/scale_factor`, for
the scale factor 2^(-k), is the `int` times 2^k. -/
theorem int_mul_inv_two_pow (n : Int) (k : Nat) (h : float_exact n) :
    float_mul (int_to_float n) (float_div 1 (1 / 2 ^ k)) = ((n * 2 ^ k : Int) : ℚ) := by
  rw [int_to_float_exact n h, float_div_one_two_pow]
  unfold float_mul
  rw [to_float_exact n k (float_exact_abs n h)]
  push_cast
  rfl

/-- The product of an even `int` of magnitude at most 2^24 with the scale factor
1/2 is half the `int`. -/
theorem int_mul_half (n : Int) (h : float_exact (2 * n)) :
    float_to_int (float_mul (int_to_float (2 * n)) (1 / 2)) = n := by
  have hn : float_exact n := by
    obtain ⟨a, b⟩ := h
    constructor <;> omega
  rw [int_to_float_exact _ h]
  unfold float_mul
  have e : (((2 * n : Int)) : ℚ) * (1 / 2) = (n : ℚ) := by
    push_cast; ring
  rw [e]
  have e2 : to_float (n : ℚ) = n := int_to_float_exact n hn
  rw [e2, float_to_int_intCast]

theorem scaled_rect32f_two_pow (rect : CvRect) (rotate : Int) (k : Nat)
    (hx : float_exact rect.x) (hy : float_exact rect.y) (hw : float_exact rect.width)
    (hh : float_exact rect.height) :
    scaled_rect32f rect (1 / 2 ^ k) rotate =
      ⟨rect.x * 2 ^ k, rect.y * 2 ^ k, rect.width * 2 ^ k, rect.height * 2 ^ k, rotate⟩ := by
  unfold scaled_rect32f
  rw [int_mul_inv_two_pow _ k hx, int_mul_inv_two_pow _ k hy, int_mul_inv_two_pow _ k hw,
    int_mul_inv_two_pow _ k hh]
  push_cast
  rfl

/-- The `float` nearest to 2^24 + 1 is 2^24: the tie goes to the even
significand. -/
theorem int_to_float_16777217 : int_to_float 16777217 = 16777216 := by
  unfold int_to_float to_float
  rw [round_binary_of_log 24 (-126) 24 _ (by norm_num) (by norm_num [abs_of_nonneg])
    (by norm_num [abs_of_nonneg])]
  have e : (((16777217 : Int) : ℚ)) / (2 : ℚ) ^ ((24 : Int) - (((24 : Nat) : Int) - 1)) =
      (8388608 : ℚ) + 1 / 2 := by
    norm_num
  have hf : ⌊(8388608 : ℚ) + 1 / 2⌋ = 8388608 := by
    rw [Int.floor_eq_iff]
    constructor <;> norm_num
  rw [e]
  unfold round_half_even
  rw [hf]
  norm_num

/-! ### Dispatch of `mouse_callback` -/

theorem abs_sub_cases (a b : Int) : |a - b| = if a ≤ b then b - a else a - b := by
  split
  · rw [abs_of_nonpos (by omega)]; omega
  · rw [abs_of_nonneg (by omega)]

theorem loaded_iff (s : Session) :
    loaded s ↔ ∃ img disp, s.img_src = some img ∧ s.img_display = some disp := by
  unfold loaded
  constructor
  · rintro ⟨h1, h2⟩
    obtain ⟨img, himg⟩ := Option.isSome_iff_exists.mp h1
    obtain ⟨disp, hdisp⟩ := Option.isSome_iff_exists.mp h2
    exact ⟨img, disp, himg, hdisp⟩
  · rintro ⟨img, disp, h1, h2⟩
    simp [h1, h2]

theorem mouse_callback_left_down (env : Env) (param : Session) (hl : loaded param)
    (x y : Int) (flags : Nat) (hshift : hasFlag flags CV_EVENT_FLAG_SHIFTKEY = false) :
    mouse_callback env CV_EVENT_LBUTTONDOWN x y flags param =
      left_down (outside_to_negative x) (outside_to_negative y) param := by
  obtain ⟨img, disp, hsrc, hdisp⟩ := (loaded_iff param).mp hl
  simp [mouse_callback, hsrc, hdisp, hshift, CV_EVENT_LBUTTONDOWN, CV_EVENT_MBUTTONDOWN,
    CV_EVENT_MOUSEMOVE]

theorem mouse_callback_left_move (env : Env) (param : Session) (img : IplImage)
    (hsrc : param.img_src = some img) (hdisp : param.img_display.isSome = true)
    (x y : Int) (flags : Nat) (hf : left_drag_flags flags) :
    mouse_callback env CV_EVENT_MOUSEMOVE x y flags param =
      left_move (outside_to_negative x) (outside_to_negative y) img param := by
  obtain ⟨hl, hs, hm⟩ := hf
  obtain ⟨disp, hdisp⟩ := Option.isSome_iff_exists.mp hdisp
  simp [mouse_callback, hsrc, hdisp, hl, hs, hm, CV_EVENT_LBUTTONDOWN, CV_EVENT_MBUTTONDOWN,
    CV_EVENT_MOUSEMOVE]

theorem mouse_callback_right_down (env : Env) (param : Session) (hl : loaded param)
    (x y : Int) (flags : Nat) :
    mouse_callback env CV_EVENT_RBUTTONDOWN x y flags param =
      right_down env (outside_to_negative x) (outside_to_negative y) param := by
  obtain ⟨img, disp, hsrc, hdisp⟩ := (loaded_iff param).mp hl
  simp [mouse_callback, hsrc, hdisp, CV_EVENT_LBUTTONDOWN, CV_EVENT_MBUTTONDOWN,
    CV_EVENT_MOUSEMOVE, CV_EVENT_RBUTTONDOWN]

theorem mouse_callback_right_move (env : Env) (param : Session) (img : IplImage)
    (hsrc : param.img_src = some img) (hdisp : param.img_display.isSome = true)
    (hws : param.watershed = false)
    (x y : Int) (flags : Nat) (hf : right_drag_flags flags) :
    mouse_callback env CV_EVENT_MOUSEMOVE x y flags param =
      right_move (outside_to_negative x) (outside_to_negative y) img param := by
  obtain ⟨hr, hl, hm⟩ := hf
  obtain ⟨disp, hdisp⟩ := Option.isSome_iff_exists.mp hdisp
  simp [mouse_callback, hsrc, hdisp, hl, hr, hm, hws, CV_EVENT_LBUTTONDOWN,
    CV_EVENT_MBUTTONDOWN, CV_EVENT_MOUSEMOVE, CV_EVENT_RBUTTONDOWN]

theorem right_down_watershed_images (env : Env) (param : Session) :
    (right_down_watershed env param).img_src = param.img_src ∧
    (right_down_watershed env param).img_display = param.img_display := by
  unfold right_down_watershed
  dsimp only
  split_ifs <;> exact ⟨rfl, rfl⟩

theorem right_down_rectangle_images (x y : Int) (param : Session) :
    (right_down_rectangle x y param).img_src = param.img_src ∧
    (right_down_rectangle x y param).img_display = param.img_display := by
  exact ⟨rfl, rfl⟩

theorem assure_width_fields (p : Session) :
    (assure_width p).rect.x = (if p.rect.width ≤ 0 then p.rect.x + p.rect.width else p.rect.x) ∧
    (assure_width p).rect.width = (if p.rect.width ≤ 0 then -p.rect.width else p.rect.width) ∧
    (assure_width p).resize_rect_left =
      (if p.rect.width ≤ 0 then p.resize_rect_right else p.resize_rect_left) ∧
    (assure_width p).resize_rect_right =
      (if p.rect.width ≤ 0 then p.resize_rect_left else p.resize_rect_right) ∧
    (assure_width p).rect.y = p.rect.y ∧ (assure_width p).rect.height = p.rect.height ∧
    (assure_width p).resize_rect_top = p.resize_rect_top ∧
    (assure_width p).resize_rect_bottom = p.resize_rect_bottom := by
  unfold assure_width
  split_ifs <;> simp

theorem assure_height_fields (p : Session) :
    (assure_height p).rect.y = (if p.rect.height ≤ 0 then p.rect.y + p.rect.height else p.rect.y) ∧
    (assure_height p).rect.height =
      (if p.rect.height ≤ 0 then -p.rect.height else p.rect.height) ∧
    (assure_height p).resize_rect_top =
      (if p.rect.height ≤ 0 then p.resize_rect_bottom else p.resize_rect_top) ∧
    (assure_height p).resize_rect_bottom =
      (if p.rect.height ≤ 0 then p.resize_rect_top else p.resize_rect_bottom) ∧
    (assure_height p).rect.x = p.rect.x ∧ (assure_height p).rect.width = p.rect.width ∧
    (assure_height p).resize_rect_left = p.resize_rect_left ∧
    (assure_height p).resize_rect_right = p.resize_rect_right := by
  unfold assure_height
  split_ifs <;> simp

/-- The fields that the two sign corrections leave alone. -/
theorem assure_width_frame (p : Session) :
    (assure_width p).img_src = p.img_src ∧ (assure_width p).img_display = p.img_display ∧
    (assure_width p).watershed = p.watershed ∧ (assure_width p).move_rect = p.move_rect ∧
    (assure_width p).inc = p.inc ∧ (assure_width p).rotate = p.rotate ∧
    (assure_width p).shear = p.shear ∧ (assure_width p).scale_factor = p.scale_factor := by
  unfold assure_width
  split_ifs <;> simp

theorem assure_height_frame (p : Session) :
    (assure_height p).img_src = p.img_src ∧ (assure_height p).img_display = p.img_display ∧
    (assure_height p).watershed = p.watershed ∧ (assure_height p).move_rect = p.move_rect ∧
    (assure_height p).inc = p.inc ∧ (assure_height p).rotate = p.rotate ∧
    (assure_height p).shear = p.shear ∧ (assure_height p).scale_factor = p.scale_factor := by
  unfold assure_height
  split_ifs <;> simp

theorem apply_move_fields (x y : Int) (p : Session) :
    (apply_move x y p).x =
      (if p.move_rect then p.rect.x + (x - p.point0.x) else p.rect.x) +
        (if p.resize_rect_left then x - p.point0.x else 0) ∧
    (apply_move x y p).width =
      (if p.resize_rect_left then p.rect.width - (x - p.point0.x)
       else if p.resize_rect_right then p.rect.width + (x - p.point0.x) else p.rect.width) ∧
    (apply_move x y p).y =
      (if p.move_rect then p.rect.y + (y - p.point0.y) else p.rect.y) +
        (if p.resize_rect_top then y - p.point0.y else 0) ∧
    (apply_move x y p).height =
      (if p.resize_rect_top then p.rect.height - (y - p.point0.y)
       else if p.resize_rect_bottom then p.rect.height + (y - p.point0.y)
       else p.rect.height) := by
  unfold apply_move
  dsimp only
  split_ifs <;> simp

theorem right_down_images (env : Env) (x y : Int) (param : Session) :
    (right_down env x y param).1.img_src = param.img_src ∧
    (right_down env x y param).1.img_display = param.img_display := by
  unfold right_down
  dsimp only
  split_ifs
  · exact ⟨(right_down_rectangle_images _ _ _).1.trans (right_down_watershed_images _ _).1,
      (right_down_rectangle_images _ _ _).2.trans (right_down_watershed_images _ _).2⟩
  · exact right_down_watershed_images _ _

theorem right_move_watershed_images (env : Env) (x y : Int) (img : IplImage) (param : Session) :
    (right_move_watershed env x y img param).1.img_src = param.img_src ∧
    (right_move_watershed env x y img param).1.img_display = param.img_display := by
  unfold right_move_watershed
  dsimp only
  split_ifs <;> exact ⟨rfl, rfl⟩

theorem right_move_images (x y : Int) (img : IplImage) (param : Session) :
    (right_move x y img param).1.img_src = param.img_src ∧
    (right_move x y img param).1.img_display = param.img_display :=
  ⟨(assure_height_frame _).1.trans (assure_width_frame _).1,
    (assure_height_frame _).2.1.trans (assure_width_frame _).2.1⟩

theorem mouse_callback_images (env : Env) (event x y : Int) (flags : Nat) (param : Session) :
    (mouse_callback env event x y flags param).1.img_src = param.img_src ∧
    (mouse_callback env event x y flags param).1.img_display = param.img_display := by
  unfold mouse_callback
  split
  · dsimp only
    split_ifs
    · exact ⟨rfl, rfl⟩
    · exact ⟨rfl, rfl⟩
    · exact ⟨rfl, rfl⟩
    · exact ⟨rfl, rfl⟩
    · exact right_down_images _ _ _ _
    · exact right_move_watershed_images _ _ _ _ _
    · exact right_move_images _ _ _ _
    · exact ⟨rfl, rfl⟩
    · exact ⟨rfl, rfl⟩
  · exact ⟨rfl, rfl⟩

theorem mouse_callback_loaded (env : Env) (event x y : Int) (flags : Nat) (param : Session)
    (hl : loaded param) : loaded (mouse_callback env event x y flags param).1 := by
  unfold loaded at hl ⊢
  rw [(mouse_callback_images env event x y flags param).1,
    (mouse_callback_images env event x y flags param).2]
  exact hl

/-! ### The resize drag -/

theorem right_move_fields (x y : Int) (img : IplImage) (p : Session) :
    (right_move x y img p).1.rect.x =
      (if (apply_move x y p).width ≤ 0 then (apply_move x y p).x + (apply_move x y p).width
       else (apply_move x y p).x) ∧
    (right_move x y img p).1.rect.width =
      (if (apply_move x y p).width ≤ 0 then -(apply_move x y p).width
       else (apply_move x y p).width) ∧
    (right_move x y img p).1.resize_rect_left =
      (if (apply_move x y p).width ≤ 0 then p.resize_rect_right else p.resize_rect_left) ∧
    (right_move x y img p).1.resize_rect_right =
      (if (apply_move x y p).width ≤ 0 then p.resize_rect_left else p.resize_rect_right) ∧
    (right_move x y img p).1.rect.y =
      (if (apply_move x y p).height ≤ 0 then (apply_move x y p).y + (apply_move x y p).height
       else (apply_move x y p).y) ∧
    (right_move x y img p).1.rect.height =
      (if (apply_move x y p).height ≤ 0 then -(apply_move x y p).height
       else (apply_move x y p).height) ∧
    (right_move x y img p).1.resize_rect_top =
      (if (apply_move x y p).height ≤ 0 then p.resize_rect_bottom else p.resize_rect_top) ∧
    (right_move x y img p).1.resize_rect_bottom =
      (if (apply_move x y p).height ≤ 0 then p.resize_rect_top else p.resize_rect_bottom) ∧
    (right_move x y img p).1.point0 = ⟨x, y⟩ := by
  have eh := assure_height_fields (assure_width { p with rect := apply_move x y p })
  have ew := assure_width_fields { p with rect := apply_move x y p }
  obtain ⟨eh1, eh2, eh3, eh4, eh5, eh6, eh7, eh8⟩ := eh
  obtain ⟨ew1, ew2, ew3, ew4, ew5, ew6, ew7, ew8⟩ := ew
  refine ⟨?_, ?_, ?_, ?_, ?_, ?_, ?_, ?_, rfl⟩
  · exact eh5.trans ew1
  · exact eh6.trans ew2
  · exact eh7.trans ew3
  · exact eh8.trans ew4
  · exact eh1.trans (by rw [ew5, ew6])
  · exact eh2.trans (by rw [ew6])
  · exact eh3.trans (by rw [ew6, ew7, ew8])
  · exact eh4.trans (by rw [ew6, ew7, ew8])

theorem right_move_frame (x y : Int) (img : IplImage) (p : Session) :
    (right_move x y img p).1.img_src = p.img_src ∧
    (right_move x y img p).1.img_display = p.img_display ∧
    (right_move x y img p).1.watershed = p.watershed ∧
    (right_move x y img p).1.move_rect = p.move_rect ∧
    (right_move x y img p).1.inc = p.inc ∧ (right_move x y img p).1.rotate = p.rotate ∧
    (right_move x y img p).1.shear = p.shear ∧
    (right_move x y img p).1.scale_factor = p.scale_factor := by
  have eh := assure_height_frame (assure_width { p with rect := apply_move x y p })
  have ew := assure_width_frame { p with rect := apply_move x y p }
  obtain ⟨eh1, eh2, eh3, eh4, eh5, eh6, eh7, eh8⟩ := eh
  obtain ⟨ew1, ew2, ew3, ew4, ew5, ew6, ew7, ew8⟩ := ew
  exact ⟨eh1.trans ew1, eh2.trans ew2, eh3.trans ew3, eh4.trans ew4, eh5.trans ew5,
    eh6.trans ew6, eh7.trans ew7, eh8.trans ew8⟩

theorem right_move_horizontal (fixed offset : Int) (param : Session) (img : IplImage)
    (h : horizontal_resize fixed offset param) (x y : Int) :
    horizontal_resize fixed offset (right_move x y img param).1 := by
  obtain ⟨hws, hmv, hx, hw, hact⟩ := h
  rw [abs_sub_cases] at hw
  unfold horizontal_resize
  rw [abs_sub_cases]
  obtain ⟨e1, e2, e3, e4, -, -, -, -, e5⟩ := right_move_fields x y img param
  obtain ⟨-, -, f1, f2, -⟩ := right_move_frame x y img param
  obtain ⟨em1, em2, -, -⟩ := apply_move_fields x y param
  rw [e1, e2, e3, e4, e5, f1, f2, em1, em2, hmv, hws, hx, hw]
  clear e1 e2 e3 e4 e5 f1 f2 em1 em2 hx hw
  rcases hact with ⟨ha, hb, hle⟩ | ⟨ha, hb, hle⟩
  · simp only [ha, hb, min_def]
    split_ifs <;> first | contradiction | (simp; omega)
  · simp only [ha, hb, min_def]
    split_ifs <;> first | contradiction | (simp; omega)

theorem right_move_vertical (fixed offset : Int) (param : Session) (img : IplImage)
    (h : vertical_resize fixed offset param) (x y : Int) :
    vertical_resize fixed offset (right_move x y img param).1 := by
  obtain ⟨hws, hmv, hx, hw, hact⟩ := h
  rw [abs_sub_cases] at hw
  unfold vertical_resize
  rw [abs_sub_cases]
  obtain ⟨-, -, -, -, e1, e2, e3, e4, e5⟩ := right_move_fields x y img param
  obtain ⟨-, -, f1, f2, -⟩ := right_move_frame x y img param
  obtain ⟨-, -, em1, em2⟩ := apply_move_fields x y param
  rw [e1, e2, e3, e4, e5, f1, f2, em1, em2, hmv, hws, hx, hw]
  clear e1 e2 e3 e4 e5 f1 f2 em1 em2 hx hw
  rcases hact with ⟨ha, hb, hle⟩ | ⟨ha, hb, hle⟩
  · simp only [ha, hb, min_def]
    split_ifs <;> first | contradiction | (simp; omega)
  · simp only [ha, hb, min_def]
    split_ifs <;> first | contradiction | (simp; omega)

theorem right_down_watershed_off (env : Env) (p : Session) (h : p.watershed = false) :
    right_down_watershed env p = p := by
  unfold right_down_watershed
  simp [h]

theorem right_down_idle (env : Env) (x y : Int) (p : Session) (hws : p.watershed = false)
    (hi : idle p) :
    (right_down env x y p).1 = right_down_rectangle x y { p with point0 := ⟨x, y⟩ } := by
  obtain ⟨-, -, -, -, -, h6, h7⟩ := hi
  have e := right_down_watershed_off env { p with point0 := ⟨x, y⟩ } hws
  unfold right_down
  dsimp only
  rw [e]
  simp [h6, h7]

theorem right_down_horizontal_left (env : Env) (x y : Int) (p : Session)
    (hws : p.watershed = false) (hi : idle p) (hw : 0 ≤ p.rect.width) (hx : x ≤ p.rect.x) :
    horizontal_resize (p.rect.x + p.rect.width) (p.rect.x - x) (right_down env x y p).1 := by
  rw [right_down_idle env x y p hws hi]
  obtain ⟨h1, h2, h3, -⟩ := hi
  unfold horizontal_resize right_down_rectangle
  rw [abs_sub_cases, min_def]
  dsimp only
  refine ⟨rfl, ?_, ?_, ?_, Or.inl ?_⟩
  · simp [h1]; omega
  · split_ifs <;> omega
  · split_ifs <;> omega
  · simp [h2, h3, hx]; omega

theorem right_down_horizontal_right (env : Env) (x y : Int) (p : Session)
    (hws : p.watershed = false) (hi : idle p) (hw : 0 ≤ p.rect.width) (hx : p.rect.x < x)
    (hx2 : p.rect.x + p.rect.width ≤ x) :
    horizontal_resize p.rect.x (p.rect.x + p.rect.width - x) (right_down env x y p).1 := by
  rw [right_down_idle env x y p hws hi]
  obtain ⟨h1, h2, h3, -⟩ := hi
  unfold horizontal_resize right_down_rectangle
  rw [abs_sub_cases, min_def]
  dsimp only
  refine ⟨rfl, ?_, ?_, ?_, Or.inr ?_⟩
  · simp [h1]; omega
  · split_ifs <;> omega
  · split_ifs <;> omega
  · simp [h2, h3, not_le.mpr hx]; omega

theorem right_down_vertical_top (env : Env) (x y : Int) (p : Session)
    (hws : p.watershed = false) (hi : idle p) (hw : 0 ≤ p.rect.height) (hy : y ≤ p.rect.y) :
    vertical_resize (p.rect.y + p.rect.height) (p.rect.y - y) (right_down env x y p).1 := by
  rw [right_down_idle env x y p hws hi]
  obtain ⟨h1, -, -, h4, h5, -⟩ := hi
  unfold vertical_resize right_down_rectangle
  rw [abs_sub_cases, min_def]
  dsimp only
  refine ⟨rfl, ?_, ?_, ?_, Or.inl ?_⟩
  · simp [h1]; omega
  · split_ifs <;> omega
  · split_ifs <;> omega
  · simp [h4, h5, hy]; omega

theorem right_down_vertical_bottom (env : Env) (x y : Int) (p : Session)
    (hws : p.watershed = false) (hi : idle p) (hw : 0 ≤ p.rect.height) (hy : p.rect.y < y)
    (hy2 : p.rect.y + p.rect.height ≤ y) :
    vertical_resize p.rect.y (p.rect.y + p.rect.height - y) (right_down env x y p).1 := by
  rw [right_down_idle env x y p hws hi]
  obtain ⟨h1, -, -, h4, h5, -⟩ := hi
  unfold vertical_resize right_down_rectangle
  rw [abs_sub_cases, min_def]
  dsimp only
  refine ⟨rfl, ?_, ?_, ?_, Or.inr ?_⟩
  · simp [h1]; omega
  · split_ifs <;> omega
  · split_ifs <;> omega
  · simp [h4, h5, not_le.mpr hy]; omega

theorem drag_loaded (env : Env) (moves : List (Int × Int × Nat)) (s : Session)
    (hl : loaded s) : loaded (drag env s moves) := by
  induction moves generalizing s with
  | nil => exact hl
  | cons m moves ih =>
    obtain ⟨x, y, flags⟩ := m
    exact ih _ (mouse_callback_loaded env _ x y flags s hl)

theorem drag_right (env : Env) (moves : List (Int × Int × Nat)) (s : Session)
    (hl : loaded s) (hws : s.watershed = false)
    (hm : ∀ m ∈ moves, right_drag_flags m.2.2) :
    (drag env s moves).point0 = pointer_after s.point0 moves ∧
    (drag env s moves).watershed = false ∧
    (∀ fixed offset, horizontal_resize fixed offset s →
      horizontal_resize fixed offset (drag env s moves)) ∧
    (∀ fixed offset, vertical_resize fixed offset s →
      vertical_resize fixed offset (drag env s moves)) := by
  induction moves generalizing s with
  | nil => exact ⟨rfl, hws, fun _ _ h => h, fun _ _ h => h⟩
  | cons m moves ih =>
    obtain ⟨x, y, flags⟩ := m
    obtain ⟨img, disp, hsrc, hdisp⟩ := (loaded_iff s).mp hl
    have hf : right_drag_flags flags := hm (x, y, flags) (List.mem_cons_self _ _)
    have e := mouse_callback_right_move env s img hsrc (by simp [hdisp]) hws x y flags hf
    have hl2 := mouse_callback_loaded env CV_EVENT_MOUSEMOVE x y flags s hl
    have hws2 : (mouse_callback env CV_EVENT_MOUSEMOVE x y flags s).1.watershed = false := by
      rw [e, (right_move_frame _ _ img s).2.2.1]; exact hws
    have hp : (mouse_callback env CV_EVENT_MOUSEMOVE x y flags s).1.point0 =
        ⟨outside_to_negative x, outside_to_negative y⟩ := by
      rw [e]; exact (right_move_fields _ _ img s).2.2.2.2.2.2.2.2
    obtain ⟨i1, i2, i3, i4⟩ := ih _ hl2 hws2 (fun m hmem => hm m (List.mem_cons_of_mem _ hmem))
    refine ⟨?_, i2, ?_, ?_⟩
    · show (drag env _ moves).point0 = pointer_after _ moves
      rw [i1, hp]
    · intro fixed offset h
      apply i3
      rw [e]
      exact right_move_horizontal fixed offset s img h _ _
    · intro fixed offset h
      apply i4
      rw [e]
      exact right_move_vertical fixed offset s img h _ _

theorem horizontal_resize_spans (fixed offset : Int) (s : Session)
    (h : horizontal_resize fixed offset s) :
    spans fixed (s.point0.x + offset) s.rect.x s.rect.width s.resize_rect_left
      s.resize_rect_right := by
  obtain ⟨-, -, hx, hw, hact⟩ := h
  refine ⟨hx, hw, ?_, ?_, ?_, ?_⟩
  · rw [hw]; exact abs_nonneg _
  · intro hlt
    rcases hact with ⟨a, b, _⟩ | ⟨_, _, c⟩
    · exact ⟨a, b⟩
    · omega
  · intro hlt
    rcases hact with ⟨_, _, c⟩ | ⟨a, b, _⟩
    · omega
    · exact ⟨a, b⟩
  · rcases hact with ⟨a, b, _⟩ | ⟨a, b, _⟩ <;> simp [a, b]

theorem vertical_resize_spans (fixed offset : Int) (s : Session)
    (h : vertical_resize fixed offset s) :
    spans fixed (s.point0.y + offset) s.rect.y s.rect.height s.resize_rect_top
      s.resize_rect_bottom := by
  obtain ⟨-, -, hx, hw, hact⟩ := h
  refine ⟨hx, hw, ?_, ?_, ?_, ?_⟩
  · rw [hw]; exact abs_nonneg _
  · intro hlt
    rcases hact with ⟨a, b, _⟩ | ⟨_, _, c⟩
    · exact ⟨a, b⟩
    · omega
  · intro hlt
    rcases hact with ⟨_, _, c⟩ | ⟨a, b, _⟩
    · omega
    · exact ⟨a, b⟩
  · rcases hact with ⟨a, b, _⟩ | ⟨a, b, _⟩ <;> simp [a, b]

theorem right_down_point0 (env : Env) (x y : Int) (p : Session) (hws : p.watershed = false)
    (hi : idle p) : (right_down env x y p).1.point0 = ⟨x, y⟩ ∧
      (right_down env x y p).1.watershed = false := by
  rw [right_down_idle env x y p hws hi]
  exact ⟨rfl, rfl⟩

/-- C2 (amended): in rectangle mode, from the idle state and a region of
non-negative width and height, after a right-button-down at the pointer
position p and any sequence of right-button drag moves ending at the pointer
position q: if p.x is at or left of the left edge x0, the region spans the
right edge R = x0 + width, which never moves, and the dragged edge
x0 + (q.x - p.x), so x = min and width = |difference|, the width is not
negative, the active edge is the left one while the dragged edge is left of R
and the right one while it is right of R, and exactly one of the two is active
also when the dragged edge is at R; the same holds with the roles exchanged for
a drag started at or right of the right edge, and for top and bottom with y and
height. -/
theorem resize_edge_flip (env : Env) (param : Session) (hl : loaded param) (hi : idle param)
    (hws : param.watershed = false) (hw : 0 ≤ param.rect.width) (hh : 0 ≤ param.rect.height)
    (px py : Int) (flags : Nat) (moves : List (Int × Int × Nat))
    (hm : ∀ m ∈ moves, right_drag_flags m.2.2) :
    let s := drag env (mouse_callback env CV_EVENT_RBUTTONDOWN px py flags param).1 moves
    let p : CvPoint := ⟨outside_to_negative px, outside_to_negative py⟩
    let q := pointer_after p moves
    let r := param.rect
    (p.x ≤ r.x →
      spans (r.x + r.width) (r.x + (q.x - p.x)) s.rect.x s.rect.width
        s.resize_rect_left s.resize_rect_right) ∧
    (r.x < p.x → r.x + r.width ≤ p.x →
      spans r.x (r.x + r.width + (q.x - p.x)) s.rect.x s.rect.width
        s.resize_rect_left s.resize_rect_right) ∧
    (p.y ≤ r.y →
      spans (r.y + r.height) (r.y + (q.y - p.y)) s.rect.y s.rect.height
        s.resize_rect_top s.resize_rect_bottom) ∧
    (r.y < p.y → r.y + r.height ≤ p.y →
      spans r.y (r.y + r.height + (q.y - p.y)) s.rect.y s.rect.height
        s.resize_rect_top s.resize_rect_bottom) := by
  intro s p q r
  have e := mouse_callback_right_down env param hl px py flags
  have hl1 : loaded (mouse_callback env CV_EVENT_RBUTTONDOWN px py flags param).1 :=
    mouse_callback_loaded env _ px py flags param hl
  have hp := right_down_point0 env p.x p.y param hws hi
  rw [← e] at hp
  obtain ⟨d1, -, d3, d4⟩ := drag_right env moves _ hl1 hp.2 hm
  rw [hp.1] at d1
  have hq : s.point0 = q := d1
  refine ⟨?_, ?_, ?_, ?_⟩
  · intro hx
    have h0 := right_down_horizontal_left env p.x p.y param hws hi hw hx
    rw [← e] at h0
    have h1 := horizontal_resize_spans _ _ _ (d3 _ _ h0)
    have hd : s.point0.x + (param.rect.x - p.x) = r.x + (q.x - p.x) := by
      rw [hq]; show q.x + (r.x - p.x) = _; omega
    rw [← hd]; exact h1
  · intro hx hx2
    have h0 := right_down_horizontal_right env p.x p.y param hws hi hw hx hx2
    rw [← e] at h0
    have h1 := horizontal_resize_spans _ _ _ (d3 _ _ h0)
    have hd : s.point0.x + (param.rect.x + param.rect.width - p.x) =
        r.x + r.width + (q.x - p.x) := by
      rw [hq]; show q.x + (r.x + r.width - p.x) = _; omega
    rw [← hd]; exact h1
  · intro hy
    have h0 := right_down_vertical_top env p.x p.y param hws hi hh hy
    rw [← e] at h0
    have h1 := vertical_resize_spans _ _ _ (d4 _ _ h0)
    have hd : s.point0.y + (param.rect.y - p.y) = r.y + (q.y - p.y) := by
      rw [hq]; show q.y + (r.y - p.y) = _; omega
    rw [← hd]; exact h1
  · intro hy hy2
    have h0 := right_down_vertical_bottom env p.x p.y param hws hi hh hy hy2
    rw [← e] at h0
    have h1 := vertical_resize_spans _ _ _ (d4 _ _ h0)
    have hd : s.point0.y + (param.rect.y + param.rect.height - p.y) =
        r.y + r.height + (q.y - p.y) := by
      rw [hq]; show q.y + (r.y + r.height - p.y) = _; omega
    rw [← hd]; exact h1

/-- C2 (witness): the amended statement on the sample session, for a drag that
starts left of the rectangle, passes the right edge and comes back to it. -/
theorem resize_edge_flip_witness :
    (loaded sample_session ∧ idle sample_session ∧ sample_session.watershed = false ∧
      0 ≤ sample_session.rect.width ∧ 0 ≤ sample_session.rect.height ∧
      ∀ m ∈ [((25 : Int), (15 : Int), 2), (15, 15, 2)], right_drag_flags m.2.2) ∧
    (let s := drag sample_env
        (mouse_callback sample_env CV_EVENT_RBUTTONDOWN 5 15 2 sample_session).1
        [(25, 15, 2), (15, 15, 2)]
     let p : CvPoint := ⟨outside_to_negative 5, outside_to_negative 15⟩
     let q := pointer_after p [(25, 15, 2), (15, 15, 2)]
     let r := sample_session.rect
     (p.x ≤ r.x →
       spans (r.x + r.width) (r.x + (q.x - p.x)) s.rect.x s.rect.width
         s.resize_rect_left s.resize_rect_right) ∧
     (r.x < p.x → r.x + r.width ≤ p.x →
       spans r.x (r.x + r.width + (q.x - p.x)) s.rect.x s.rect.width
         s.resize_rect_left s.resize_rect_right) ∧
     (p.y ≤ r.y →
       spans (r.y + r.height) (r.y + (q.y - p.y)) s.rect.y s.rect.height
         s.resize_rect_top s.resize_rect_bottom) ∧
     (r.y < p.y → r.y + r.height ≤ p.y →
       spans r.y (r.y + r.height + (q.y - p.y)) s.rect.y s.rect.height
         s.resize_rect_top s.resize_rect_bottom)) :=
  ⟨by decide,
   resize_edge_flip sample_env sample_session (by decide) (by decide) rfl (by decide)
     (by decide) 5 15 2 [(25, 15, 2), (15, 15, 2)] (by decide)⟩

/-- C2 (counterexample): on the sample session, whose region has x0 = 10 and
width 10 (R = 20), a right-button-down at x = 5 (left of the left edge) followed
by right-button moves to x = 25 and back to x = 15 leaves the dragged edge at
10 + (15 - 5) = 20 = R, which is "at or beyond R", yet the active edge is the
left one and not the right one. -/
theorem resize_edge_flip_counterexample :
    loaded sample_session ∧ idle sample_session ∧ sample_session.watershed = false ∧
    sample_session.rect = ⟨10, 10, 10, 20⟩ ∧ outside_to_negative 5 ≤ sample_session.rect.x ∧
    right_drag_flags 2 ∧
    (let s := drag sample_env
        (mouse_callback sample_env CV_EVENT_RBUTTONDOWN 5 15 2 sample_session).1
        [(25, 15, 2), (15, 15, 2)]
     s.rect = ⟨20, 10, 0, 20⟩ ∧ s.resize_rect_left = true ∧
     ¬ (s.resize_rect_right = true ↔ (10 : Int) + 10 ≤ 10 + (15 - 5))) := by
  decide

theorem drag_left (env : Env) (moves : List (Int × Int × Nat)) (s : Session)
    (hl : loaded s) (hm : ∀ m ∈ moves, left_drag_flags m.2.2) :
    (drag env s moves).point0 = s.point0 := by
  induction moves generalizing s with
  | nil => rfl
  | cons m moves ih =>
    obtain ⟨x, y, flags⟩ := m
    obtain ⟨img, disp, hsrc, hdisp⟩ := (loaded_iff s).mp hl
    have hf : left_drag_flags flags := hm (x, y, flags) (List.mem_cons_self _ _)
    have e := mouse_callback_left_move env s img hsrc (by simp [hdisp]) x y flags hf
    have hl2 := mouse_callback_loaded env CV_EVENT_MOUSEMOVE x y flags s hl
    show (drag env _ moves).point0 = _
    rw [ih _ hl2 (fun m hmem => hm m (List.mem_cons_of_mem _ hmem)), e]
    rfl

theorem drag_append (env : Env) (s : Session) (ms ns : List (Int × Int × Nat)) :
    drag env s (ms ++ ns) = drag env (drag env s ms) ns := by
  induction ms generalizing s with
  | nil => rfl
  | cons m ms ih =>
    obtain ⟨x, y, flags⟩ := m
    exact ih _

theorem outside_to_negative_id (v : Int) (h : v < 32768) : outside_to_negative v = v := by
  unfold outside_to_negative
  split_ifs <;> omega

/-- C3: with a frame loaded, after a left-button-down without shift at (ax, ay)
the anchor is that point, and after any later moves with the left button held
(no shift, no middle button), the last one at (cx, cy), the region is
x = min(ax, cx), y = min(ay, cy), width = |ax - cx|, height = |ay - cy|,
whatever the region was before.  The coordinates are the ones the program reads:
an event coordinate from 32768 on stands for that value minus 65536, and is
itself below 32768. -/
theorem left_drag_bounding_box (env : Env) (param : Session) (hl : loaded param)
    (ax ay : Int) (flags0 : Nat) (hshift : hasFlag flags0 CV_EVENT_FLAG_SHIFTKEY = false)
    (moves : List (Int × Int × Nat)) (hm : ∀ m ∈ moves, left_drag_flags m.2.2)
    (cx cy : Int) (flags : Nat) (hf : left_drag_flags flags) :
    let p1 := (mouse_callback env CV_EVENT_LBUTTONDOWN ax ay flags0 param).1
    let s := drag env p1 (moves ++ [(cx, cy, flags)])
    p1.point0 = ⟨outside_to_negative ax, outside_to_negative ay⟩ ∧
    s.rect = ⟨min (outside_to_negative ax) (outside_to_negative cx),
              min (outside_to_negative ay) (outside_to_negative cy),
              |outside_to_negative ax - outside_to_negative cx|,
              |outside_to_negative ay - outside_to_negative cy|⟩ ∧
    (ax < 32768 → ay < 32768 → cx < 32768 → cy < 32768 →
      s.rect = ⟨min ax cx, min ay cy, |ax - cx|, |ay - cy|⟩) := by
  intro p1 s
  have e1 := mouse_callback_left_down env param hl ax ay flags0 hshift
  have hp1 : p1.point0 = ⟨outside_to_negative ax, outside_to_negative ay⟩ := by
    show (mouse_callback env CV_EVENT_LBUTTONDOWN ax ay flags0 param).1.point0 = _
    rw [e1]; rfl
  have hl1 : loaded p1 := mouse_callback_loaded env _ ax ay flags0 param hl
  have hl2 : loaded (drag env p1 moves) := drag_loaded env moves p1 hl1
  have hp2 : (drag env p1 moves).point0 = p1.point0 := drag_left env moves p1 hl1 hm
  obtain ⟨img, disp, hsrc, hdisp⟩ := (loaded_iff _).mp hl2
  have e2 := mouse_callback_left_move env (drag env p1 moves) img hsrc (by simp [hdisp])
    cx cy flags hf
  have hs : s.rect = ⟨min (outside_to_negative ax) (outside_to_negative cx),
              min (outside_to_negative ay) (outside_to_negative cy),
              |outside_to_negative ax - outside_to_negative cx|,
              |outside_to_negative ay - outside_to_negative cy|⟩ := by
    show (drag env p1 (moves ++ [(cx, cy, flags)])).rect = _
    rw [drag_append]
    show (mouse_callback env CV_EVENT_MOUSEMOVE cx cy flags (drag env p1 moves)).1.rect = _
    rw [e2]
    show CvRect.mk _ _ _ _ = _
    rw [hp2, hp1]
  refine ⟨hp1, hs, ?_⟩
  intro h1 h2 h3 h4
  rw [hs, outside_to_negative_id ax h1, outside_to_negative_id ay h2,
    outside_to_negative_id cx h3, outside_to_negative_id cy h4]

/-- C3 (witness): on the sample session, a left-button-down at (30, 40) and
left-button moves to (50, 60) and then to (12, 45) give the region
(12, 40, 18, 5), whatever it was before. -/
theorem left_drag_bounding_box_witness :
    (loaded sample_session ∧ hasFlag 1 CV_EVENT_FLAG_SHIFTKEY = false ∧
      (∀ m ∈ [((50 : Int), (60 : Int), 1)], left_drag_flags m.2.2) ∧ left_drag_flags 1) ∧
    (let p1 := (mouse_callback sample_env CV_EVENT_LBUTTONDOWN 30 40 1 sample_session).1
     let s := drag sample_env p1 ([(50, 60, 1)] ++ [(12, 45, 1)])
     p1.point0 = ⟨outside_to_negative 30, outside_to_negative 40⟩ ∧
     s.rect = ⟨min (outside_to_negative 30) (outside_to_negative 12),
               min (outside_to_negative 40) (outside_to_negative 45),
               |outside_to_negative 30 - outside_to_negative 12|,
               |outside_to_negative 40 - outside_to_negative 45|⟩ ∧
     ((30 : Int) < 32768 → (40 : Int) < 32768 → (12 : Int) < 32768 → (45 : Int) < 32768 →
       s.rect = ⟨min 30 12, min 40 45, |30 - 12|, |40 - 45|⟩)) :=
  ⟨by decide,
   left_drag_bounding_box sample_env sample_session (by decide) 30 40 1 (by decide)
     [(50, 60, 1)] (by decide) 12 45 1 (by decide)⟩

theorem right_down_region (env : Env) (x y : Int) (p : Session) (hws : p.watershed = false) :
    (right_down env x y p).1.rect = p.rect ∧ (right_down env x y p).1.watershed = false ∧
    (right_down env x y p).1.inc = p.inc := by
  have e := right_down_watershed_off env { p with point0 := ⟨x, y⟩ } hws
  unfold right_down
  dsimp only
  rw [e]
  split_ifs
  · exact ⟨rfl, rfl, rfl⟩
  · exact ⟨rfl, hws, rfl⟩

theorem right_move_region (x y : Int) (img : IplImage) (p : Session) (h : region_ok p) :
    region_ok (right_move x y img p).1 := by
  obtain ⟨h1, h2, h3, h4⟩ := h
  obtain ⟨-, e2, -, -, -, e6, -⟩ := right_move_fields x y img p
  obtain ⟨-, -, f3, -, f5, -⟩ := right_move_frame x y img p
  unfold region_ok
  rw [e2, e6, f3, f5]
  refine ⟨h1, ?_, ?_, h4⟩ <;> split_ifs <;> omega

theorem mouse_callback_region_ok (env : Env) (event x y : Int) (flags : Nat) (param : Session)
    (h : region_ok param) (hnw : ¬ (Event.mouse event x y flags).draws_watershed) :
    region_ok (mouse_callback env event x y flags param).1 := by
  have h' := h
  obtain ⟨h1, h2, h3, h4⟩ := h'
  unfold Event.draws_watershed at hnw
  unfold mouse_callback
  split
  · dsimp only
    split_ifs with c1 c2 c3 c4 c5 c6 c7 c8
    · exact h
    · exact absurd (by tauto) hnw
    · exact h
    · exact ⟨rfl, abs_nonneg _, abs_nonneg _, h4⟩
    · obtain ⟨r1, r2, r3⟩ := right_down_region env (outside_to_negative x)
        (outside_to_negative y) param h1
      unfold region_ok
      rw [r1, r2, r3]
      exact ⟨rfl, h2, h3, h4⟩
    · rw [h1] at c6
      simp at c6
    · exact right_move_region _ _ _ _ h
    · exact h
    · exact h
  · exact h

theorem Outcome.bind_running {o : Outcome} {f : Session → Outcome} {p : Session}
    {out : List Effect} (h : o.bind f = .running p out) :
    ∃ p1 out1 out2, o = .running p1 out1 ∧ f p1 = .running p out2 ∧ out = out1 ++ out2 := by
  cases o with
  | running p1 out1 =>
    simp only [Outcome.bind] at h
    cases hf : f p1 with
    | running p2 out2 =>
      rw [hf] at h
      simp only [Outcome.after, Outcome.running.injEq] at h
      exact ⟨p1, out1, out2, rfl, h.1 ▸ hf, h.2.symm⟩
    | quit p2 out2 => rw [hf] at h; simp [Outcome.after] at h
    | exit1 out2 => rw [hf] at h; simp [Outcome.after] at h
    | null_deref out2 => rw [hf] at h; simp [Outcome.after] at h
    | hang out2 => rw [hf] at h; simp [Outcome.after] at h
  | quit p1 out1 => simp [Outcome.bind] at h
  | exit1 out1 => simp [Outcome.bind] at h
  | null_deref out1 => simp [Outcome.bind] at h
  | hang out1 => simp [Outcome.bind] at h

theorem rescale_display_running {scale : ℚ} {param p : Session} {out : List Effect}
    (h : rescale_display scale param = .running p out) :
    same_selection param p ∧ p.inc = param.inc := by
  unfold rescale_display at h
  split at h
  · cases h
  · cases h
    exact ⟨⟨rfl, rfl, rfl, rfl, rfl⟩, rfl⟩

theorem zoom_keys_running {env : Env} {key : Char} {param p : Session} {out : List Effect}
    (h : zoom_keys env key param = .running p out) :
    same_selection param p ∧ p.inc = param.inc := by
  unfold zoom_keys at h
  obtain ⟨p1, out1, out2, h1, h2, -⟩ := Outcome.bind_running h
  have a : same_selection param p1 ∧ p1.inc = param.inc := by
    split_ifs at h1
    · exact rescale_display_running h1
    · cases h1; exact ⟨⟨rfl, rfl, rfl, rfl, rfl⟩, rfl⟩
  have b : same_selection p1 p ∧ p.inc = p1.inc := by
    split_ifs at h2
    · exact rescale_display_running h2
    · cases h2; exact ⟨⟨rfl, rfl, rfl, rfl, rfl⟩, rfl⟩
  obtain ⟨⟨a1, a2, a3, a4, a5⟩, a6⟩ := a
  obtain ⟨⟨b1, b2, b3, b4, b5⟩, b6⟩ := b
  exact ⟨⟨b1.trans a1, b2.trans a2, b3.trans a3, b4.trans a4, b5.trans a5⟩, b6.trans a6⟩

theorem save_running {env : Env} {param p : Session} {out : List Effect}
    (h : save env param = .running p out) : p = param := by
  unfold save at h
  dsimp only at h
  split at h
  · split at h
    · cases h
    · split at h
      · cases h
      · exact (Outcome.running.inj h).1.symm
  · exact (Outcome.running.inj h).1.symm

theorem forward_running {env : Env} {param p : Session} {out : List Effect}
    (h : forward env param = .running p out) :
    same_selection param p ∧ p.inc = param.inc := by
  unfold forward at h
  repeat' split at h
  all_goals first
    | (cases h; exact ⟨⟨rfl, rfl, rfl, rfl, rfl⟩, rfl⟩)
    | cases h

theorem backward_running {env : Env} {param p : Session} {out : List Effect}
    (h : backward env param = .running p out) :
    same_selection param p ∧ p.inc = param.inc := by
  unfold backward at h
  dsimp only at h
  repeat' split at h
  all_goals first
    | (cases h; exact ⟨⟨rfl, rfl, rfl, rfl, rfl⟩, rfl⟩)
    | cases h

theorem navigation_keys_running {env : Env} {key : Char} {param p : Session}
    {out : List Effect} (h : navigation_keys env key param = .running p out) :
    same_selection param p ∧ (1 ≤ param.inc → 1 ≤ p.inc) := by
  unfold navigation_keys at h
  split_ifs at h
  · exact ⟨(forward_running h).1, fun hi => by rw [(forward_running h).2]; exact hi⟩
  · exact ⟨(backward_running h).1, fun hi => by rw [(backward_running h).2]; exact hi⟩
  · cases h; exact ⟨⟨rfl, rfl, rfl, rfl, rfl⟩, fun hi => by show 1 ≤ param.inc + 1; omega⟩
  · cases h; exact ⟨⟨rfl, rfl, rfl, rfl, rfl⟩, fun _ => le_max_left _ _⟩
  · cases h; exact ⟨⟨rfl, rfl, rfl, rfl, rfl⟩, fun hi => hi⟩

theorem rectangle_keys_region_ok {key : Char} {param p : Session} {out : List Effect}
    (h : rectangle_keys key param = .running p out) (hok : region_ok param) : region_ok p := by
  obtain ⟨hws, hw, hh, hinc⟩ := hok
  unfold rectangle_keys at h
  obtain ⟨p1, out1, out2, h1, h2, -⟩ := Outcome.bind_running h
  unfold rectangle_edit at h1
  dsimp only at h1
  have hp : p = p1 := by
    split at h2
    · exact (Outcome.running.inj h2).1.symm
    · exact (Outcome.running.inj h2).1.symm
  subst hp
  clear h h2
  unfold region_ok
  by_cases k0 : key = 'h'
  · rw [if_pos k0] at h1; cases h1
    refine ⟨hws, ?_, ?_, hinc⟩ <;> dsimp only <;> omega
  rw [if_neg k0] at h1
  by_cases k1 : key = 'j'
  · rw [if_pos k1] at h1; cases h1
    refine ⟨hws, ?_, ?_, hinc⟩ <;> dsimp only <;> omega
  rw [if_neg k1] at h1
  by_cases k2 : key = 'k'
  · rw [if_pos k2] at h1; cases h1
    refine ⟨hws, ?_, ?_, hinc⟩ <;> dsimp only <;> omega
  rw [if_neg k2] at h1
  by_cases k3 : key = 'l'
  · rw [if_pos k3] at h1; cases h1
    refine ⟨hws, ?_, ?_, hinc⟩ <;> dsimp only <;> omega
  rw [if_neg k3] at h1
  by_cases k4 : key = 'y'
  · rw [if_pos k4] at h1; cases h1
    refine ⟨hws, ?_, ?_, hinc⟩ <;> dsimp only <;> omega
  rw [if_neg k4] at h1
  by_cases k5 : key = 'u'
  · rw [if_pos k5] at h1; cases h1
    refine ⟨hws, ?_, ?_, hinc⟩ <;> dsimp only <;> omega
  rw [if_neg k5] at h1
  by_cases k6 : key = 'i'
  · rw [if_pos k6] at h1; cases h1
    refine ⟨hws, ?_, ?_, hinc⟩ <;> dsimp only <;> omega
  rw [if_neg k6] at h1
  by_cases k7 : key = 'o'
  · rw [if_pos k7] at h1; cases h1
    refine ⟨hws, ?_, ?_, hinc⟩ <;> dsimp only <;> omega
  rw [if_neg k7] at h1
  by_cases k8 : key = 'n'
  · rw [if_pos k8] at h1; cases h1
    refine ⟨hws, ?_, ?_, hinc⟩ <;> dsimp only <;> omega
  rw [if_neg k8] at h1
  by_cases k9 : key = 'm'
  · rw [if_pos k9] at h1; cases h1
    refine ⟨hws, ?_, ?_, hinc⟩ <;> dsimp only <;> omega
  rw [if_neg k9] at h1
  by_cases k10 : key = ','
  · rw [if_pos k10] at h1; cases h1
    refine ⟨hws, ?_, ?_, hinc⟩ <;> dsimp only <;> omega
  rw [if_neg k10] at h1
  by_cases k11 : key = '.'
  · rw [if_pos k11] at h1; cases h1
    refine ⟨hws, ?_, ?_, hinc⟩ <;> dsimp only <;> omega
  rw [if_neg k11] at h1
  by_cases k12 : key = 'r'
  · rw [if_pos k12] at h1; cases h1
    refine ⟨hws, ?_, ?_, hinc⟩ <;> dsimp only <;> omega
  rw [if_neg k12] at h1
  by_cases k13 : key = 'R'
  · rw [if_pos k13] at h1; cases h1
    refine ⟨hws, ?_, ?_, hinc⟩ <;> dsimp only <;> omega
  rw [if_neg k13] at h1
  by_cases k14 : key = 'e'
  · rw [if_pos k14] at h1; cases h1
    refine ⟨hws, ?_, ?_, hinc⟩ <;> dsimp only <;> omega
  rw [if_neg k14] at h1
  by_cases k15 : key = 'E'
  · rw [if_pos k15] at h1
    split at h1
    · cases h1
    · cases h1
      refine ⟨hws, ?_, ?_, hinc⟩ <;> dsimp only <;> omega
  rw [if_neg k15] at h1
  cases h1
  exact ⟨hws, hw, hh, hinc⟩

theorem key_step_region_ok {env : Env} {key : Char} {param p : Session} {out : List Effect}
    (h : key_step env key param = .running p out) (hok : region_ok param) : region_ok p := by
  unfold key_step at h
  obtain ⟨p1, _, _, h1, g1, -⟩ := Outcome.bind_running h
  obtain ⟨p2, _, _, h2, g2, -⟩ := Outcome.bind_running g1
  obtain ⟨p3, _, _, h3, g3, -⟩ := Outcome.bind_running g2
  obtain ⟨⟨a1, a2, -⟩, a3⟩ := zoom_keys_running h1
  have e2 : p2 = p1 := by
    split_ifs at h2
    · exact save_running h2
    · exact (Outcome.running.inj h2).1.symm
  subst e2
  obtain ⟨⟨b1, b2, -⟩, b3⟩ := navigation_keys_running h3
  obtain ⟨hws, hw, hh, hinc⟩ := hok
  have ok3 : region_ok p3 := by
    refine ⟨?_, ?_, ?_, ?_⟩
    · rw [b2, a2]; exact hws
    · rw [b1, a1]; exact hw
    · rw [b1, a1]; exact hh
    · apply b3; rw [a3]; exact hinc
  rw [ok3.1] at g3
  exact rectangle_keys_region_ok g3 ok3

theorem handle_region_ok {env : Env} {e : Event} {param p : Session} {out : List Effect}
    (h : handle env e param = .running p out) (hok : region_ok param)
    (he : ¬ e.draws_watershed) : region_ok p := by
  cases e with
  | mouse event x y flags =>
    have hp : p = (mouse_callback env event x y flags param).1 :=
      (Outcome.running.inj h).1.symm
    rw [hp]
    exact mouse_callback_region_ok env event x y flags param hok he
  | key key => exact key_step_region_ok h hok

theorem trace_region_ok (env : Env) (es : List Event) (param : Session) (hok : region_ok param)
    (hes : ∀ e ∈ es, ¬ e.draws_watershed) : ∀ s ∈ trace env param es, region_ok s := by
  induction es generalizing param with
  | nil => intro s hs; simp [trace] at hs
  | cons e es ih =>
    intro s hs
    unfold trace at hs
    split at hs
    · rename_i p out hh
      have hp := handle_region_ok hh hok (hes e (List.mem_cons_self _ _))
      rcases List.mem_cons.mp hs with rfl | hmem
      · exact hp
      · exact ih p hp (fun e' he' => hes e' (List.mem_cons_of_mem _ he')) s hmem
    · simp at hs

/-- C1: in manual rectangle mode (watershed flag off), from any session whose
region has width >= 0 and height >= 0 and whose increment step is at least 1
(as it is in every session), after every event of every sequence of key events
and of pointer events other than the moves that draw the watershed marker, the
session is still in rectangle mode and the region has width >= 0 and
height >= 0. -/
theorem region_size_nonneg (env : Env) (param : Session) (hws : param.watershed = false)
    (hw : 0 ≤ param.rect.width) (hh : 0 ≤ param.rect.height) (hinc : 1 ≤ param.inc)
    (es : List Event) (hes : ∀ e ∈ es, ¬ e.draws_watershed) :
    ∀ s ∈ trace env param es, s.watershed = false ∧ 0 ≤ s.rect.width ∧ 0 ≤ s.rect.height :=
  fun s hs =>
    ⟨(trace_region_ok env es param ⟨hws, hw, hh, hinc⟩ hes s hs).1,
     (trace_region_ok env es param ⟨hws, hw, hh, hinc⟩ hes s hs).2.1,
     (trace_region_ok env es param ⟨hws, hw, hh, hinc⟩ hes s hs).2.2.1⟩

/-! ### The halving loop -/

theorem tdiv_two (a : Int) (h : 0 ≤ a) : Int.tdiv a 2 = a / 2 :=
  Int.tdiv_eq_ediv h (by decide)

theorem ediv_two_pow_succ (a : Int) (ha : 0 ≤ a) (k : Nat) :
    a / 2 / 2 ^ k = a / 2 ^ (k + 1) := by
  obtain ⟨n, rfl⟩ := Int.eq_ofNat_of_zero_le ha
  have e : ((n / 2 / 2 ^ k : Nat) : Int) = ((n / 2 ^ (k + 1) : Nat) : Int) := by
    rw [Nat.div_div_eq_div_mul, pow_succ, mul_comm]
  exact_mod_cast e

theorem fit_loop_spec (W H : Int) (k : Nat) :
    ∀ (fuel : Nat) (w h : Int) (scale : ℚ), 0 ≤ w → 0 ≤ h → fits_after W H w h k →
      (∀ j < k, ¬ fits_after W H w h j) → k < fuel →
      fit_loop fuel ⟨W, H⟩ ⟨w, h⟩ scale = some (⟨w / 2 ^ k, h / 2 ^ k⟩, scale / 2 ^ k) := by
  induction k with
  | zero =>
    intro fuel w h scale _ _ hfit _ hfuel
    obtain ⟨f, rfl⟩ : ∃ f, fuel = f + 1 := ⟨fuel - 1, by omega⟩
    unfold fits_after at hfit
    simp only [pow_zero, Int.ediv_one] at hfit
    simp only [fit_loop, pow_zero, Int.ediv_one, div_one]
    rw [if_neg (by omega)]
  | succ k ih =>
    intro fuel w h scale hw hh hfit hmin hfuel
    obtain ⟨f, rfl⟩ : ∃ f, fuel = f + 1 := ⟨fuel - 1, by omega⟩
    have h0 : ¬ fits_after W H w h 0 := hmin 0 (by omega)
    unfold fits_after at h0
    simp only [pow_zero, Int.ediv_one] at h0
    simp only [fit_loop]
    rw [if_pos (by omega), tdiv_two w hw, tdiv_two h hh]
    rw [ih f (w / 2) (h / 2) (scale / 2) (by omega) (by omega) ?_ ?_ (by omega)]
    · rw [ediv_two_pow_succ w hw, ediv_two_pow_succ h hh, div_div, ← pow_succ']
    · unfold fits_after at hfit ⊢
      rw [ediv_two_pow_succ w hw, ediv_two_pow_succ h hh]
      exact hfit
    · intro j hj hfj
      apply hmin (j + 1) (by omega)
      unfold fits_after at hfj ⊢
      rw [ediv_two_pow_succ w hw, ediv_two_pow_succ h hh] at hfj
      exact hfj

theorem fits_after_large (W H w h : Int) (hw : 0 ≤ w) (hh : 0 ≤ h) (hW : 0 ≤ W) (hH : 0 ≤ H) :
    fits_after W H w h (w.natAbs + h.natAbs) := by
  have key : ∀ a : Int, 0 ≤ a → ∀ n : Nat, a.natAbs ≤ n → a / 2 ^ n = 0 := by
    intro a ha n hn
    apply Int.ediv_eq_zero_of_lt ha
    have h1 : a.natAbs < 2 ^ n := lt_of_le_of_lt hn (Nat.lt_two_pow n)
    have h2 : (a.natAbs : Int) < ((2 ^ n : Nat) : Int) := by exact_mod_cast h1
    rw [Int.natAbs_of_nonneg ha] at h2
    simpa using h2
  unfold fits_after
  rw [key w hw _ (by omega), key h hh _ (by omega)]
  exact ⟨hW, hH⟩

theorem fit_loop_mono (screen : CvSize) :
    ∀ (n : Nat) (size : CvSize) (scale : ℚ) (r : CvSize × ℚ),
      fit_loop n screen size scale = some r →
      ∀ m, n ≤ m → fit_loop m screen size scale = some r := by
  intro n
  induction n with
  | zero => intro size scale r h; simp [fit_loop] at h
  | succ n ih =>
    intro size scale r h m hm
    obtain ⟨m', rfl⟩ : ∃ m', m = m' + 1 := ⟨m - 1, by omega⟩
    simp only [fit_loop] at h ⊢
    split_ifs at h ⊢ with c
    · exact ih _ _ r h m' (by omega)
    · exact h

theorem fit_loop_zero_size (screen : CvSize)
    (c : (0 : Int) > screen.width ∨ (0 : Int) > screen.height) :
    ∀ (n : Nat) (scale : ℚ), fit_loop n screen ⟨0, 0⟩ scale = none := by
  intro n
  induction n with
  | zero => intro scale; rfl
  | succ n ih =>
    intro scale
    simp only [fit_loop]
    rw [if_pos c]
    exact ih _

/-- The fuel of `fit_while` is enough: when the loop is left with some fuel, it is
left with the fuel `fit_fuel`, with the same result; so `fit_while` is `none`
only when the loop is never left. -/
theorem fit_while_complete (screen : CvSize) :
    ∀ (n : Nat) (size : CvSize) (scale : ℚ) (r : CvSize × ℚ),
      fit_loop n screen size scale = some r → fit_while screen size scale = some r := by
  intro n
  induction n with
  | zero => intro size scale r h; simp [fit_loop] at h
  | succ n ih =>
    intro size scale r h
    unfold fit_while fit_fuel
    simp only [fit_loop] at h ⊢
    split_ifs at h ⊢ with c
    · have h2 := ih _ _ r h
      unfold fit_while fit_fuel at h2
      by_cases hz : size.width.natAbs + size.height.natAbs = 0
      · have hw : size.width = 0 := by omega
        have hh : size.height = 0 := by omega
        rw [hw, hh] at c h
        have e : (⟨Int.tdiv 0 2, Int.tdiv 0 2⟩ : CvSize) = ⟨0, 0⟩ := rfl
        rw [e, fit_loop_zero_size screen c] at h
        cases h
      · apply fit_loop_mono screen _ _ _ r h2
        have e1 := Int.natAbs_tdiv size.width 2
        have e2 := Int.natAbs_tdiv size.height 2
        have e3 : (Int.natAbs 2) = 2 := rfl
        rw [e3] at e1 e2
        have d1 : size.width.natAbs.div 2 = size.width.natAbs / 2 := rfl
        have d2 : size.height.natAbs.div 2 = size.height.natAbs / 2 := rfl
        rw [d1] at e1
        rw [d2] at e2
        show (Int.tdiv size.width 2).natAbs + (Int.tdiv size.height 2).natAbs + 1 ≤ _
        rw [e1, e2]
        omega
    · exact h

theorem fit_while_none (screen size : CvSize) (scale : ℚ)
    (h : fit_while screen size scale = none) :
    ∀ fuel, fit_loop fuel screen size scale = none := by
  intro fuel
  cases hf : fit_loop fuel screen size scale with
  | none => rfl
  | some r =>
    rw [fit_while_complete screen fuel size scale r hf] at h
    cases h

/-- C4: for a frame of size w x h and a screen of size W x H, all non-negative,
the halving loop started at scale 1.0 ends, and with k the least number of
halvings after which the frame fits it yields the display size
(w div 2^k, h div 2^k) and the scale factor 2^(-k); so does `load_reference`
from the initial scale 1.0; the display size fits the screen, and k = 0 when
the frame already fits. -/
theorem fit_to_screen_policy (w h W H : Int) (hw : 0 ≤ w) (hh : 0 ≤ h) (hW : 0 ≤ W)
    (hH : 0 ≤ H) :
    ∃ k : Nat,
      (w / 2 ^ k ≤ W ∧ h / 2 ^ k ≤ H) ∧
      (∀ j < k, ¬ (w / 2 ^ j ≤ W ∧ h / 2 ^ j ≤ H)) ∧
      (∀ fuel, k < fuel →
        fit_loop fuel ⟨W, H⟩ ⟨w, h⟩ 1 = some (⟨w / 2 ^ k, h / 2 ^ k⟩, 1 / 2 ^ k)) ∧
      fit_while ⟨W, H⟩ ⟨w, h⟩ 1 = some (⟨w / 2 ^ k, h / 2 ^ k⟩, 1 / 2 ^ k) ∧
      (∀ (data : Nat) (param : Session), param.scale_factor = 1 →
        load_reference ⟨W, H⟩ ⟨w, h, data⟩ param =
          some { param with img_src := some ⟨w, h, data⟩, screen_size := ⟨W, H⟩,
                            scale_factor := 1 / 2 ^ k,
                            img_display := some ⟨w / 2 ^ k, h / 2 ^ k, data⟩ }) ∧
      (w ≤ W → h ≤ H → k = 0) := by
  classical
  have hex : ∃ k, fits_after W H w h k := ⟨_, fits_after_large W H w h hw hh hW hH⟩
  have hfit : fits_after W H w h (Nat.find hex) := Nat.find_spec hex
  have hmin : ∀ j < Nat.find hex, ¬ fits_after W H w h j := fun j hj => Nat.find_min hex hj
  have hle : Nat.find hex ≤ w.natAbs + h.natAbs :=
    Nat.find_min' hex (fits_after_large W H w h hw hh hW hH)
  have hloop := fun fuel scale => fit_loop_spec W H (Nat.find hex) fuel w h scale hw hh hfit hmin
  have hwhile : ∀ scale, fit_while ⟨W, H⟩ ⟨w, h⟩ scale =
      some (⟨w / 2 ^ Nat.find hex, h / 2 ^ Nat.find hex⟩, scale / 2 ^ Nat.find hex) := by
    intro scale
    unfold fit_while fit_fuel
    exact hloop _ scale (by show Nat.find hex < w.natAbs + h.natAbs + 1; omega)
  refine ⟨Nat.find hex, hfit, hmin, fun fuel hf => hloop fuel 1 hf, hwhile 1, ?_, ?_⟩
  · intro data param hs
    unfold load_reference
    rw [hs]
    show (match fit_while ⟨W, H⟩ ⟨w, h⟩ 1 with
      | none => none
      | some (size, scale_factor) => _) = _
    rw [hwhile 1]
    rfl
  · intro h1 h2
    by_contra hne
    exact hmin 0 (Nat.pos_of_ne_zero hne) ⟨by simpa using h1, by simpa using h2⟩

/-- C4 (witness): a 4000 x 3000 frame on a 1366 x 768 screen. -/
theorem fit_to_screen_policy_witness :
    ((0 : Int) ≤ 4000 ∧ (0 : Int) ≤ 3000 ∧ (0 : Int) ≤ 1366 ∧ (0 : Int) ≤ 768) ∧
    ∃ k : Nat,
      ((4000 : Int) / 2 ^ k ≤ 1366 ∧ (3000 : Int) / 2 ^ k ≤ 768) ∧
      (∀ j < k, ¬ ((4000 : Int) / 2 ^ j ≤ 1366 ∧ (3000 : Int) / 2 ^ j ≤ 768)) ∧
      (∀ fuel, k < fuel →
        fit_loop fuel ⟨1366, 768⟩ ⟨4000, 3000⟩ 1 =
          some (⟨4000 / 2 ^ k, 3000 / 2 ^ k⟩, 1 / 2 ^ k)) ∧
      fit_while ⟨1366, 768⟩ ⟨4000, 3000⟩ 1 = some (⟨4000 / 2 ^ k, 3000 / 2 ^ k⟩, 1 / 2 ^ k) ∧
      (∀ (data : Nat) (param : Session), param.scale_factor = 1 →
        load_reference ⟨1366, 768⟩ ⟨4000, 3000, data⟩ param =
          some { param with img_src := some ⟨4000, 3000, data⟩, screen_size := ⟨1366, 768⟩,
                            scale_factor := 1 / 2 ^ k,
                            img_display := some ⟨4000 / 2 ^ k, 3000 / 2 ^ k, data⟩ }) ∧
      ((4000 : Int) ≤ 1366 → (3000 : Int) ≤ 768 → k = 0) :=
  ⟨by decide, fit_to_screen_policy 4000 3000 1366 768 (by decide) (by decide) (by decide)
    (by decide)⟩

/-! ### The scale factor on stepping, the preview and the image types -/

/-- C5 (failing input): in directory mode on a 1366 x 768 screen, Forward from
`b.png` loads the 4000 x 3000 image `c.png`; the step halves once, so that the
scale factor is 1/2 and the display image is 2000 x 1500, which does not fit
the screen, while the policy halves twice (k = 2 is the least k that fits),
to 1000 x 750 at scale 1/4, as Backward onto the same kind of frame does by its
loop. -/
theorem forward_directory_halves_once :
    (∃ s out, key_step sample_env 'f' sample_session = .running s out ∧
      s.fileiter = 2 ∧ s.img_src = some ⟨4000, 3000, 3⟩ ∧
      s.scale_factor = 1 / 2 ∧ s.img_display = some ⟨2000, 1500, 3⟩) ∧
    ¬ ((2000 : Int) ≤ sample_session.screen_size.width ∧
       (1500 : Int) ≤ sample_session.screen_size.height) ∧
    fits_after 1366 768 4000 3000 2 ∧ (∀ j < 2, ¬ fits_after 1366 768 4000 3000 j) ∧
    fit_while ⟨1366, 768⟩ ⟨4000, 3000⟩ 1 = some (⟨1000, 750⟩, 1 / 2 / 2) :=
  ⟨⟨_, _, rfl, rfl, rfl, rfl, rfl⟩, by decide, by decide, by decide, rfl⟩

/-- C6 (failing input): in video mode on a 1366 x 768 screen with 1920 x 1080
frames shown at scale 1/2, Forward leaves the display image at 960 x 540 but
halves the scale factor again, to 1/4, and a second Forward to 1/8; the policy
started from 1.0 gives 1/2 for every such frame.  Backward halves the scale
factor in effect once more in the same way. -/
theorem video_step_scale_accumulates :
    (∃ s out, key_step sample_env 'f' video_session = .running s out ∧
      s.img_src = some ⟨1920, 1080, 3⟩ ∧ s.img_display = some ⟨960, 540, 3⟩ ∧
      s.scale_factor = 1 / 2 / 2 ∧
      ∃ s2 out2, key_step sample_env 'f' s = .running s2 out2 ∧
        s2.img_display = some ⟨960, 540, 4⟩ ∧ s2.scale_factor = 1 / 2 / 2 / 2) ∧
    (∃ s out, key_step sample_env 'b' video_session = .running s out ∧
      s.img_src = some ⟨1920, 1080, 1⟩ ∧ s.img_display = some ⟨960, 540, 1⟩ ∧
      s.scale_factor = 1 / 2 / 2) ∧
    fit_while ⟨1366, 768⟩ ⟨1920, 1080⟩ 1 = some (⟨960, 540⟩, 1 / 2) ∧
    (1 : ℚ) / 2 / 2 ≠ 1 / 2 :=
  ⟨⟨_, _, rfl, rfl, rfl, rfl, _, _, rfl, rfl, rfl⟩, ⟨_, _, rfl, rfl, rfl, rfl⟩, rfl,
    by norm_num⟩

/-- C8 (failing input): at scale 1/2 with the region (10, 10, 10, 20), the key
`h` moves the region to (9, 10, 10, 20) and crops the preview from the source
with that same rectangle, and so does a right-button drag, which crops with
(12, 10, 10, 20); only the left-button drag multiplies the rectangle by
1/scale_factor, which for (9, 10, 10, 20) is (18, 20, 20, 40). -/
theorem preview_crop_not_scaled :
    (∃ s, key_step sample_env 'h' video_session = .running s
      [Effect.cvShowImageAndRectangle (some ⟨960, 540, 2⟩)
         (cvRect32fFromRect ⟨9, 10, 10, 20⟩ 0) (cvPointTo32f ⟨0, 0⟩),
       Effect.cvShowCroppedImage ⟨1920, 1080, 2⟩
         (cvRect32fFromRect ⟨9, 10, 10, 20⟩ 0) (cvPointTo32f ⟨0, 0⟩)] ∧
      s.rect = ⟨9, 10, 10, 20⟩ ∧ s.scale_factor = 1 / 2) ∧
    (mouse_callback sample_env CV_EVENT_MOUSEMOVE 17 15 2
      (mouse_callback sample_env CV_EVENT_RBUTTONDOWN 15 15 2 video_session).1).2 =
      [Effect.cvShowImageAndRectangle (some ⟨960, 540, 2⟩)
         (cvRect32fFromRect ⟨12, 10, 10, 20⟩ 0) (cvPointTo32f ⟨0, 0⟩),
       Effect.cvShowCroppedImage ⟨1920, 1080, 2⟩
         (cvRect32fFromRect ⟨12, 10, 10, 20⟩ 0) (cvPointTo32f ⟨0, 0⟩)] ∧
    (mouse_callback sample_env CV_EVENT_MOUSEMOVE 9 10 1
      (mouse_callback sample_env CV_EVENT_LBUTTONDOWN 19 30 1 video_session).1).2 =
      [Effect.cvShowImageAndRectangle (some ⟨960, 540, 2⟩)
         (cvRect32fFromRect ⟨9, 10, 10, 20⟩ 0) (cvPointTo32f ⟨0, 0⟩),
       Effect.cvShowCroppedImage ⟨1920, 1080, 2⟩
         (scaled_rect32f ⟨9, 10, 10, 20⟩ (1 / 2) 0) (cvPointTo32f ⟨0, 0⟩)] ∧
    scaled_rect32f ⟨9, 10, 10, 20⟩ (1 / 2) 0 = ⟨18, 20, 20, 40, 0⟩ ∧
    cvRect32fFromRect ⟨9, 10, 10, 20⟩ 0 = ⟨9, 10, 10, 20, 0⟩ ∧
    (⟨9, 10, 10, 20, 0⟩ : CvRect32f) ≠ ⟨18, 20, 20, 40, 0⟩ := by
  refine ⟨⟨_, rfl, rfl, rfl⟩, rfl, rfl, ?_, ?_, ?_⟩
  · rw [show ((1 : ℚ) / 2) = 1 / 2 ^ 1 by norm_num,
      scaled_rect32f_two_pow _ _ 1 (by decide) (by decide) (by decide) (by decide)]
    norm_num
  · simp only [cvRect32fFromRect]; norm_num
  · intro h
    have := congrArg CvRect32f.x h
    norm_num at this

/-- C9 (failing input): the list `imtypes` that `main` builds has 14 entries, all
of them among the 14 types of the usage text, but `pbm` twice and `pgm` not at
all. -/
theorem imtypes_lacks_pgm :
    "pgm" ∉ init_param.imtypes ∧ "pgm" ∈ usage_supported_image_types ∧
    init_param.imtypes.length = 14 ∧ init_param.imtypes.count "pbm" = 2 ∧
    (∀ t ∈ init_param.imtypes, t ∈ usage_supported_image_types) ∧
    (∀ t ∈ usage_supported_image_types, t ≠ "pgm" → t ∈ init_param.imtypes) := by
  decide

/-! ### Save -/

theorem two_pow_inv_ne_one (k : Nat) (hk : k ≠ 0) : (1 : ℚ) / 2 ^ k ≠ 1 := by
  intro h
  have h2 : (2 : ℚ) ^ k = 1 := by
    field_simp at h
    exact h.symm
  have h3 : (1 : ℚ) < 2 ^ k := one_lt_pow₀ (by norm_num) hk
  rw [h2] at h3
  exact lt_irrefl _ h3

theorem source_rect32f_two_pow (rect : CvRect) (rotate : Int) (k : Nat)
    (hx : float_exact rect.x) (hy : float_exact rect.y) (hw : float_exact rect.width)
    (hh : float_exact rect.height) :
    source_rect32f rect (1 / 2 ^ k) rotate =
      ⟨rect.x * 2 ^ k, rect.y * 2 ^ k, rect.width * 2 ^ k, rect.height * 2 ^ k, rotate⟩ := by
  unfold source_rect32f
  by_cases hk : k = 0
  · subst hk
    simp [cvRect32fFromRect]
  · rw [if_pos (two_pow_inv_ne_one k hk)]
    exact scaled_rect32f_two_pow rect rotate k hx hy hw hh

theorem crop_size_two_pow (rect : CvRect) (k : Nat) (hw : float_exact rect.width)
    (hh : float_exact rect.height) :
    crop_size rect (1 / 2 ^ k) = ⟨rect.width * 2 ^ k, rect.height * 2 ^ k⟩ := by
  unfold crop_size
  by_cases hk : k = 0
  · subst hk
    simp
  · rw [if_pos (two_pow_inv_ne_one k hk)]
    rw [int_mul_inv_two_pow _ k hw, int_mul_inv_two_pow _ k hh, float_to_int_intCast,
      float_to_int_intCast]

/-- C7 (amended): for a region with width > 0 and height > 0 whose x, y, width
and height are at most 2^24 in magnitude (the `int` values that `float` holds
exactly) and whose width*2^k and height*2^k are at most `INT_MAX`, a loaded
frame and the scale factor 2^(-k), `Save` hands to `icFormat` the values x*2^k,
y*2^k, width*2^k and height*2^k; when the extension of the resulting path is
supported it creates the crop image of size width*2^k by height*2^k, crops it
from the source with the rectangle (x*2^k, y*2^k, width*2^k, height*2^k) and
saves it, and otherwise it ends the process after the formatting; at scale 1.0
(k = 0) these values are the x, y, width and height of the region. -/
theorem save_source_rectangle (env : Env) (param : Session) (img : IplImage) (k : Nat)
    (hw : 0 < param.rect.width) (hh : 0 < param.rect.height)
    (himg : param.img_src = some img) (hs : param.scale_factor = 1 / 2 ^ k)
    (hx : float_exact param.rect.x) (hy : float_exact param.rect.y)
    (hwe : float_exact param.rect.width) (hhe : float_exact param.rect.height)
    (hcw : param.rect.width * 2 ^ k ≤ INT_MAX) (hch : param.rect.height * 2 ^ k ≤ INT_MAX) :
    let r := param.rect
    let format := Effect.icFormat param.output_format (env.dirname param.filename)
      (env.filename param.filename) (env.extension param.filename)
      (r.x * 2 ^ k) (r.y * 2 ^ k) (r.width * 2 ^ k) (r.height * 2 ^ k)
      param.frame param.rotate
    let output_path := env.icFormat param.output_format (env.dirname param.filename)
      (env.filename param.filename) (env.extension param.filename)
      (r.x * 2 ^ k) (r.y * 2 ^ k) (r.width * 2 ^ k) (r.height * 2 ^ k)
      param.frame param.rotate
    let crop : IplImage := ⟨r.width * 2 ^ k, r.height * 2 ^ k, img.data⟩
    (env.match_extensions output_path param.imtypes = true →
      save env param = .running param
        [format, Effect.create_directories (env.dirname output_path),
         Effect.cvCropImageROI img crop
           ⟨r.x * 2 ^ k, r.y * 2 ^ k, r.width * 2 ^ k, r.height * 2 ^ k, param.rotate⟩
           (cvPointTo32f param.shear),
         Effect.cvSaveImage (env.realpath output_path) crop]) ∧
    (env.match_extensions output_path param.imtypes = false →
      save env param = .exit1 [format]) ∧
    (k = 0 →
      ((r.x : ℚ) * 2 ^ k = r.x ∧ (r.y : ℚ) * 2 ^ k = r.y ∧ (r.width : ℚ) * 2 ^ k = r.width ∧
        (r.height : ℚ) * 2 ^ k = r.height) ∧ crop = ⟨r.width, r.height, img.data⟩) := by
  intro r format output_path crop
  have e1 := source_rect32f_two_pow param.rect param.rotate k hx hy hwe hhe
  have e2 := crop_size_two_pow param.rect k hwe hhe
  refine ⟨?_, ?_, ?_⟩
  · intro hm
    unfold save
    rw [if_pos ⟨hw, hh⟩, hs, e1, e2, himg]
    dsimp only
    rw [if_neg (by rw [hm]; simp)]
    rfl
  · intro hm
    unfold save
    rw [if_pos ⟨hw, hh⟩, hs, e1]
    dsimp only
    rw [if_pos hm]
  · intro hk
    subst hk
    simp [crop]

theorem Outcome.after_nil (o : Outcome) : o.after [] = o := by
  cases o <;> simp [Outcome.after]

theorem Outcome.running_bind (p : Session) (f : Session → Outcome) :
    (Outcome.running p []).bind f = f p := by
  simp [Outcome.bind, Outcome.after_nil]

/-- The key `s` runs `Save` and then the redraw at the end of the loop body. -/
theorem key_step_s (env : Env) (param : Session) :
    key_step env 's' param =
      (save env param).bind fun p =>
        if p.watershed then watershed_keys env 's' p else rectangle_keys 's' p := by
  have z : zoom_keys env 's' param = .running param [] := by
    simp [zoom_keys, Outcome.running_bind]
  have n : ∀ p, navigation_keys env 's' p = .running p [] := by
    intro p
    simp [navigation_keys]
  unfold key_step
  rw [z, Outcome.running_bind]
  simp only [n, Outcome.running_bind, true_or, if_true]

/-! ### The media source -/

theorem same_media_refl (a : Session) : same_media a a :=
  ⟨rfl, rfl, rfl, rfl, rfl, rfl, rfl, rfl, rfl⟩

theorem same_media_trans {a b c : Session} (h1 : same_media a b) (h2 : same_media b c) :
    same_media a c := by
  obtain ⟨a1, a2, a3, a4, a5, a6, a7, a8, a9⟩ := h1
  obtain ⟨b1, b2, b3, b4, b5, b6, b7, b8, b9⟩ := h2
  exact ⟨b1.trans a1, b2.trans a2, b3.trans a3, b4.trans a4, b5.trans a5, b6.trans a6,
    b7.trans a7, b8.trans a8, b9.trans a9⟩

theorem watershed_edit_media (key : Char) (param : Session) :
    same_media param (watershed_edit key param) := by
  unfold watershed_edit
  dsimp only
  by_cases k0 : key = 'h'
  · rw [if_pos k0]; exact ⟨rfl, rfl, rfl, rfl, rfl, rfl, rfl, rfl, rfl⟩
  rw [if_neg k0]
  by_cases k1 : key = 'j'
  · rw [if_pos k1]; exact ⟨rfl, rfl, rfl, rfl, rfl, rfl, rfl, rfl, rfl⟩
  rw [if_neg k1]
  by_cases k2 : key = 'k'
  · rw [if_pos k2]; exact ⟨rfl, rfl, rfl, rfl, rfl, rfl, rfl, rfl, rfl⟩
  rw [if_neg k2]
  by_cases k3 : key = 'l'
  · rw [if_pos k3]; exact ⟨rfl, rfl, rfl, rfl, rfl, rfl, rfl, rfl, rfl⟩
  rw [if_neg k3]
  by_cases k4 : key = 'y'
  · rw [if_pos k4]; exact ⟨rfl, rfl, rfl, rfl, rfl, rfl, rfl, rfl, rfl⟩
  rw [if_neg k4]
  by_cases k5 : key = 'u'
  · rw [if_pos k5]; exact ⟨rfl, rfl, rfl, rfl, rfl, rfl, rfl, rfl, rfl⟩
  rw [if_neg k5]
  by_cases k6 : key = 'i'
  · rw [if_pos k6]; exact ⟨rfl, rfl, rfl, rfl, rfl, rfl, rfl, rfl, rfl⟩
  rw [if_neg k6]
  by_cases k7 : key = 'o'
  · rw [if_pos k7]; exact ⟨rfl, rfl, rfl, rfl, rfl, rfl, rfl, rfl, rfl⟩
  rw [if_neg k7]
  by_cases k8 : key = 'n'
  · rw [if_pos k8]; exact ⟨rfl, rfl, rfl, rfl, rfl, rfl, rfl, rfl, rfl⟩
  rw [if_neg k8]
  by_cases k9 : key = 'm'
  · rw [if_pos k9]; exact ⟨rfl, rfl, rfl, rfl, rfl, rfl, rfl, rfl, rfl⟩
  rw [if_neg k9]
  by_cases k10 : key = ','
  · rw [if_pos k10]; exact ⟨rfl, rfl, rfl, rfl, rfl, rfl, rfl, rfl, rfl⟩
  rw [if_neg k10]
  by_cases k11 : key = '.'
  · rw [if_pos k11]; exact ⟨rfl, rfl, rfl, rfl, rfl, rfl, rfl, rfl, rfl⟩
  rw [if_neg k11]
  by_cases k12 : key = 'r'
  · rw [if_pos k12]; exact ⟨rfl, rfl, rfl, rfl, rfl, rfl, rfl, rfl, rfl⟩
  rw [if_neg k12]
  by_cases k13 : key = 'R'
  · rw [if_pos k13]; exact ⟨rfl, rfl, rfl, rfl, rfl, rfl, rfl, rfl, rfl⟩
  rw [if_neg k13]
  by_cases k14 : key = 'e'
  · rw [if_pos k14]; exact ⟨rfl, rfl, rfl, rfl, rfl, rfl, rfl, rfl, rfl⟩
  rw [if_neg k14]
  by_cases k15 : key = 'E'
  · rw [if_pos k15]; exact ⟨rfl, rfl, rfl, rfl, rfl, rfl, rfl, rfl, rfl⟩
  rw [if_neg k15]
  exact ⟨rfl, rfl, rfl, rfl, rfl, rfl, rfl, rfl, rfl⟩

theorem watershed_keys_media (env : Env) (key : Char) (param : Session) :
    ∃ s out, watershed_keys env key param = .running s out ∧ same_media param s := by
  unfold watershed_keys
  dsimp only
  split
  · exact ⟨_, _, rfl, same_media_trans (watershed_edit_media key param)
      ⟨rfl, rfl, rfl, rfl, rfl, rfl, rfl, rfl, rfl⟩⟩
  · exact ⟨_, _, rfl, watershed_edit_media key param⟩

theorem rectangle_edit_media {key : Char} {param p : Session} {out : List Effect}
    (h : rectangle_edit key param = .running p out) : same_media param p := by
  unfold rectangle_edit at h
  dsimp only at h
  by_cases k0 : key = 'h'
  · rw [if_pos k0] at h; cases h; exact ⟨rfl, rfl, rfl, rfl, rfl, rfl, rfl, rfl, rfl⟩
  rw [if_neg k0] at h
  by_cases k1 : key = 'j'
  · rw [if_pos k1] at h; cases h; exact ⟨rfl, rfl, rfl, rfl, rfl, rfl, rfl, rfl, rfl⟩
  rw [if_neg k1] at h
  by_cases k2 : key = 'k'
  · rw [if_pos k2] at h; cases h; exact ⟨rfl, rfl, rfl, rfl, rfl, rfl, rfl, rfl, rfl⟩
  rw [if_neg k2] at h
  by_cases k3 : key = 'l'
  · rw [if_pos k3] at h; cases h; exact ⟨rfl, rfl, rfl, rfl, rfl, rfl, rfl, rfl, rfl⟩
  rw [if_neg k3] at h
  by_cases k4 : key = 'y'
  · rw [if_pos k4] at h; cases h; exact ⟨rfl, rfl, rfl, rfl, rfl, rfl, rfl, rfl, rfl⟩
  rw [if_neg k4] at h
  by_cases k5 : key = 'u'
  · rw [if_pos k5] at h; cases h; exact ⟨rfl, rfl, rfl, rfl, rfl, rfl, rfl, rfl, rfl⟩
  rw [if_neg k5] at h
  by_cases k6 : key = 'i'
  · rw [if_pos k6] at h; cases h; exact ⟨rfl, rfl, rfl, rfl, rfl, rfl, rfl, rfl, rfl⟩
  rw [if_neg k6] at h
  by_cases k7 : key = 'o'
  · rw [if_pos k7] at h; cases h; exact ⟨rfl, rfl, rfl, rfl, rfl, rfl, rfl, rfl, rfl⟩
  rw [if_neg k7] at h
  by_cases k8 : key = 'n'
  · rw [if_pos k8] at h; cases h; exact ⟨rfl, rfl, rfl, rfl, rfl, rfl, rfl, rfl, rfl⟩
  rw [if_neg k8] at h
  by_cases k9 : key = 'm'
  · rw [if_pos k9] at h; cases h; exact ⟨rfl, rfl, rfl, rfl, rfl, rfl, rfl, rfl, rfl⟩
  rw [if_neg k9] at h
  by_cases k10 : key = ','
  · rw [if_pos k10] at h; cases h; exact ⟨rfl, rfl, rfl, rfl, rfl, rfl, rfl, rfl, rfl⟩
  rw [if_neg k10] at h
  by_cases k11 : key = '.'
  · rw [if_pos k11] at h; cases h; exact ⟨rfl, rfl, rfl, rfl, rfl, rfl, rfl, rfl, rfl⟩
  rw [if_neg k11] at h
  by_cases k12 : key = 'r'
  · rw [if_pos k12] at h; cases h; exact ⟨rfl, rfl, rfl, rfl, rfl, rfl, rfl, rfl, rfl⟩
  rw [if_neg k12] at h
  by_cases k13 : key = 'R'
  · rw [if_pos k13] at h; cases h; exact ⟨rfl, rfl, rfl, rfl, rfl, rfl, rfl, rfl, rfl⟩
  rw [if_neg k13] at h
  by_cases k14 : key = 'e'
  · rw [if_pos k14] at h; cases h; exact ⟨rfl, rfl, rfl, rfl, rfl, rfl, rfl, rfl, rfl⟩
  rw [if_neg k14] at h
  by_cases k15 : key = 'E'
  · rw [if_pos k15] at h
    split at h
    · cases h
    · cases h; exact ⟨rfl, rfl, rfl, rfl, rfl, rfl, rfl, rfl, rfl⟩
  rw [if_neg k15] at h
  cases h
  exact ⟨rfl, rfl, rfl, rfl, rfl, rfl, rfl, rfl, rfl⟩

theorem rectangle_keys_media {key : Char} {param p : Session} {out : List Effect}
    (h : rectangle_keys key param = .running p out) : same_media param p := by
  unfold rectangle_keys at h
  obtain ⟨p1, out1, out2, h1, h2, -⟩ := Outcome.bind_running h
  have hp : p = p1 := by
    split at h2
    · exact (Outcome.running.inj h2).1.symm
    · exact (Outcome.running.inj h2).1.symm
  subst hp
  exact rectangle_edit_media h1

/-- The redraw at the end of the loop body for a key that is none of the edit
keys of the rectangle. -/
theorem rectangle_keys_other (key : Char) (param : Session)
    (hk : key = 'f' ∨ key = 'b' ∨ key = 's' ∨ key = Char.ofNat 32) :
    ∃ out, rectangle_keys key param = .running param out := by
  have e : rectangle_edit key param = .running param [] := by
    rcases hk with rfl | rfl | rfl | rfl <;> simp [rectangle_edit]
  unfold rectangle_keys
  rw [e, Outcome.running_bind]
  split
  · exact ⟨_, rfl⟩
  · exact ⟨_, rfl⟩

theorem edit_keys_other (env : Env) (key : Char) (param : Session)
    (hk : key = 'f' ∨ key = 'b' ∨ key = 's' ∨ key = Char.ofNat 32) :
    ∃ s out, (if param.watershed then watershed_keys env key param
      else rectangle_keys key param) = .running s out ∧ same_media param s := by
  split_ifs
  · exact watershed_keys_media env key param
  · obtain ⟨out, h⟩ := rectangle_keys_other key param hk
    exact ⟨param, out, h, same_media_refl param⟩

theorem fit_loop_terminates (W H : Int) (hW : 0 ≤ W) (hH : 0 ≤ H) :
    ∀ (fuel : Nat) (w h : Int) (scale : ℚ), w.natAbs + h.natAbs < fuel →
      ∃ r, fit_loop fuel ⟨W, H⟩ ⟨w, h⟩ scale = some r := by
  intro fuel
  induction fuel with
  | zero => intro w h scale hf; omega
  | succ f ih =>
    intro w h scale hf
    simp only [fit_loop]
    split_ifs with c
    · apply ih
      have e1 := Int.natAbs_tdiv w 2
      have e2 := Int.natAbs_tdiv h 2
      have e3 : (Int.natAbs 2) = 2 := rfl
      rw [e3] at e1 e2
      have d1 : w.natAbs.div 2 = w.natAbs / 2 := rfl
      have d2 : h.natAbs.div 2 = h.natAbs / 2 := rfl
      rw [d1] at e1
      rw [d2] at e2
      rw [e1, e2]
      omega
    · exact ⟨_, rfl⟩

theorem fit_while_terminates (screen size : CvSize) (scale : ℚ) (hW : 0 ≤ screen.width)
    (hH : 0 ≤ screen.height) : ∃ r, fit_while screen size scale = some r := by
  unfold fit_while fit_fuel
  exact fit_loop_terminates screen.width screen.height hW hH _ size.width size.height scale
    (by omega)

theorem assure_width_media (p : Session) : same_media p (assure_width p) := by
  unfold assure_width
  split_ifs <;> exact ⟨rfl, rfl, rfl, rfl, rfl, rfl, rfl, rfl, rfl⟩

theorem assure_height_media (p : Session) : same_media p (assure_height p) := by
  unfold assure_height
  split_ifs <;> exact ⟨rfl, rfl, rfl, rfl, rfl, rfl, rfl, rfl, rfl⟩

theorem right_down_watershed_media (env : Env) (p : Session) :
    same_media p (right_down_watershed env p) := by
  unfold right_down_watershed
  dsimp only
  split_ifs <;> exact ⟨rfl, rfl, rfl, rfl, rfl, rfl, rfl, rfl, rfl⟩

theorem right_down_media (env : Env) (x y : Int) (p : Session) :
    same_media p (right_down env x y p).1 := by
  have e : same_media p (right_down_watershed env { p with point0 := ⟨x, y⟩ }) :=
    same_media_trans ⟨rfl, rfl, rfl, rfl, rfl, rfl, rfl, rfl, rfl⟩
      (right_down_watershed_media env _)
  unfold right_down
  dsimp only
  split_ifs
  · exact same_media_trans e ⟨rfl, rfl, rfl, rfl, rfl, rfl, rfl, rfl, rfl⟩
  · exact e

theorem right_move_watershed_media (env : Env) (x y : Int) (img : IplImage) (p : Session) :
    same_media p (right_move_watershed env x y img p).1 := by
  unfold right_move_watershed
  dsimp only
  split_ifs <;> exact ⟨rfl, rfl, rfl, rfl, rfl, rfl, rfl, rfl, rfl⟩

theorem right_move_media (x y : Int) (img : IplImage) (p : Session) :
    same_media p (right_move x y img p).1 :=
  same_media_trans
    (same_media_trans
      (same_media_trans (b := { p with rect := apply_move x y p })
        ⟨rfl, rfl, rfl, rfl, rfl, rfl, rfl, rfl, rfl⟩ (assure_width_media _))
      (assure_height_media _))
    ⟨rfl, rfl, rfl, rfl, rfl, rfl, rfl, rfl, rfl⟩

theorem mouse_callback_media (env : Env) (event x y : Int) (flags : Nat) (param : Session) :
    same_media param (mouse_callback env event x y flags param).1 := by
  unfold mouse_callback
  split
  · dsimp only
    split_ifs
    · exact ⟨rfl, rfl, rfl, rfl, rfl, rfl, rfl, rfl, rfl⟩
    · exact ⟨rfl, rfl, rfl, rfl, rfl, rfl, rfl, rfl, rfl⟩
    · exact ⟨rfl, rfl, rfl, rfl, rfl, rfl, rfl, rfl, rfl⟩
    · exact ⟨rfl, rfl, rfl, rfl, rfl, rfl, rfl, rfl, rfl⟩
    · exact right_down_media _ _ _ _
    · exact right_move_watershed_media _ _ _ _ _
    · exact right_move_media _ _ _ _
    · exact ⟨rfl, rfl, rfl, rfl, rfl, rfl, rfl, rfl, rfl⟩
    · exact same_media_refl _
  · exact same_media_refl _

theorem same_media_cursor {L : List String} {a b : Session} (h : same_media a b)
    (hc : cursor_ok L a) : cursor_ok L b := by
  obtain ⟨a1, a2, a3, -⟩ := h
  obtain ⟨c1, c2, c3⟩ := hc
  exact ⟨a3.trans c1, a1.trans c2, by rw [a2]; exact c3⟩

theorem rescale_display_cursor {L : List String} {scale : ℚ} {param p : Session}
    {out : List Effect} (h : rescale_display scale param = .running p out)
    (hc : cursor_ok L param) : cursor_ok L p := by
  unfold rescale_display at h
  split at h
  · cases h
  · cases h
    exact hc

theorem zoom_keys_cursor {L : List String} {env : Env} {key : Char} {param p : Session}
    {out : List Effect} (h : zoom_keys env key param = .running p out)
    (hc : cursor_ok L param) : cursor_ok L p := by
  unfold zoom_keys at h
  obtain ⟨p1, out1, out2, h1, h2, -⟩ := Outcome.bind_running h
  have a : cursor_ok L p1 := by
    split_ifs at h1
    · exact rescale_display_cursor h1 hc
    · cases h1; exact hc
  split_ifs at h2
  · exact rescale_display_cursor h2 a
  · cases h2; exact a

theorem forward_cursor {L : List String} {env : Env} {param p : Session}
    {out : List Effect} (h : forward env param = .running p out)
    (hc : cursor_ok L param) : cursor_ok L p := by
  obtain ⟨c1, c2, c3⟩ := hc
  unfold forward at h
  rw [c1] at h
  dsimp only at h
  split at h
  · split at h
    · cases h
    · split at h
      · cases h
      · cases h
        have hne : param.fileiter + 1 ≠ param.filelist.length := by assumption
        refine ⟨rfl, c2, ?_⟩
        show param.fileiter + 1 < L.length
        rw [c2] at hne
        omega
  · cases h
    exact ⟨c1, c2, c3⟩

theorem backward_cursor {L : List String} {env : Env} {param p : Session}
    {out : List Effect} (h : backward env param = .running p out)
    (hc : cursor_ok L param) : cursor_ok L p := by
  obtain ⟨c1, c2, c3⟩ := hc
  unfold backward at h
  rw [c1] at h
  dsimp only at h
  split at h
  · split at h
    · cases h
    · split at h
      · cases h
      · split at h
        · cases h
        · cases h
          refine ⟨rfl, c2, ?_⟩
          show param.fileiter - 1 < L.length
          omega
  · cases h
    exact ⟨c1, c2, c3⟩

theorem navigation_keys_cursor {L : List String} {env : Env} {key : Char} {param p : Session}
    {out : List Effect} (h : navigation_keys env key param = .running p out)
    (hc : cursor_ok L param) : cursor_ok L p := by
  unfold navigation_keys at h
  split_ifs at h
  · exact forward_cursor h hc
  · exact backward_cursor h hc
  · cases h; exact hc
  · cases h; exact hc
  · cases h; exact hc

theorem key_step_cursor {L : List String} {env : Env} {key : Char} {param p : Session}
    {out : List Effect} (h : key_step env key param = .running p out)
    (hc : cursor_ok L param) : cursor_ok L p := by
  unfold key_step at h
  obtain ⟨p1, _, _, h1, g1, -⟩ := Outcome.bind_running h
  obtain ⟨p2, _, _, h2, g2, -⟩ := Outcome.bind_running g1
  obtain ⟨p3, _, _, h3, g3, -⟩ := Outcome.bind_running g2
  have c1 := zoom_keys_cursor h1 hc
  have e2 : p2 = p1 := by
    split_ifs at h2
    · exact save_running h2
    · exact (Outcome.running.inj h2).1.symm
  subst e2
  have c3 := navigation_keys_cursor h3 c1
  split_ifs at g3
  · obtain ⟨s, out', hs, hm⟩ := watershed_keys_media env key p3
    rw [hs] at g3
    cases g3
    exact same_media_cursor hm c3
  · exact same_media_cursor (rectangle_keys_media g3) c3

theorem trace_cursor (env : Env) (L : List String) (es : List Event) (param : Session)
    (hc : cursor_ok L param) : ∀ s ∈ trace env param es, cursor_ok L s := by
  induction es generalizing param with
  | nil => intro s hs; simp [trace] at hs
  | cons e es ih =>
    intro s hs
    unfold trace at hs
    split at hs
    · rename_i p out hh
      have hp : cursor_ok L p := by
        cases e with
        | mouse event x y flags =>
          have e1 : p = (mouse_callback env event x y flags param).1 :=
            (Outcome.running.inj hh).1.symm
          rw [e1]
          exact same_media_cursor (mouse_callback_media env event x y flags param) hc
        | key key => exact key_step_cursor hh hc
      rcases List.mem_cons.mp hs with rfl | hmem
      · exact hp
      · exact ih p hp s hmem
    · simp at hs

/-- The key `f` runs Forward and then the redraw at the end of the loop body. -/
theorem key_step_f (env : Env) (param : Session) :
    key_step env 'f' param =
      (forward env param).bind fun p =>
        if p.watershed then watershed_keys env 'f' p else rectangle_keys 'f' p := by
  have z : zoom_keys env 'f' param = .running param [] := by
    simp [zoom_keys, Outcome.running_bind]
  unfold key_step
  rw [z, Outcome.running_bind]
  simp [navigation_keys, Outcome.running_bind]

/-- The key `b` runs Backward and then the redraw at the end of the loop body. -/
theorem key_step_b (env : Env) (param : Session) :
    key_step env 'b' param =
      (backward env param).bind fun p =>
        if p.watershed then watershed_keys env 'b' p else rectangle_keys 'b' p := by
  have z : zoom_keys env 'b' param = .running param [] := by
    simp [zoom_keys, Outcome.running_bind]
  unfold key_step
  rw [z, Outcome.running_bind]
  simp [navigation_keys, Outcome.running_bind]

theorem Outcome.bind_of_running {o : Outcome} {f : Session → Outcome} {p s : Session}
    {out : List Effect} (h1 : o = .running p []) (h2 : f p = .running s out) :
    o.bind f = .running s out := by
  rw [h1, Outcome.running_bind, h2]

/-- C10: in directory mode with the cursor at index i inside a file list of n
entries, Backward (`b`) at i = 0 and Forward (`f`) at i = n - 1 leave the cursor,
the loaded frame, the display image and the scale factor as they are; Backward
at i > 0 moves the cursor to i - 1 and Forward at i + 1 < n moves it to i + 1,
loading the file there (when it is readable, and for Backward on a screen of
non-negative size, where the halving loop ends); and after every event of
every sequence of events the session is still in directory mode on the same
list with the cursor in [0, n - 1]. -/
theorem directory_cursor (env : Env) (param : Session) (hcap : param.cap = none)
    (hi : param.fileiter < param.filelist.length) :
    (param.fileiter = 0 →
      ∃ s out, key_step env 'b' param = .running s out ∧ same_media param s) ∧
    (0 < param.fileiter → 0 ≤ param.screen_size.width → 0 ≤ param.screen_size.height →
      ∀ name img, param.filelist.get? (param.fileiter - 1) = some name →
        env.cvLoadImage (env.realpath name) = some img →
        ∃ s out, key_step env 'b' param = .running s out ∧
          s.fileiter = param.fileiter - 1 ∧ s.filelist = param.filelist ∧ s.cap = none ∧
          s.img_src = some img ∧ s.filename = name) ∧
    (param.fileiter + 1 = param.filelist.length →
      ∃ s out, key_step env 'f' param = .running s out ∧ same_media param s) ∧
    (param.fileiter + 1 < param.filelist.length →
      ∀ name img, param.filelist.get? (param.fileiter + 1) = some name →
        env.cvLoadImage (env.realpath name) = some img →
        ∃ s out, key_step env 'f' param = .running s out ∧
          s.fileiter = param.fileiter + 1 ∧ s.filelist = param.filelist ∧ s.cap = none ∧
          s.img_src = some img ∧ s.filename = name) ∧
    (∀ es : List Event, ∀ s ∈ trace env param es,
      s.cap = none ∧ s.filelist = param.filelist ∧ s.fileiter < param.filelist.length) := by
  refine ⟨?_, ?_, ?_, ?_, ?_⟩
  · intro h0
    have hb : backward env param = .running param [] := by
      simp [backward, hcap, h0]
    obtain ⟨s, out, hs, hm⟩ := edit_keys_other env 'b' param (Or.inr (Or.inl rfl))
    exact ⟨s, out, by rw [key_step_b]; exact Outcome.bind_of_running hb hs, hm⟩
  · intro hpos hW hH name img hname himg
    obtain ⟨⟨size, scale⟩, hfit⟩ :=
      fit_while_terminates param.screen_size ⟨img.width, img.height⟩ 1 hW hH
    have hb : backward env param =
        .running { param with fileiter := param.fileiter - 1, filename := name,
                              img_src := some img, scale_factor := scale,
                              img_display := some (cvCreateImage size img) } [] := by
      unfold backward
      rw [hcap]
      dsimp only
      rw [if_pos (by omega), hname]
      dsimp only
      rw [himg]
      dsimp only
      rw [hfit]
    obtain ⟨s, out, hs, hm⟩ := edit_keys_other env 'b' _ (Or.inr (Or.inl rfl))
    refine ⟨s, out, by rw [key_step_b]; exact Outcome.bind_of_running hb hs, ?_⟩
    obtain ⟨m1, m2, m3, -, m5, -, -, -, m9⟩ := hm
    exact ⟨m2, m1, m3.trans hcap, m5, m9⟩
  · intro hlast
    have hf : forward env param = .running param [] := by
      simp [forward, hcap, hlast]
    obtain ⟨s, out, hs, hm⟩ := edit_keys_other env 'f' param (Or.inl rfl)
    exact ⟨s, out, by rw [key_step_f]; exact Outcome.bind_of_running hf hs, hm⟩
  · intro hlt name img hname himg
    obtain ⟨p, hf, h1, h2, h3, h4, h5⟩ : ∃ p, forward env param = .running p [] ∧
        p.fileiter = param.fileiter + 1 ∧ p.filelist = param.filelist ∧ p.cap = none ∧
        p.img_src = some img ∧ p.filename = name := by
      unfold forward
      rw [hcap]
      dsimp only
      rw [if_pos (by omega), hname]
      dsimp only
      rw [himg]
      exact ⟨_, rfl, rfl, rfl, rfl, rfl, rfl⟩
    obtain ⟨s, out, hs, hm⟩ := edit_keys_other env 'f' p (Or.inl rfl)
    refine ⟨s, out, by rw [key_step_f]; exact Outcome.bind_of_running hf hs, ?_⟩
    obtain ⟨m1, m2, m3, -, m5, -, -, -, m9⟩ := hm
    exact ⟨m2.trans h1, m1.trans h2, m3.trans h3, m5.trans h4, m9.trans h5⟩
  · intro es s hs
    exact trace_cursor env param.filelist es param ⟨hcap, rfl, hi⟩ s hs

/-! ### Witnesses -/

/-- C10 (witness): the sample session, with the cursor on the second of three
files. -/
theorem directory_cursor_witness :
    (sample_session.cap = none ∧ sample_session.fileiter < sample_session.filelist.length) ∧
    ((sample_session.fileiter = 0 →
      ∃ s out, key_step sample_env 'b' sample_session = .running s out ∧
        same_media sample_session s) ∧
    (0 < sample_session.fileiter → 0 ≤ sample_session.screen_size.width →
      0 ≤ sample_session.screen_size.height →
      ∀ name img, sample_session.filelist.get? (sample_session.fileiter - 1) = some name →
        sample_env.cvLoadImage (sample_env.realpath name) = some img →
        ∃ s out, key_step sample_env 'b' sample_session = .running s out ∧
          s.fileiter = sample_session.fileiter - 1 ∧ s.filelist = sample_session.filelist ∧
          s.cap = none ∧ s.img_src = some img ∧ s.filename = name) ∧
    (sample_session.fileiter + 1 = sample_session.filelist.length →
      ∃ s out, key_step sample_env 'f' sample_session = .running s out ∧
        same_media sample_session s) ∧
    (sample_session.fileiter + 1 < sample_session.filelist.length →
      ∀ name img, sample_session.filelist.get? (sample_session.fileiter + 1) = some name →
        sample_env.cvLoadImage (sample_env.realpath name) = some img →
        ∃ s out, key_step sample_env 'f' sample_session = .running s out ∧
          s.fileiter = sample_session.fileiter + 1 ∧ s.filelist = sample_session.filelist ∧
          s.cap = none ∧ s.img_src = some img ∧ s.filename = name) ∧
    (∀ es : List Event, ∀ s ∈ trace sample_env sample_session es,
      s.cap = none ∧ s.filelist = sample_session.filelist ∧
        s.fileiter < sample_session.filelist.length)) :=
  ⟨⟨rfl, by decide⟩, directory_cursor sample_env sample_session rfl (by decide)⟩

/-- C1 (witness): from the initial region (0, 0, 0, 0), a left drag, a shrink, a
resize drag past the opposite edge and further keys. -/
theorem region_size_nonneg_witness :
    (initial_session.watershed = false ∧ 0 ≤ initial_session.rect.width ∧
      0 ≤ initial_session.rect.height ∧ 1 ≤ initial_session.inc ∧
      ∀ e ∈ [Event.mouse CV_EVENT_LBUTTONDOWN 30 40 1, Event.mouse CV_EVENT_MOUSEMOVE 12 45 1,
             Event.mouse CV_EVENT_LBUTTONUP 12 45 0, Event.key 'E', Event.key 'y',
             Event.mouse CV_EVENT_RBUTTONDOWN 5 42 2, Event.mouse CV_EVENT_MOUSEMOVE 60 42 2,
             Event.mouse CV_EVENT_RBUTTONUP 60 42 0, Event.key 'i', Event.key 'b'],
        ¬ e.draws_watershed) ∧
    ∀ s ∈ trace sample_env initial_session
        [Event.mouse CV_EVENT_LBUTTONDOWN 30 40 1, Event.mouse CV_EVENT_MOUSEMOVE 12 45 1,
         Event.mouse CV_EVENT_LBUTTONUP 12 45 0, Event.key 'E', Event.key 'y',
         Event.mouse CV_EVENT_RBUTTONDOWN 5 42 2, Event.mouse CV_EVENT_MOUSEMOVE 60 42 2,
         Event.mouse CV_EVENT_RBUTTONUP 60 42 0, Event.key 'i', Event.key 'b'],
      s.watershed = false ∧ 0 ≤ s.rect.width ∧ 0 ≤ s.rect.height :=
  ⟨by decide,
   region_size_nonneg sample_env initial_session rfl (by decide) (by decide) (by decide) _
     (by decide)⟩

/-- C7 (witness): the video session, whose region (10, 10, 10, 20) is shown at
scale 1/2: the source rectangle is (20, 20, 20, 40). -/
theorem save_source_rectangle_witness :
    (0 < video_session.rect.width ∧ 0 < video_session.rect.height ∧
      video_session.img_src = some ⟨1920, 1080, 2⟩ ∧
      video_session.scale_factor = 1 / 2 ^ 1 ∧
      float_exact video_session.rect.x ∧ float_exact video_session.rect.y ∧
      float_exact video_session.rect.width ∧ float_exact video_session.rect.height ∧
      video_session.rect.width * 2 ^ 1 ≤ INT_MAX ∧
      video_session.rect.height * 2 ^ 1 ≤ INT_MAX) ∧
    (let env := sample_env
     let param := video_session
     let img : IplImage := ⟨1920, 1080, 2⟩
     let k := 1
     let r := param.rect
     let format := Effect.icFormat param.output_format (env.dirname param.filename)
       (env.filename param.filename) (env.extension param.filename)
       (r.x * 2 ^ k) (r.y * 2 ^ k) (r.width * 2 ^ k) (r.height * 2 ^ k)
       param.frame param.rotate
     let output_path := env.icFormat param.output_format (env.dirname param.filename)
       (env.filename param.filename) (env.extension param.filename)
       (r.x * 2 ^ k) (r.y * 2 ^ k) (r.width * 2 ^ k) (r.height * 2 ^ k)
       param.frame param.rotate
     let crop : IplImage := ⟨r.width * 2 ^ k, r.height * 2 ^ k, img.data⟩
     (env.match_extensions output_path param.imtypes = true →
       save env param = .running param
         [format, Effect.create_directories (env.dirname output_path),
          Effect.cvCropImageROI img crop
            ⟨r.x * 2 ^ k, r.y * 2 ^ k, r.width * 2 ^ k, r.height * 2 ^ k, param.rotate⟩
            (cvPointTo32f param.shear),
          Effect.cvSaveImage (env.realpath output_path) crop]) ∧
     (env.match_extensions output_path param.imtypes = false →
       save env param = .exit1 [format]) ∧
     (k = 0 →
       ((r.x : ℚ) * 2 ^ k = r.x ∧ (r.y : ℚ) * 2 ^ k = r.y ∧
         (r.width : ℚ) * 2 ^ k = r.width ∧ (r.height : ℚ) * 2 ^ k = r.height) ∧
       crop = ⟨r.width, r.height, img.data⟩)) :=
  ⟨⟨by decide, by decide, rfl, by norm_num [video_session], by decide, by decide, by decide,
     by decide, by decide, by decide⟩,
   save_source_rectangle sample_env video_session ⟨1920, 1080, 2⟩ 1 (by decide) (by decide) rfl
     (by norm_num [video_session]) (by decide) (by decide) (by decide) (by decide)
     (by decide) (by decide)⟩

/-- C7 (counterexample): the video session at scale 1/2 with the region
(2^24 + 1, 10, 10, 20), of width 10 > 0 and height 20 > 0: `Save` hands to
`icFormat` and to the crop the x value 33554432 and not (2^24 + 1) * 2 =
33554434, because the `int` 2^24 + 1 is converted to the `float` 2^24 before
the product; y, width and height are 20, 20 and 40. -/
theorem save_source_rectangle_counterexample :
    0 < far_region_session.rect.width ∧ 0 < far_region_session.rect.height ∧
    far_region_session.rect.x = 16777217 ∧
    far_region_session.img_src = some ⟨1920, 1080, 2⟩ ∧
    far_region_session.scale_factor = 1 / 2 ^ 1 ∧
    save sample_env far_region_session = .running far_region_session
      [Effect.icFormat "" "." "movie.avi" "png" 33554432 20 20 40 2 0,
       Effect.create_directories ".",
       Effect.cvCropImageROI ⟨1920, 1080, 2⟩ ⟨20, 40, 2⟩ ⟨33554432, 20, 20, 40, 0⟩
         (cvPointTo32f ⟨0, 0⟩),
       Effect.cvSaveImage "./movie.avi.png" ⟨20, 40, 2⟩] ∧
    (33554432 : ℚ) ≠ ((16777217 * 2 ^ 1 : Int) : ℚ) := by
  have hq : far_region_session.scale_factor = 1 / 2 ^ 1 := by
    norm_num [far_region_session, video_session]
  have h2 : float_div 1 (1 / 2 ^ 1) = 2 := by
    rw [float_div_one_two_pow]; norm_num
  have hxv : float_mul (int_to_float 16777217) (float_div 1 (1 / 2 ^ 1)) = 33554432 := by
    rw [int_to_float_16777217, h2]
    unfold float_mul
    have e := to_float_exact 1 25 (by norm_num)
    have e2 : ((1 : Int) : ℚ) * 2 ^ 25 = (16777216 : ℚ) * 2 := by norm_num
    rw [e2] at e
    rw [e]
    norm_num
  have hr : source_rect32f far_region_session.rect far_region_session.scale_factor
      far_region_session.rotate = ⟨33554432, 20, 20, 40, 0⟩ := by
    rw [hq]
    unfold source_rect32f
    rw [if_pos (two_pow_inv_ne_one 1 (by decide))]
    unfold scaled_rect32f
    have r1 : far_region_session.rect.x = 16777217 := rfl
    rw [r1, hxv]
    rw [int_mul_inv_two_pow _ 1 (by decide), int_mul_inv_two_pow _ 1 (by decide),
      int_mul_inv_two_pow _ 1 (by decide)]
    have r2 : far_region_session.rect.y = 10 := rfl
    have r3 : far_region_session.rect.width = 10 := rfl
    have r4 : far_region_session.rect.height = 20 := rfl
    have r5 : far_region_session.rotate = 0 := rfl
    rw [r2, r3, r4, r5]
    norm_num
  have hc : crop_size far_region_session.rect far_region_session.scale_factor = ⟨20, 40⟩ := by
    rw [hq, crop_size_two_pow _ 1 (by decide) (by decide)]
    rfl
  refine ⟨by decide, by decide, rfl, rfl, hq, ?_, by norm_num⟩
  unfold save
  rw [if_pos (by decide)]
  dsimp only
  rw [hr, hc]
  rfl

/-! ### The edit keys -/

/-- A key that none of the zoom, save and navigation parts of the loop body
reacts to goes straight to the edit keys at the end of the body. -/
theorem key_step_edit (env : Env) (key : Char) (param : Session)
    (h1 : key ≠ '+') (h2 : key ≠ '-') (h3 : key ≠ 's') (h4 : key ≠ Char.ofNat 32)
    (h5 : key ≠ 'f') (h6 : key ≠ 'b') (h7 : key ≠ 'q') (h8 : key ≠ Char.ofNat 27) :
    key_step env key param =
      if param.watershed then watershed_keys env key param else rectangle_keys key param := by
  have z : zoom_keys env key param = .running param [] := by
    simp [zoom_keys, Outcome.running_bind, h1, h2]
  have n : navigation_keys env key param = .running param [] := by
    simp [navigation_keys, h1, h2, h4, h5, h6, h7, h8]
  unfold key_step
  rw [z, Outcome.running_bind, if_neg (by simp [h3, h4]), Outcome.running_bind, n,
    Outcome.running_bind]

theorem rectangle_keys_of_edit {key : Char} {param p : Session}
    (h : rectangle_edit key param = .running p []) :
    ∃ out, rectangle_keys key param = .running p out := by
  unfold rectangle_keys
  rw [h, Outcome.running_bind]
  split
  · exact ⟨_, rfl⟩
  · exact ⟨_, rfl⟩

theorem key_step_r (env : Env) (param : Session) :
    ∃ s out, key_step env 'r' param = .running s out ∧
      s.rotate = rotate_r param.rotate param.inc ∧ s.inc = param.inc := by
  rw [key_step_edit env 'r' param (by decide) (by decide) (by decide) (by decide) (by decide)
    (by decide) (by decide) (by decide)]
  split_ifs
  · have e : watershed_edit 'r' param =
        { param with rotate := rotate_r param.rotate param.inc } := by
      simp [watershed_edit, rotate_r]
    unfold watershed_keys
    dsimp only
    rw [e]
    split
    · exact ⟨_, _, rfl, rfl, rfl⟩
    · exact ⟨_, _, rfl, rfl, rfl⟩
  · have e : rectangle_edit 'r' param =
        .running { param with rotate := rotate_r param.rotate param.inc } [] := by
      simp [rectangle_edit, rotate_r]
    obtain ⟨out, h⟩ := rectangle_keys_of_edit e
    exact ⟨_, out, h, rfl, rfl⟩

theorem key_step_R (env : Env) (param : Session) :
    ∃ s out, key_step env 'R' param = .running s out ∧
      s.rotate = rotate_R param.rotate param.inc ∧ s.inc = param.inc := by
  rw [key_step_edit env 'R' param (by decide) (by decide) (by decide) (by decide) (by decide)
    (by decide) (by decide) (by decide)]
  split_ifs
  · have e : watershed_edit 'R' param =
        { param with rotate := rotate_R param.rotate param.inc } := by
      simp [watershed_edit, rotate_R]
    unfold watershed_keys
    dsimp only
    rw [e]
    split
    · exact ⟨_, _, rfl, rfl, rfl⟩
    · exact ⟨_, _, rfl, rfl, rfl⟩
  · have e : rectangle_edit 'R' param =
        .running { param with rotate := rotate_R param.rotate param.inc } [] := by
      simp [rectangle_edit, rotate_R]
    obtain ⟨out, h⟩ := rectangle_keys_of_edit e
    exact ⟨_, out, h, rfl, rfl⟩

/-! ### Rotation -/

/-- C11 (failing input): with the rotation 359 and the increment step 361 (the
step after 360 presses of `+`), the key `r` leaves the rotation at 360, which is
neither (359 + 361) mod 360 = 0 nor below 360; with the rotation 0 and the same
step, the key `R` leaves it at -1, which is neither (0 - 361) mod 360 = 359 nor
at least 0.  One subtraction or addition of 360 is made, whatever the step. -/
theorem rotation_not_normalized :
    (∃ s out, key_step sample_env 'r' { sample_session with rotate := 359, inc := 361 } =
        .running s out ∧ s.rotate = 360 ∧ (359 + 361 : Int) % 360 = 0) ∧
    (∃ s out, key_step sample_env 'R' { sample_session with rotate := 0, inc := 361 } =
        .running s out ∧ s.rotate = -1 ∧ (0 - 361 : Int) % 360 = 359) :=
  ⟨⟨_, _, rfl, rfl, by decide⟩, ⟨_, _, rfl, rfl, by decide⟩⟩

theorem trace_key_r (env : Env) :
    ∀ (n : Nat) (param : Session), 0 ≤ param.rotate → param.rotate < 360 → param.inc = 1 →
      (trace env param (List.replicate n (Event.key 'r'))).length = n ∧
      ∀ i, i < n →
        ((trace env param (List.replicate n (Event.key 'r'))).get? i).map
          (fun s => s.rotate) = some ((param.rotate + (i + 1)) % 360) := by
  intro n
  induction n with
  | zero =>
    intro param _ _ _
    exact ⟨rfl, fun i hi => absurd hi (Nat.not_lt_zero i)⟩
  | succ n ih =>
    intro param h0 h1 hinc
    obtain ⟨s, out, hs, hr, hi⟩ := key_step_r env param
    have hrot : s.rotate = (param.rotate + 1) % 360 := by
      rw [hr, hinc]
      unfold rotate_r
      split_ifs <;> omega
    have e : trace env param (List.replicate (n + 1) (Event.key 'r')) =
        s :: trace env s (List.replicate n (Event.key 'r')) := by
      show trace env param (Event.key 'r' :: List.replicate n (Event.key 'r')) = _
      simp only [trace, handle, hs]
    obtain ⟨l, g⟩ := ih s (by omega) (by omega) (hi.trans hinc)
    rw [e]
    refine ⟨by simp [l], ?_⟩
    intro i hlt
    cases i with
    | zero =>
      simp only [List.get?_cons_zero, Option.map_some']
      rw [hrot]
      rfl
    | succ j =>
      simp only [List.get?_cons_succ]
      rw [g j (by omega), hrot]
      congr 1
      push_cast
      omega

/-- C17: with the increment step 1 and a rotation r0 in [0, 360), pressing `r`
360 times in a row is 360 passes through the loop, after each of which the
rotation lies in [0, 360), and after the last of which it is r0 again. -/
theorem rotation_wraps (env : Env) (param : Session) (h0 : 0 ≤ param.rotate)
    (h1 : param.rotate < 360) (hinc : param.inc = 1) :
    (trace env param (List.replicate 360 (Event.key 'r'))).length = 360 ∧
    (∀ i, i < 360 → ∃ s, (trace env param (List.replicate 360 (Event.key 'r'))).get? i = some s ∧
      0 ≤ s.rotate ∧ s.rotate < 360) ∧
    ((trace env param (List.replicate 360 (Event.key 'r'))).get? 359).map
      (fun s => s.rotate) = some param.rotate := by
  obtain ⟨l, g⟩ := trace_key_r env 360 param h0 h1 hinc
  refine ⟨l, ?_, ?_⟩
  · intro i hi
    have gi := g i hi
    cases hget : (trace env param (List.replicate 360 (Event.key 'r'))).get? i with
    | none => rw [hget] at gi; simp at gi
    | some s =>
      rw [hget] at gi
      simp only [Option.map_some', Option.some.injEq] at gi
      exact ⟨s, rfl, by rw [gi]; omega, by rw [gi]; omega⟩
  · rw [g 359 (by decide)]
    congr 1
    push_cast
    omega

/-- C17 (witness): the sample session, at rotation 0 and step 1. -/
theorem rotation_wraps_witness :
    (0 ≤ sample_session.rotate ∧ sample_session.rotate < 360 ∧ sample_session.inc = 1) ∧
    ((trace sample_env sample_session (List.replicate 360 (Event.key 'r'))).length = 360 ∧
    (∀ i, i < 360 →
      ∃ s, (trace sample_env sample_session (List.replicate 360 (Event.key 'r'))).get? i =
          some s ∧ 0 ≤ s.rotate ∧ s.rotate < 360) ∧
    ((trace sample_env sample_session (List.replicate 360 (Event.key 'r'))).get? 359).map
      (fun s => s.rotate) = some sample_session.rotate) :=
  ⟨by decide, rotation_wraps sample_env sample_session (by decide) (by decide) rfl⟩

/-! ### Expand and shrink -/

theorem key_step_e (env : Env) (param : Session) (hws : param.watershed = false) :
    ∃ out, key_step env 'e' param =
      .running { param with rect := ⟨max 0 (param.rect.x - param.inc),
                                     max 0 (param.rect.y - param.inc),
                                     param.rect.width + 2 * param.inc,
                                     param.rect.height + 2 * param.inc⟩ } out := by
  rw [key_step_edit env 'e' param (by decide) (by decide) (by decide) (by decide) (by decide)
    (by decide) (by decide) (by decide), if_neg (by simp [hws])]
  have e : rectangle_edit 'e' param =
      .running { param with rect := ⟨max 0 (param.rect.x - param.inc),
                                     max 0 (param.rect.y - param.inc),
                                     param.rect.width + 2 * param.inc,
                                     param.rect.height + 2 * param.inc⟩ } [] := by
    simp [rectangle_edit]
  obtain ⟨out, h⟩ := rectangle_keys_of_edit e
  exact ⟨out, h⟩

theorem key_step_E (env : Env) (param : Session) (img : IplImage)
    (hws : param.watershed = false) (himg : param.img_src = some img) :
    ∃ out, key_step env 'E' param =
      .running { param with rect := ⟨min img.width (param.rect.x + param.inc),
                                     min img.height (param.rect.y + param.inc),
                                     max 0 (param.rect.width - 2 * param.inc),
                                     max 0 (param.rect.height - 2 * param.inc)⟩ } out := by
  rw [key_step_edit env 'E' param (by decide) (by decide) (by decide) (by decide) (by decide)
    (by decide) (by decide) (by decide), if_neg (by simp [hws])]
  have e : rectangle_edit 'E' param =
      .running { param with rect := ⟨min img.width (param.rect.x + param.inc),
                                     min img.height (param.rect.y + param.inc),
                                     max 0 (param.rect.width - 2 * param.inc),
                                     max 0 (param.rect.height - 2 * param.inc)⟩ } [] := by
    simp [rectangle_edit, himg]
  obtain ⟨out, h⟩ := rectangle_keys_of_edit e
  exact ⟨out, h⟩

/-- C12: in rectangle mode, for a region with width >= 0 and height >= 0 and a
source frame of size W x H where no clamp applies (x >= inc, y >= inc, x <= W,
y <= H), the key `e` followed by the key `E` with the same increment step gives
back the x, y, width and height of the region, and the session after the two
keys differs from the one before in nothing: rotation, shear and every other
field are the same. -/
theorem expand_shrink_round_trip (env : Env) (param : Session) (img : IplImage)
    (hws : param.watershed = false) (himg : param.img_src = some img)
    (hw : 0 ≤ param.rect.width) (hh : 0 ≤ param.rect.height)
    (hx : param.inc ≤ param.rect.x) (hy : param.inc ≤ param.rect.y)
    (hxW : param.rect.x ≤ img.width) (hyH : param.rect.y ≤ img.height) :
    ∃ s1 out1 s2 out2, key_step env 'e' param = .running s1 out1 ∧
      key_step env 'E' s1 = .running s2 out2 ∧
      s2.rect = param.rect ∧ s2.rotate = param.rotate ∧ s2.shear = param.shear ∧
      s2 = param := by
  obtain ⟨out1, h1⟩ := key_step_e env param hws
  obtain ⟨out2, h2⟩ := key_step_E env
    { param with rect := ⟨max 0 (param.rect.x - param.inc), max 0 (param.rect.y - param.inc),
                          param.rect.width + 2 * param.inc,
                          param.rect.height + 2 * param.inc⟩ } img hws himg
  have er : (⟨min img.width (max 0 (param.rect.x - param.inc) + param.inc),
      min img.height (max 0 (param.rect.y - param.inc) + param.inc),
      max 0 (param.rect.width + 2 * param.inc - 2 * param.inc),
      max 0 (param.rect.height + 2 * param.inc - 2 * param.inc)⟩ : CvRect) = param.rect := by
    have a : min img.width (max 0 (param.rect.x - param.inc) + param.inc) = param.rect.x := by
      omega
    have b : min img.height (max 0 (param.rect.y - param.inc) + param.inc) = param.rect.y := by
      omega
    have c : max 0 (param.rect.width + 2 * param.inc - 2 * param.inc) = param.rect.width := by
      omega
    have d : max 0 (param.rect.height + 2 * param.inc - 2 * param.inc) =
        param.rect.height := by
      omega
    rw [a, b, c, d]
  refine ⟨_, out1, _, out2, h1, h2, ?_, rfl, rfl, ?_⟩
  · exact er
  · show ({ param with rect := _ } : Session) = param
    dsimp only at er ⊢
    rw [er]

/-- C13: in rectangle mode, for a source frame of size W x H, an increment step
inc >= 1 and a region inside the frame (0 <= x, 0 <= y, width >= 0,
height >= 0, x + width <= W, y + height <= H), the region after the key `E` is
inside the frame as well, also when the width or the height is clamped to 0. -/
theorem shrink_stays_inside (env : Env) (param : Session) (img : IplImage)
    (hws : param.watershed = false) (himg : param.img_src = some img)
    (hinc : 1 ≤ param.inc)
    (hx : 0 ≤ param.rect.x) (hy : 0 ≤ param.rect.y)
    (hw : 0 ≤ param.rect.width) (hh : 0 ≤ param.rect.height)
    (hxW : param.rect.x + param.rect.width ≤ img.width)
    (hyH : param.rect.y + param.rect.height ≤ img.height) :
    ∃ s out, key_step env 'E' param = .running s out ∧
      0 ≤ s.rect.x ∧ 0 ≤ s.rect.y ∧ 0 ≤ s.rect.width ∧ 0 ≤ s.rect.height ∧
      s.rect.x + s.rect.width ≤ img.width ∧ s.rect.y + s.rect.height ≤ img.height ∧
      (param.rect.width < 2 * param.inc → s.rect.width = 0) ∧
      (param.rect.height < 2 * param.inc → s.rect.height = 0) := by
  obtain ⟨out, h⟩ := key_step_E env param img hws himg
  refine ⟨_, out, h, ?_, ?_, ?_, ?_, ?_, ?_, ?_, ?_⟩ <;> dsimp only <;> omega

/-! ### Button-down classification and button-up -/

/-- C14: in rectangle mode, from the idle state and with a frame loaded, a
right-button-down at the pointer position (x, y) sets the Move flag exactly when
the point is strictly inside the rectangle, resize-left exactly when
x <= rect.x, resize-right exactly when x > rect.x and x >= rect.x + width,
resize-top exactly when y <= rect.y and resize-bottom exactly when y > rect.y
and y >= rect.y + height; so Move is never set together with a resize flag,
left and right are never both set, top and bottom are never both set, and at
least one of the five flags is set. -/
theorem right_down_classification (env : Env) (param : Session) (hl : loaded param)
    (hi : idle param) (hws : param.watershed = false) (px py : Int) (flags : Nat) :
    let s := (mouse_callback env CV_EVENT_RBUTTONDOWN px py flags param).1
    let x := outside_to_negative px
    let y := outside_to_negative py
    let r := param.rect
    (s.move_rect = true ↔
      (r.x < x ∧ x < r.x + r.width) ∧ (r.y < y ∧ y < r.y + r.height)) ∧
    (s.resize_rect_left = true ↔ x ≤ r.x) ∧
    (s.resize_rect_right = true ↔ r.x < x ∧ r.x + r.width ≤ x) ∧
    (s.resize_rect_top = true ↔ y ≤ r.y) ∧
    (s.resize_rect_bottom = true ↔ r.y < y ∧ r.y + r.height ≤ y) ∧
    (s.move_rect = true → s.resize_rect_left = false ∧ s.resize_rect_right = false ∧
      s.resize_rect_top = false ∧ s.resize_rect_bottom = false) ∧
    ¬ (s.resize_rect_left = true ∧ s.resize_rect_right = true) ∧
    ¬ (s.resize_rect_top = true ∧ s.resize_rect_bottom = true) ∧
    (s.move_rect = true ∨ s.resize_rect_left = true ∨ s.resize_rect_right = true ∨
      s.resize_rect_top = true ∨ s.resize_rect_bottom = true) ∧
    s.move_watershed = false ∧ s.resize_watershed = false ∧ s.rect = param.rect := by
  intro s x y r
  have e : s = right_down_rectangle x y { param with point0 := ⟨x, y⟩ } := by
    show (mouse_callback env CV_EVENT_RBUTTONDOWN px py flags param).1 = _
    rw [mouse_callback_right_down env param hl px py flags]
    exact right_down_idle env x y param hws hi
  obtain ⟨h1, h2, h3, h4, h5, h6, h7⟩ := hi
  have m : (s.move_rect = true ↔
      (r.x < x ∧ x < r.x + r.width) ∧ (r.y < y ∧ y < r.y + r.height)) := by
    rw [e]; simp [right_down_rectangle, h1, r]
  have a : (s.resize_rect_left = true ↔ x ≤ r.x) := by
    rw [e]; simp [right_down_rectangle, h2, r]
  have b : (s.resize_rect_right = true ↔ r.x < x ∧ r.x + r.width ≤ x) := by
    rw [e]; simp [right_down_rectangle, h3, r]
  have c : (s.resize_rect_top = true ↔ y ≤ r.y) := by
    rw [e]; simp [right_down_rectangle, h4, r]
  have d : (s.resize_rect_bottom = true ↔ r.y < y ∧ r.y + r.height ≤ y) := by
    rw [e]; simp [right_down_rectangle, h5, r]
  have nf : ∀ (v : Bool) (P : Prop), (v = true ↔ P) → ¬ P → v = false := by
    intro v P hv hP
    cases v
    · rfl
    · exact absurd (hv.mp rfl) hP
  refine ⟨m, a, b, c, d, ?_, ?_, ?_, ?_, ?_, ?_, ?_⟩
  · intro hm
    obtain ⟨⟨i1, i2⟩, i3, i4⟩ := m.mp hm
    exact ⟨nf _ _ a (by omega), nf _ _ b (by omega), nf _ _ c (by omega),
      nf _ _ d (by omega)⟩
  · rintro ⟨p, q⟩
    have := a.mp p
    have := (b.mp q).1
    omega
  · rintro ⟨p, q⟩
    have := c.mp p
    have := (d.mp q).1
    omega
  · by_cases ca : x ≤ r.x
    · exact Or.inr (Or.inl (a.mpr ca))
    by_cases cb : r.x + r.width ≤ x
    · exact Or.inr (Or.inr (Or.inl (b.mpr ⟨by omega, cb⟩)))
    by_cases cc : y ≤ r.y
    · exact Or.inr (Or.inr (Or.inr (Or.inl (c.mpr cc))))
    by_cases cd : r.y + r.height ≤ y
    · exact Or.inr (Or.inr (Or.inr (Or.inr (d.mpr ⟨by omega, cd⟩))))
    exact Or.inl (m.mpr ⟨⟨by omega, by omega⟩, by omega, by omega⟩)
  · rw [e]; exact h6
  · rw [e]; exact h7
  · rw [e]; rfl

/-- C14 (witness): on the sample session, whose region is (10, 10, 10, 20), a
right-button-down at (5, 15). -/
theorem right_down_classification_witness :
    (loaded sample_session ∧ idle sample_session ∧ sample_session.watershed = false) ∧
    (let s := (mouse_callback sample_env CV_EVENT_RBUTTONDOWN 5 15 2 sample_session).1
     let x := outside_to_negative 5
     let y := outside_to_negative 15
     let r := sample_session.rect
     (s.move_rect = true ↔
       (r.x < x ∧ x < r.x + r.width) ∧ (r.y < y ∧ y < r.y + r.height)) ∧
     (s.resize_rect_left = true ↔ x ≤ r.x) ∧
     (s.resize_rect_right = true ↔ r.x < x ∧ r.x + r.width ≤ x) ∧
     (s.resize_rect_top = true ↔ y ≤ r.y) ∧
     (s.resize_rect_bottom = true ↔ r.y < y ∧ r.y + r.height ≤ y) ∧
     (s.move_rect = true → s.resize_rect_left = false ∧ s.resize_rect_right = false ∧
       s.resize_rect_top = false ∧ s.resize_rect_bottom = false) ∧
     ¬ (s.resize_rect_left = true ∧ s.resize_rect_right = true) ∧
     ¬ (s.resize_rect_top = true ∧ s.resize_rect_bottom = true) ∧
     (s.move_rect = true ∨ s.resize_rect_left = true ∨ s.resize_rect_right = true ∨
       s.resize_rect_top = true ∨ s.resize_rect_bottom = true) ∧
     s.move_watershed = false ∧ s.resize_watershed = false ∧ s.rect = sample_session.rect) :=
  ⟨by decide,
   right_down_classification sample_env sample_session (by decide) (by decide) rfl 5 15 2⟩

theorem mouse_callback_button_up (env : Env) (param : Session) (hl : loaded param)
    (event x y : Int) (flags : Nat)
    (he : event = CV_EVENT_LBUTTONUP ∨ event = CV_EVENT_MBUTTONUP ∨
      event = CV_EVENT_RBUTTONUP) :
    mouse_callback env event x y flags param = button_up param := by
  obtain ⟨img, disp, hsrc, hdisp⟩ := (loaded_iff param).mp hl
  rcases he with rfl | rfl | rfl <;>
    simp [mouse_callback, hsrc, hdisp, CV_EVENT_LBUTTONDOWN, CV_EVENT_MBUTTONDOWN,
      CV_EVENT_MOUSEMOVE, CV_EVENT_RBUTTONDOWN, CV_EVENT_LBUTTONUP, CV_EVENT_MBUTTONUP,
      CV_EVENT_RBUTTONUP]

/-- C20: with a frame loaded, for every combination of drag flags, pointer
position and event flags, a left, middle or right button-up makes no call, sets
the seven drag flags to false and changes nothing else. -/
theorem button_up_idle (env : Env) (param : Session) (hl : loaded param)
    (event x y : Int) (flags : Nat)
    (he : event = CV_EVENT_LBUTTONUP ∨ event = CV_EVENT_MBUTTONUP ∨
      event = CV_EVENT_RBUTTONUP) :
    let s := (mouse_callback env event x y flags param).1
    idle s ∧ (mouse_callback env event x y flags param).2 = [] ∧
    s = { param with move_rect := false, resize_rect_left := false,
                     resize_rect_right := false, resize_rect_top := false,
                     resize_rect_bottom := false, move_watershed := false,
                     resize_watershed := false } ∧
    s.rect = param.rect ∧ s.rotate = param.rotate ∧ s.shear = param.shear ∧
    s.circle = param.circle ∧ s.watershed = param.watershed ∧
    s.scale_factor = param.scale_factor := by
  intro s
  have e : s = (button_up param).1 := by
    show (mouse_callback env event x y flags param).1 = _
    rw [mouse_callback_button_up env param hl event x y flags he]
  refine ⟨?_, ?_, ?_, ?_, ?_, ?_, ?_, ?_, ?_⟩
  · rw [e]; exact ⟨rfl, rfl, rfl, rfl, rfl, rfl, rfl⟩
  · rw [mouse_callback_button_up env param hl event x y flags he]; rfl
  · rw [e]; rfl
  all_goals (rw [e]; rfl)

/-- C20 (witness): a right-button-up in the middle of a resize drag on the sample
session. -/
theorem button_up_idle_witness :
    (loaded (mouse_callback sample_env CV_EVENT_RBUTTONDOWN 5 15 2 sample_session).1 ∧
      (CV_EVENT_RBUTTONUP = CV_EVENT_LBUTTONUP ∨ CV_EVENT_RBUTTONUP = CV_EVENT_MBUTTONUP ∨
        CV_EVENT_RBUTTONUP = CV_EVENT_RBUTTONUP)) ∧
    (let param := (mouse_callback sample_env CV_EVENT_RBUTTONDOWN 5 15 2 sample_session).1
     let s := (mouse_callback sample_env CV_EVENT_RBUTTONUP 7 15 0 param).1
     idle s ∧ (mouse_callback sample_env CV_EVENT_RBUTTONUP 7 15 0 param).2 = [] ∧
     s = { param with move_rect := false, resize_rect_left := false,
                      resize_rect_right := false, resize_rect_top := false,
                      resize_rect_bottom := false, move_watershed := false,
                      resize_watershed := false } ∧
     s.rect = param.rect ∧ s.rotate = param.rotate ∧ s.shear = param.shear ∧
     s.circle = param.circle ∧ s.watershed = param.watershed ∧
     s.scale_factor = param.scale_factor) :=
  ⟨by decide,
   button_up_idle sample_env
     (mouse_callback sample_env CV_EVENT_RBUTTONDOWN 5 15 2 sample_session).1 (by decide)
     CV_EVENT_RBUTTONUP 7 15 0 (by decide)⟩

/-! ### The left button-down -/

/-- C15 (amended): with a frame loaded, immediately after a left-button-down
without shift at the pointer position (px, py) the drag anchor is (px, py), no
call has been made and nothing else has changed: rotation, shear and the
watershed flag are what they were; after the next move with the left button held
(no shift, no middle button) the rotation is 0, the shear is (0, 0), the
watershed mode is disabled and the anchor is still (px, py). -/
theorem left_down_anchor (env : Env) (param : Session) (hl : loaded param)
    (px py : Int) (flags0 : Nat) (hshift : hasFlag flags0 CV_EVENT_FLAG_SHIFTKEY = false) :
    let p1 := (mouse_callback env CV_EVENT_LBUTTONDOWN px py flags0 param).1
    p1 = { param with point0 := ⟨outside_to_negative px, outside_to_negative py⟩ } ∧
    (mouse_callback env CV_EVENT_LBUTTONDOWN px py flags0 param).2 = [] ∧
    p1.rotate = param.rotate ∧ p1.shear = param.shear ∧ p1.watershed = param.watershed ∧
    ∀ (cx cy : Int) (flags : Nat), left_drag_flags flags →
      let p2 := (mouse_callback env CV_EVENT_MOUSEMOVE cx cy flags p1).1
      p2.rotate = 0 ∧ p2.shear = ⟨0, 0⟩ ∧ p2.watershed = false ∧
      p2.point0 = ⟨outside_to_negative px, outside_to_negative py⟩ := by
  intro p1
  have e1 := mouse_callback_left_down env param hl px py flags0 hshift
  have hp1 : p1 = { param with point0 := ⟨outside_to_negative px, outside_to_negative py⟩ } := by
    show (mouse_callback env CV_EVENT_LBUTTONDOWN px py flags0 param).1 = _
    rw [e1]; rfl
  refine ⟨hp1, by rw [e1]; rfl, by rw [hp1], by rw [hp1], by rw [hp1], ?_⟩
  intro cx cy flags hf p2
  have hl1 : loaded p1 := mouse_callback_loaded env _ px py flags0 param hl
  obtain ⟨img, disp, hsrc, hdisp⟩ := (loaded_iff p1).mp hl1
  have e2 := mouse_callback_left_move env p1 img hsrc (by simp [hdisp]) cx cy flags hf
  have hp2 : p2 = (left_move (outside_to_negative cx) (outside_to_negative cy) img p1).1 := by
    show (mouse_callback env CV_EVENT_MOUSEMOVE cx cy flags p1).1 = _
    rw [e2]
  refine ⟨by rw [hp2]; rfl, by rw [hp2]; rfl, by rw [hp2]; rfl, ?_⟩
  rw [hp2]
  show p1.point0 = _
  rw [hp1]

/-- C15 (witness): a left-button-down at (30, 40) on the sample session with a
rotation, a shear and the watershed mode set. -/
theorem left_down_anchor_witness :
    (loaded turned_session ∧ hasFlag 1 CV_EVENT_FLAG_SHIFTKEY = false) ∧
    (let p1 := (mouse_callback sample_env CV_EVENT_LBUTTONDOWN 30 40 1 turned_session).1
     p1 = { turned_session with
            point0 := ⟨outside_to_negative 30, outside_to_negative 40⟩ } ∧
     (mouse_callback sample_env CV_EVENT_LBUTTONDOWN 30 40 1 turned_session).2 = [] ∧
     p1.rotate = turned_session.rotate ∧ p1.shear = turned_session.shear ∧
     p1.watershed = turned_session.watershed ∧
     ∀ (cx cy : Int) (flags : Nat), left_drag_flags flags →
       let p2 := (mouse_callback sample_env CV_EVENT_MOUSEMOVE cx cy flags p1).1
       p2.rotate = 0 ∧ p2.shear = ⟨0, 0⟩ ∧ p2.watershed = false ∧
       p2.point0 = ⟨outside_to_negative 30, outside_to_negative 40⟩) :=
  ⟨by decide, left_down_anchor sample_env turned_session (by decide) 30 40 1 (by decide)⟩

/-- C15 (counterexample): on the sample session with rotation 90, shear (3, 4)
and the watershed mode on, a left-button-down without shift at (30, 40) sets the
anchor to (30, 40) and leaves the rotation at 90, the shear at (3, 4) and the
watershed mode on. -/
theorem left_down_anchor_counterexample :
    loaded turned_session ∧ hasFlag 1 CV_EVENT_FLAG_SHIFTKEY = false ∧
    (let s := (mouse_callback sample_env CV_EVENT_LBUTTONDOWN 30 40 1 turned_session).1
     s.point0 = ⟨30, 40⟩ ∧ s.rotate = 90 ∧ s.shear = ⟨3, 4⟩ ∧ s.watershed = true ∧
     ¬ (s.point0 = ⟨30, 40⟩ ∧ s.rotate = 0 ∧ s.shear = ⟨0, 0⟩ ∧ s.watershed = false)) := by
  decide

/-! ### Save on an empty region -/

theorem Outcome.bind_of_running_out {o : Outcome} {f : Session → Outcome} {p s : Session}
    {out1 out2 : List Effect} (h1 : o = .running p out1) (h2 : f p = .running s out2) :
    o.bind f = .running s (out1 ++ out2) := by
  rw [h1]
  simp only [Outcome.bind, h2, Outcome.after]

theorem rectangle_keys_other_calls (key : Char) (param : Session)
    (hk : key = 'f' ∨ key = 'b' ∨ key = 's' ∨ key = Char.ofNat 32 ∨ key = '+' ∨ key = '-') :
    rectangle_keys key param = .running param (redraw_calls param) := by
  have e : rectangle_edit key param = .running param [] := by
    rcases hk with rfl | rfl | rfl | rfl | rfl | rfl <;> simp [rectangle_edit]
  unfold rectangle_keys redraw_calls
  rw [e, Outcome.running_bind]
  cases param.img_src <;> rfl

theorem redraw_calls_not_export (p : Session) :
    ∀ e ∈ redraw_calls p, e.is_export = false ∧ e.writes_file = false := by
  unfold redraw_calls
  cases p.img_src <;> simp [Effect.is_export, Effect.writes_file]

theorem save_writes (env : Env) (param : Session) (img : IplImage)
    (hw : 0 < param.rect.width) (hh : 0 < param.rect.height)
    (himg : param.img_src = some img)
    (hm : env.match_extensions
      (env.icFormat param.output_format (env.dirname param.filename)
        (env.filename param.filename) (env.extension param.filename)
        (source_rect32f param.rect param.scale_factor param.rotate).x
        (source_rect32f param.rect param.scale_factor param.rotate).y
        (source_rect32f param.rect param.scale_factor param.rotate).width
        (source_rect32f param.rect param.scale_factor param.rotate).height
        param.frame param.rotate) param.imtypes = true) :
    let r := source_rect32f param.rect param.scale_factor param.rotate
    let output_path := env.icFormat param.output_format (env.dirname param.filename)
      (env.filename param.filename) (env.extension param.filename)
      r.x r.y r.width r.height param.frame param.rotate
    let crop := cvCreateImage (crop_size param.rect param.scale_factor) img
    save env param = .running param
      [Effect.icFormat param.output_format (env.dirname param.filename)
         (env.filename param.filename) (env.extension param.filename)
         r.x r.y r.width r.height param.frame param.rotate,
       Effect.create_directories (env.dirname output_path),
       Effect.cvCropImageROI img crop r (cvPointTo32f param.shear),
       Effect.cvSaveImage (env.realpath output_path) crop] := by
  intro r output_path crop
  unfold save
  rw [if_pos ⟨hw, hh⟩]
  dsimp only
  rw [if_neg (by rw [hm]; simp), himg]
  rfl

/-- C16: in rectangle mode, when the region has width <= 0 or height <= 0, the
key `s` ends with the loop going on and with the session as it was (region,
rotation, shear, scale factor, increment step, cursor and everything else), and
the only calls made are those of the redraw: no output path is formatted, no
directory is created, nothing is cropped and no file is written.  When width > 0
and height > 0, a frame is loaded and the extension of the output path is
supported, the key `s` leaves the session as it was and writes exactly one
file. -/
theorem save_empty_region_noop (env : Env) (param : Session)
    (hws : param.watershed = false) :
    ((param.rect.width ≤ 0 ∨ param.rect.height ≤ 0) →
      key_step env 's' param = .running param (redraw_calls param) ∧
      (∀ e ∈ redraw_calls param, e.is_export = false ∧ e.writes_file = false)) ∧
    (0 < param.rect.width → 0 < param.rect.height →
      ∀ img, param.img_src = some img →
      env.match_extensions
        (env.icFormat param.output_format (env.dirname param.filename)
          (env.filename param.filename) (env.extension param.filename)
          (source_rect32f param.rect param.scale_factor param.rotate).x
          (source_rect32f param.rect param.scale_factor param.rotate).y
          (source_rect32f param.rect param.scale_factor param.rotate).width
          (source_rect32f param.rect param.scale_factor param.rotate).height
          param.frame param.rotate) param.imtypes = true →
      ∃ out, key_step env 's' param = .running param out ∧
        (out.filter Effect.writes_file).length = 1) := by
  have hedit : (if param.watershed then watershed_keys env 's' param
      else rectangle_keys 's' param) = .running param (redraw_calls param) := by
    rw [if_neg (by simp [hws])]
    exact rectangle_keys_other_calls 's' param (by simp)
  refine ⟨?_, ?_⟩
  · intro he
    have hsave : save env param = .running param [] := by
      unfold save
      rw [if_neg (by omega)]
    refine ⟨?_, redraw_calls_not_export param⟩
    rw [key_step_s]
    exact Outcome.bind_of_running hsave hedit
  · intro hw hh img himg hm
    have hsave := save_writes env param img hw hh himg hm
    dsimp only at hsave
    refine ⟨_, by rw [key_step_s]; exact Outcome.bind_of_running_out hsave hedit, ?_⟩
    have hr : (redraw_calls param).filter Effect.writes_file = [] := by
      rw [List.filter_eq_nil_iff]
      intro e he
      rw [(redraw_calls_not_export param e he).2]
      simp
    rw [List.filter_append, hr]
    simp [Effect.writes_file]

/-- C16 (witness): on the initial session, with the region (0, 0, 0, 0), the key
`s` only redraws; on the sample session, with the region (10, 10, 10, 20), it
writes one file. -/
theorem save_empty_region_noop_witness :
    (initial_session.watershed = false ∧ sample_session.watershed = false ∧
      (initial_session.rect.width ≤ 0 ∨ initial_session.rect.height ≤ 0) ∧
      0 < sample_session.rect.width ∧ 0 < sample_session.rect.height) ∧
    (key_step sample_env 's' initial_session =
        .running initial_session (redraw_calls initial_session) ∧
      (∀ e ∈ redraw_calls initial_session, e.is_export = false ∧ e.writes_file = false)) ∧
    (∃ out, key_step sample_env 's' sample_session = .running sample_session out ∧
      (out.filter Effect.writes_file).length = 1) :=
  ⟨by decide,
   (save_empty_region_noop sample_env initial_session rfl).1 (by decide),
   (save_empty_region_noop sample_env sample_session rfl).2 (by decide) (by decide)
     ⟨640, 480, 2⟩ rfl (by decide)⟩

/-! ### The scale at the start of the loop -/

theorem key_callback_setup_1920x1080 (data : Nat) (s : Session) (reference name : String)
    (himg : s.img_src = some ⟨1920, 1080, data⟩) (hscreen : s.screen_size = ⟨1366, 768⟩)
    (hname : key_callback_filename reference s = some name) :
    ∃ out, key_callback_setup reference s =
      .running { s with filename := name, scale_factor := 1 / 2,
                        img_display := some ⟨960, 540, data⟩ } out := by
  have h960 : float_to_int (float_mul (int_to_float 1920) (1 / 2)) = 960 :=
    int_mul_half 960 (by decide)
  have h540 : float_to_int (float_mul (int_to_float 1080) (1 / 2)) = 540 :=
    int_mul_half 540 (by decide)
  unfold key_callback_setup
  rw [hname]
  dsimp only
  rw [himg]
  dsimp only
  rw [hscreen]
  dsimp only
  rw [if_pos (by decide)]
  unfold cvCreateImage
  dsimp only
  rw [h960, h540]
  exact ⟨_, rfl⟩

/-- C18: for a 1920 x 1080 source frame and the screen resolution 1366 x 768, the
halving loop of `load_reference`, started at scale 1.0, gives the scale factor
0.5 and a 960 x 540 display image, and the setup at the top of `key_callback`
gives the scale factor 0.5 and a 960 x 540 display image again; the setup
gives them by its own computation: from every session with that frame and
that screen resolution, whatever scale factor and display image the session
came with, it goes on with the scale factor 0.5 and a 960 x 540 display image
made from the frame, and changes nothing else but the file name. -/
theorem scale_selection_1920x1080 (data : Nat) (param : Session) (reference name : String)
    (hs : param.scale_factor = 1)
    (hname : key_callback_filename reference param = some name) :
    (∃ s s' out, load_reference ⟨1366, 768⟩ ⟨1920, 1080, data⟩ param = some s ∧
      s.scale_factor = 1 / 2 ∧ s.img_display = some ⟨960, 540, data⟩ ∧
      s.img_src = some ⟨1920, 1080, data⟩ ∧ s.screen_size = ⟨1366, 768⟩ ∧
      key_callback_setup reference s = .running s' out ∧
      s'.scale_factor = 1 / 2 ∧ s'.img_display = some ⟨960, 540, data⟩ ∧
      s'.img_src = some ⟨1920, 1080, data⟩) ∧
    (∀ (s0 : Session) (name0 : String), s0.img_src = some ⟨1920, 1080, data⟩ →
      s0.screen_size = ⟨1366, 768⟩ → key_callback_filename reference s0 = some name0 →
      ∃ out, key_callback_setup reference s0 =
        .running { s0 with filename := name0, scale_factor := 1 / 2,
                           img_display := some ⟨960, 540, data⟩ } out) := by
  refine ⟨?_, fun s0 name0 h1 h2 h3 =>
    key_callback_setup_1920x1080 data s0 reference name0 h1 h2 h3⟩
  have hf : fit_while ⟨1366, 768⟩ ⟨1920, 1080⟩ 1 = some (⟨960, 540⟩, 1 / 2) := rfl
  have hl : load_reference ⟨1366, 768⟩ ⟨1920, 1080, data⟩ param =
      some { param with img_src := some ⟨1920, 1080, data⟩, screen_size := ⟨1366, 768⟩,
                        scale_factor := 1 / 2,
                        img_display := some ⟨960, 540, data⟩ } := by
    unfold load_reference
    rw [hs]
    show (match fit_while ⟨1366, 768⟩ ⟨1920, 1080⟩ 1 with
      | none => none
      | some (size, scale_factor) => _) = _
    rw [hf]
    rfl
  obtain ⟨out, hk⟩ := key_callback_setup_1920x1080 data
    { param with img_src := some ⟨1920, 1080, data⟩, screen_size := ⟨1366, 768⟩,
                 scale_factor := 1 / 2, img_display := some ⟨960, 540, data⟩ }
    reference name rfl rfl hname
  exact ⟨_, _, out, hl, rfl, rfl, rfl, rfl, hk, rfl, rfl, rfl⟩

/-- C18 (witness): the session of `main` on a directory whose first file is a
1920 x 1080 image; and the setup on a session that comes with the scale factor
1/8 and a 240 x 135 display image, which it replaces by 1/2 and 960 x 540. -/
theorem scale_selection_1920x1080_witness :
    (({ init_param with filelist := ["a.png"] } : Session).scale_factor = 1 ∧
      key_callback_filename "." { init_param with filelist := ["a.png"] } = some "a.png" ∧
      drifted_session.img_src = some ⟨1920, 1080, 1⟩ ∧
      drifted_session.screen_size = ⟨1366, 768⟩ ∧
      key_callback_filename "." drifted_session = some "a.png" ∧
      drifted_session.scale_factor = 1 / 2 / 2 / 2 ∧
      drifted_session.img_display = some ⟨240, 135, 1⟩) ∧
    (∃ s s' out,
      load_reference ⟨1366, 768⟩ ⟨1920, 1080, 1⟩ { init_param with filelist := ["a.png"] } =
        some s ∧
      s.scale_factor = 1 / 2 ∧ s.img_display = some ⟨960, 540, 1⟩ ∧
      s.img_src = some ⟨1920, 1080, 1⟩ ∧ s.screen_size = ⟨1366, 768⟩ ∧
      key_callback_setup "." s = .running s' out ∧
      s'.scale_factor = 1 / 2 ∧ s'.img_display = some ⟨960, 540, 1⟩ ∧
      s'.img_src = some ⟨1920, 1080, 1⟩) ∧
    (∃ out, key_callback_setup "." drifted_session =
      .running { drifted_session with filename := "a.png", scale_factor := 1 / 2,
                                      img_display := some ⟨960, 540, 1⟩ } out) :=
  ⟨⟨rfl, rfl, rfl, rfl, rfl, rfl, rfl⟩,
   (scale_selection_1920x1080 1 { init_param with filelist := ["a.png"] } "." "a.png"
     rfl rfl).1,
   (scale_selection_1920x1080 1 { init_param with filelist := ["a.png"] } "." "a.png"
     rfl rfl).2 drifted_session "a.png" rfl rfl rfl⟩

/-! ### The increment step -/

theorem watershed_edit_inc (key : Char) (param : Session) :
    (watershed_edit key param).inc = param.inc := by
  unfold watershed_edit
  dsimp only
  by_cases k0 : key = 'h'
  · rw [if_pos k0]
  rw [if_neg k0]
  by_cases k1 : key = 'j'
  · rw [if_pos k1]
  rw [if_neg k1]
  by_cases k2 : key = 'k'
  · rw [if_pos k2]
  rw [if_neg k2]
  by_cases k3 : key = 'l'
  · rw [if_pos k3]
  rw [if_neg k3]
  by_cases k4 : key = 'y'
  · rw [if_pos k4]
  rw [if_neg k4]
  by_cases k5 : key = 'u'
  · rw [if_pos k5]
  rw [if_neg k5]
  by_cases k6 : key = 'i'
  · rw [if_pos k6]
  rw [if_neg k6]
  by_cases k7 : key = 'o'
  · rw [if_pos k7]
  rw [if_neg k7]
  by_cases k8 : key = 'n'
  · rw [if_pos k8]
  rw [if_neg k8]
  by_cases k9 : key = 'm'
  · rw [if_pos k9]
  rw [if_neg k9]
  by_cases k10 : key = ','
  · rw [if_pos k10]
  rw [if_neg k10]
  by_cases k11 : key = '.'
  · rw [if_pos k11]
  rw [if_neg k11]
  by_cases k12 : key = 'r'
  · rw [if_pos k12]
  rw [if_neg k12]
  by_cases k13 : key = 'R'
  · rw [if_pos k13]
  rw [if_neg k13]
  by_cases k14 : key = 'e'
  · rw [if_pos k14]
  rw [if_neg k14]
  by_cases k15 : key = 'E'
  · rw [if_pos k15]
  rw [if_neg k15]

theorem watershed_keys_inc {env : Env} {key : Char} {param p : Session} {out : List Effect}
    (h : watershed_keys env key param = .running p out) : p.inc = param.inc := by
  unfold watershed_keys at h
  dsimp only at h
  split at h
  · cases h
    exact watershed_edit_inc key param
  · cases h
    exact watershed_edit_inc key param

theorem rectangle_edit_inc {key : Char} {param p : Session} {out : List Effect}
    (h : rectangle_edit key param = .running p out) : p.inc = param.inc := by
  unfold rectangle_edit at h
  dsimp only at h
  by_cases k0 : key = 'h'
  · rw [if_pos k0] at h; cases h; rfl
  rw [if_neg k0] at h
  by_cases k1 : key = 'j'
  · rw [if_pos k1] at h; cases h; rfl
  rw [if_neg k1] at h
  by_cases k2 : key = 'k'
  · rw [if_pos k2] at h; cases h; rfl
  rw [if_neg k2] at h
  by_cases k3 : key = 'l'
  · rw [if_pos k3] at h; cases h; rfl
  rw [if_neg k3] at h
  by_cases k4 : key = 'y'
  · rw [if_pos k4] at h; cases h; rfl
  rw [if_neg k4] at h
  by_cases k5 : key = 'u'
  · rw [if_pos k5] at h; cases h; rfl
  rw [if_neg k5] at h
  by_cases k6 : key = 'i'
  · rw [if_pos k6] at h; cases h; rfl
  rw [if_neg k6] at h
  by_cases k7 : key = 'o'
  · rw [if_pos k7] at h; cases h; rfl
  rw [if_neg k7] at h
  by_cases k8 : key = 'n'
  · rw [if_pos k8] at h; cases h; rfl
  rw [if_neg k8] at h
  by_cases k9 : key = 'm'
  · rw [if_pos k9] at h; cases h; rfl
  rw [if_neg k9] at h
  by_cases k10 : key = ','
  · rw [if_pos k10] at h; cases h; rfl
  rw [if_neg k10] at h
  by_cases k11 : key = '.'
  · rw [if_pos k11] at h; cases h; rfl
  rw [if_neg k11] at h
  by_cases k12 : key = 'r'
  · rw [if_pos k12] at h; cases h; rfl
  rw [if_neg k12] at h
  by_cases k13 : key = 'R'
  · rw [if_pos k13] at h; cases h; rfl
  rw [if_neg k13] at h
  by_cases k14 : key = 'e'
  · rw [if_pos k14] at h; cases h; rfl
  rw [if_neg k14] at h
  by_cases k15 : key = 'E'
  · rw [if_pos k15] at h
    split at h
    · cases h
    · cases h; rfl
  rw [if_neg k15] at h
  cases h
  rfl

theorem rectangle_keys_inc {key : Char} {param p : Session} {out : List Effect}
    (h : rectangle_keys key param = .running p out) : p.inc = param.inc := by
  unfold rectangle_keys at h
  obtain ⟨p1, out1, out2, h1, h2, -⟩ := Outcome.bind_running h
  have hp : p = p1 := by
    split at h2
    · exact (Outcome.running.inj h2).1.symm
    · exact (Outcome.running.inj h2).1.symm
  subst hp
  exact rectangle_edit_inc h1

theorem navigation_keys_inc {env : Env} {key : Char} {param p : Session}
    {out : List Effect} (h : navigation_keys env key param = .running p out) :
    p.inc = inc_after key param.inc := by
  unfold navigation_keys at h
  unfold inc_after
  split_ifs at h with c1 c2 c3 c4 c5
  · rw [(forward_running h).2]
    rcases c1 with rfl | rfl <;> simp
  · rw [(backward_running h).2]
    subst c2
    simp
  · cases h
    rw [if_pos c4]
  · cases h
    rw [if_neg c4, if_pos c5]
  · cases h
    rw [if_neg c4, if_neg c5]

theorem key_step_inc {env : Env} {key : Char} {param p : Session} {out : List Effect}
    (h : key_step env key param = .running p out) : p.inc = inc_after key param.inc := by
  unfold key_step at h
  obtain ⟨p1, _, _, h1, g1, -⟩ := Outcome.bind_running h
  obtain ⟨p2, _, _, h2, g2, -⟩ := Outcome.bind_running g1
  obtain ⟨p3, _, _, h3, g3, -⟩ := Outcome.bind_running g2
  have a1 := (zoom_keys_running h1).2
  have e2 : p2 = p1 := by
    split_ifs at h2
    · exact save_running h2
    · exact (Outcome.running.inj h2).1.symm
  subst e2
  have a3 := navigation_keys_inc h3
  have a4 : p.inc = p3.inc := by
    split_ifs at g3
    · exact watershed_keys_inc g3
    · exact rectangle_keys_inc g3
  rw [a4, a3, a1]

theorem right_down_watershed_inc (env : Env) (p : Session) :
    (right_down_watershed env p).inc = p.inc := by
  unfold right_down_watershed
  dsimp only
  split_ifs <;> rfl

theorem mouse_callback_inc (env : Env) (event x y : Int) (flags : Nat) (param : Session) :
    (mouse_callback env event x y flags param).1.inc = param.inc := by
  unfold mouse_callback
  split
  · dsimp only
    split_ifs
    · rfl
    · rfl
    · rfl
    · rfl
    · unfold right_down
      dsimp only
      split_ifs
      · exact right_down_watershed_inc env _
      · exact right_down_watershed_inc env _
    · unfold right_move_watershed
      dsimp only
      split_ifs <;> rfl
    · exact (right_move_frame _ _ _ _).2.2.2.2.1
    · rfl
    · rfl
  · rfl

theorem inc_after_ge (key : Char) (inc : Int) (h : 1 ≤ inc) : 1 ≤ inc_after key inc := by
  unfold inc_after
  split_ifs <;> omega

theorem trace_inc (env : Env) (es : List Event) (param : Session) (h : 1 ≤ param.inc) :
    ∀ s ∈ trace env param es, 1 ≤ s.inc := by
  induction es generalizing param with
  | nil => intro s hs; simp [trace] at hs
  | cons e es ih =>
    intro s hs
    unfold trace at hs
    split at hs
    · rename_i p out hh
      have hp : 1 ≤ p.inc := by
        cases e with
        | mouse event x y flags =>
          have e1 : p = (mouse_callback env event x y flags param).1 :=
            (Outcome.running.inj hh).1.symm
          rw [e1, mouse_callback_inc]
          exact h
        | key key =>
          rw [key_step_inc hh]
          exact inc_after_ge key _ h
      rcases List.mem_cons.mp hs with rfl | hmem
      · exact hp
      · exact ih p hp s hmem
    · simp at hs

theorem zoom_keys_loaded (env : Env) (key : Char) (param : Session) (img : IplImage)
    (himg : param.img_src = some img) :
    ∃ p out, zoom_keys env key param = .running p out := by
  have r : ∀ (scale : ℚ) (q : Session), q.img_src = some img →
      ∃ p out, rescale_display scale q = .running p out ∧ p.img_src = some img := by
    intro scale q hq
    unfold rescale_display
    rw [hq]
    exact ⟨_, _, rfl, rfl⟩
  unfold zoom_keys
  by_cases c1 : key = '+'
  · rw [if_pos c1]
    obtain ⟨p, out, hp, hi⟩ := r (env.mul_1_05 param.scale_factor) param himg
    by_cases c2 : key = '-'
    · obtain ⟨p', out', hp', -⟩ := r (env.mul_0_95 p.scale_factor) p hi
      exact ⟨p', _, Outcome.bind_of_running_out hp (by rw [if_pos c2]; exact hp')⟩
    · exact ⟨p, _, Outcome.bind_of_running_out hp (by rw [if_neg c2])⟩
  · rw [if_neg c1, Outcome.running_bind]
    by_cases c2 : key = '-'
    · rw [if_pos c2]
      obtain ⟨p', out', hp', -⟩ := r (env.mul_0_95 param.scale_factor) param himg
      exact ⟨p', out', hp'⟩
    · rw [if_neg c2]
      exact ⟨_, _, rfl⟩

theorem key_step_plus_minus_runs (env : Env) (key : Char) (param : Session) (img : IplImage)
    (hk : key = '+' ∨ key = '-') (himg : param.img_src = some img) :
    ∃ s out, key_step env key param = .running s out := by
  obtain ⟨p1, out1, h1⟩ := zoom_keys_loaded env key param img himg
  have h2 : (if key = 's' ∨ key = Char.ofNat 32 then save env p1 else Outcome.running p1 []) =
      .running p1 [] := by
    rcases hk with rfl | rfl <;> simp
  obtain ⟨p3, h3⟩ : ∃ p3, navigation_keys env key p1 = .running p3 [] := by
    rcases hk with rfl | rfl <;> simp [navigation_keys]
  obtain ⟨s, out, h4⟩ : ∃ s out, (if p3.watershed then watershed_keys env key p3
      else rectangle_keys key p3) = .running s out := by
    split_ifs
    · obtain ⟨s, out, hs, -⟩ := watershed_keys_media env key p3
      exact ⟨s, out, hs⟩
    · exact ⟨p3, _, rectangle_keys_other_calls key p3 (by
        rcases hk with rfl | rfl <;> simp)⟩
  unfold key_step
  exact ⟨s, _, Outcome.bind_of_running_out h1
    (Outcome.bind_of_running_out h2 (Outcome.bind_of_running_out h3 h4))⟩

/-- C19: from an increment step of at least 1 (the initial step is 1), the step is
at least 1 after every event of every sequence of events; a pass through the loop
that goes on leaves the step raised by exactly 1 for the key `+`, lowered by
exactly 1 for the key `-` when it is above 1 and at 1 when it is 1, and as it was
for every other key; and with a frame loaded the keys `+` and `-` do go on. -/
theorem increment_step_bound (env : Env) (param : Session) (hinc : 1 ≤ param.inc) :
    (∀ es : List Event, ∀ s ∈ trace env param es, 1 ≤ s.inc) ∧
    (∀ key s out, key_step env key param = .running s out →
      s.inc = if key = '+' then param.inc + 1
              else if key = '-' then (if param.inc > 1 then param.inc - 1 else 1)
              else param.inc) ∧
    (∀ img, param.img_src = some img →
      (∃ s out, key_step env '+' param = .running s out ∧ s.inc = param.inc + 1) ∧
      (∃ s out, key_step env '-' param = .running s out ∧
        s.inc = if param.inc > 1 then param.inc - 1 else 1)) := by
  have hstep : ∀ key s out, key_step env key param = .running s out →
      s.inc = if key = '+' then param.inc + 1
              else if key = '-' then (if param.inc > 1 then param.inc - 1 else 1)
              else param.inc := by
    intro key s out h
    rw [key_step_inc h]
    unfold inc_after
    split_ifs <;> omega
  refine ⟨fun es => trace_inc env es param hinc, hstep, ?_⟩
  intro img himg
  obtain ⟨s1, out1, h1⟩ := key_step_plus_minus_runs env '+' param img (Or.inl rfl) himg
  obtain ⟨s2, out2, h2⟩ := key_step_plus_minus_runs env '-' param img (Or.inr rfl) himg
  refine ⟨⟨s1, out1, h1, ?_⟩, ⟨s2, out2, h2, ?_⟩⟩
  · have := hstep '+' s1 out1 h1
    simpa using this
  · have := hstep '-' s2 out2 h2
    simpa using this

/-- C19 (witness): the initial session, whose increment step is 1. -/
theorem increment_step_bound_witness :
    (1 ≤ initial_session.inc ∧ initial_session.inc = 1 ∧
      initial_session.img_src = some ⟨640, 480, 2⟩) ∧
    (∀ es : List Event, ∀ s ∈ trace sample_env initial_session es, 1 ≤ s.inc) ∧
    (∃ s out, key_step sample_env '+' initial_session = .running s out ∧
      s.inc = initial_session.inc + 1) ∧
    (∃ s out, key_step sample_env '-' initial_session = .running s out ∧
      s.inc = if initial_session.inc > 1 then initial_session.inc - 1 else 1) :=
  ⟨by decide,
   (increment_step_bound sample_env initial_session (by decide)).1,
   ((increment_step_bound sample_env initial_session (by decide)).2.2 _ rfl).1,
   ((increment_step_bound sample_env initial_session (by decide)).2.2 _ rfl).2⟩

/-! ### Witnesses for expand and shrink -/

/-- C12 (witness): the sample session, with the region (10, 10, 10, 20), the step
1 and a 640 x 480 frame. -/
theorem expand_shrink_round_trip_witness :
    (sample_session.watershed = false ∧ sample_session.img_src = some ⟨640, 480, 2⟩ ∧
      0 ≤ sample_session.rect.width ∧ 0 ≤ sample_session.rect.height ∧
      sample_session.inc ≤ sample_session.rect.x ∧
      sample_session.inc ≤ sample_session.rect.y ∧
      sample_session.rect.x ≤ 640 ∧ sample_session.rect.y ≤ 480) ∧
    ∃ s1 out1 s2 out2, key_step sample_env 'e' sample_session = .running s1 out1 ∧
      key_step sample_env 'E' s1 = .running s2 out2 ∧
      s2.rect = sample_session.rect ∧ s2.rotate = sample_session.rotate ∧
      s2.shear = sample_session.shear ∧ s2 = sample_session :=
  ⟨by decide,
   expand_shrink_round_trip sample_env sample_session ⟨640, 480, 2⟩ rfl rfl (by decide)
     (by decide) (by decide) (by decide) (by decide) (by decide)⟩

/-- C13 (witness): the sample session, with the region (10, 10, 10, 20), the step
1 and a 640 x 480 frame. -/
theorem shrink_stays_inside_witness :
    (sample_session.watershed = false ∧ sample_session.img_src = some ⟨640, 480, 2⟩ ∧
      1 ≤ sample_session.inc ∧ 0 ≤ sample_session.rect.x ∧ 0 ≤ sample_session.rect.y ∧
      0 ≤ sample_session.rect.width ∧ 0 ≤ sample_session.rect.height ∧
      sample_session.rect.x + sample_session.rect.width ≤ 640 ∧
      sample_session.rect.y + sample_session.rect.height ≤ 480) ∧
    ∃ s out, key_step sample_env 'E' sample_session = .running s out ∧
      0 ≤ s.rect.x ∧ 0 ≤ s.rect.y ∧ 0 ≤ s.rect.width ∧ 0 ≤ s.rect.height ∧
      s.rect.x + s.rect.width ≤ 640 ∧ s.rect.y + s.rect.height ≤ 480 ∧
      (sample_session.rect.width < 2 * sample_session.inc → s.rect.width = 0) ∧
      (sample_session.rect.height < 2 * sample_session.inc → s.rect.height = 0) :=
  ⟨by decide,
   shrink_stays_inside sample_env sample_session ⟨640, 480, 2⟩ rfl rfl (by decide) (by decide)
     (by decide) (by decide) (by decide) (by decide) (by decide)⟩

/-! ### SPACE: Save and then Forward -/

/-- The key SPACE runs `Save`, then Forward, then the redraw. -/
theorem key_step_space (env : Env) (param : Session) :
    key_step env (Char.ofNat 32) param =
      (save env param).bind fun p2 => (forward env p2).bind fun p3 =>
        if p3.watershed then watershed_keys env (Char.ofNat 32) p3
        else rectangle_keys (Char.ofNat 32) p3 := by
  have z : zoom_keys env (Char.ofNat 32) param = .running param [] := by
    simp [zoom_keys, Outcome.running_bind]
  unfold key_step
  rw [z, Outcome.running_bind]
  simp [navigation_keys]

theorem forward_calls (env : Env) (param : Session) : (forward env param).calls = [] := by
  unfold forward
  repeat' split
  all_goals rfl

theorem redraw_calls_filter (p : Session) :
    (redraw_calls p).filter Effect.is_export = [] := by
  rw [List.filter_eq_nil_iff]
  intro e he
  rw [(redraw_calls_not_export p e he).1]
  simp

/-- After Forward in rectangle mode, the redraw is the same for SPACE and `f`. -/
theorem forward_then_redraw (env : Env) (key : Char) (param : Session)
    (hws : param.watershed = false) (hk : key = 'f' ∨ key = Char.ofNat 32) :
    ((forward env param).bind fun p3 =>
        if p3.watershed then watershed_keys env key p3 else rectangle_keys key p3).exports = [] ∧
    ((forward env param).bind fun p3 =>
        if p3.watershed then watershed_keys env key p3 else rectangle_keys key p3).result =
      (forward env param).result := by
  have hc := forward_calls env param
  have hk2 : key = 'f' ∨ key = 'b' ∨ key = 's' ∨ key = Char.ofNat 32 ∨ key = '+' ∨ key = '-' := by
    rcases hk with h | h
    · exact Or.inl h
    · exact Or.inr (Or.inr (Or.inr (Or.inl h)))
  cases hf : forward env param with
  | running p3 out =>
    have hw3 : p3.watershed = false := by
      rw [(forward_running hf).1.2.1]; exact hws
    rw [hf] at hc
    have hout : out = [] := hc
    subst hout
    rw [Outcome.running_bind, if_neg (by simp [hw3]), rectangle_keys_other_calls key p3 hk2]
    exact ⟨redraw_calls_filter p3, rfl⟩
  | quit p3 out =>
    rw [hf] at hc
    have hout : out = [] := hc
    subst hout
    exact ⟨rfl, rfl⟩
  | exit1 out =>
    rw [hf] at hc
    have hout : out = [] := hc
    subst hout
    exact ⟨rfl, rfl⟩
  | null_deref out =>
    rw [hf] at hc
    have hout : out = [] := hc
    subst hout
    exact ⟨rfl, rfl⟩
  | hang out =>
    rw [hf] at hc
    have hout : out = [] := hc
    subst hout
    exact ⟨rfl, rfl⟩

theorem Outcome.exports_after (out : List Effect) (o : Outcome) :
    (o.after out).exports = out.filter Effect.is_export ++ o.exports := by
  cases o <;> simp [Outcome.after, Outcome.exports, Outcome.calls]

theorem Outcome.result_after (out : List Effect) (o : Outcome) :
    (o.after out).result = o.result := by
  cases o <;> rfl

theorem Outcome.running_bind_out (p : Session) (out : List Effect) (f : Session → Outcome) :
    (Outcome.running p out).bind f = (f p).after out := rfl

theorem Outcome.after_running (out0 : List Effect) (p : Session) (out : List Effect) :
    (Outcome.running p out).after out0 = .running p (out0 ++ out) := rfl

theorem save_export_calls (env : Env) (param : Session) (img : IplImage)
    (himg : param.img_src = some img) (hw : 0 < param.rect.width) (hh : 0 < param.rect.height)
    (hm : env.match_extensions (save_output_path env param) param.imtypes = true) :
    save env param = .running param (export_calls env img param) ∧
    (export_calls env img param).filter Effect.is_export = export_calls env img param := by
  have hsave := save_writes env param img hw hh himg hm
  dsimp only at hsave
  refine ⟨hsave, ?_⟩
  simp [export_calls, Effect.is_export]

/-- C21: in rectangle mode, the key SPACE makes the same export calls as the key
`s` (the same output path, the same crop rectangle, the crop taken from the
frame loaded before the step), and it ends as handling `s` and then `f` ends:
with the loop going on from the same session (cursor, loaded frame, display
image, scale factor, region, rotation, shear, increment step and all other
fields), or with the same failure.  When the region has positive width and
height, a frame `img` is loaded and the extension of the output path is
supported, the export calls of SPACE are the four calls of `export_calls` on the
session and the frame before the step. -/
theorem space_is_save_then_forward (env : Env) (param : Session)
    (hws : param.watershed = false) :
    (key_step env (Char.ofNat 32) param).exports = (key_step env 's' param).exports ∧
    (key_step env (Char.ofNat 32) param).result = (save_then_forward env param).result ∧
    (∀ img, param.img_src = some img → 0 < param.rect.width → 0 < param.rect.height →
      env.match_extensions (save_output_path env param) param.imtypes = true →
      (key_step env (Char.ofNat 32) param).exports = export_calls env img param) := by
  have hsp := forward_then_redraw env (Char.ofNat 32) param hws (Or.inr rfl)
  have hf := forward_then_redraw env 'f' param hws (Or.inl rfl)
  have hred : (if param.watershed then watershed_keys env 's' param
      else rectangle_keys 's' param) = .running param (redraw_calls param) := by
    rw [if_neg (by simp [hws])]
    exact rectangle_keys_other_calls 's' param (by simp)
  refine ⟨?_, ?_, ?_⟩
  · rw [key_step_space, key_step_s]
    cases hs : save env param with
    | running p out1 =>
      have hp : p = param := save_running hs
      subst hp
      rw [Outcome.running_bind_out, Outcome.running_bind_out]
      rw [Outcome.exports_after, Outcome.exports_after, hsp.1, hred]
      simp [Outcome.exports, Outcome.calls, redraw_calls_filter]
    | quit p out1 => rfl
    | exit1 out1 => rfl
    | null_deref out1 => rfl
    | hang out1 => rfl
  · unfold save_then_forward
    rw [key_step_space, key_step_s]
    cases hs : save env param with
    | running p out1 =>
      have hp : p = param := save_running hs
      subst hp
      rw [Outcome.running_bind_out, Outcome.running_bind_out, hred]
      rw [Outcome.after_running, Outcome.running_bind_out]
      rw [Outcome.result_after, Outcome.result_after, hsp.2, key_step_f, hf.2]
    | quit p out1 => rfl
    | exit1 out1 => rfl
    | null_deref out1 => rfl
    | hang out1 => rfl
  · intro img himg hw hh hm
    obtain ⟨hs, hfil⟩ := save_export_calls env param img himg hw hh hm
    rw [key_step_space, hs, Outcome.running_bind_out]
    rw [Outcome.exports_after, hsp.1, hfil, List.append_nil]

/-- C21 (witness): on the sample session, with `b.png` shown and the region
(10, 10, 10, 20), SPACE exports the region from `b.png` and goes on with
`c.png` shown, as `s` and then `f` do. -/
theorem space_is_save_then_forward_witness :
    sample_session.watershed = false ∧
    ((key_step sample_env (Char.ofNat 32) sample_session).exports =
        (key_step sample_env 's' sample_session).exports ∧
      (key_step sample_env (Char.ofNat 32) sample_session).result =
        (save_then_forward sample_env sample_session).result ∧
      (∀ img, sample_session.img_src = some img → 0 < sample_session.rect.width →
        0 < sample_session.rect.height →
        sample_env.match_extensions (save_output_path sample_env sample_session)
          sample_session.imtypes = true →
        (key_step sample_env (Char.ofNat 32) sample_session).exports =
          export_calls sample_env img sample_session)) ∧
    (key_step sample_env (Char.ofNat 32) sample_session).result =
      .running { sample_session with fileiter := 2, filename := "c.png",
                                     img_src := some ⟨4000, 3000, 3⟩,
                                     scale_factor := 1 / 2,
                                     img_display := some ⟨2000, 1500, 3⟩ } [] ∧
    (key_step sample_env (Char.ofNat 32) sample_session).exports =
      export_calls sample_env ⟨640, 480, 2⟩ sample_session :=
  ⟨rfl, space_is_save_then_forward sample_env sample_session rfl, rfl,
   (space_is_save_then_forward sample_env sample_session rfl).2.2 ⟨640, 480, 2⟩ rfl
     (by decide) (by decide) (by decide)⟩

/-! ### The move drag -/

theorem right_move_move_drag (dx dy w h rotate : Int) (shear : CvPoint) (param : Session)
    (img : IplImage) (hw : 0 < w) (hh : 0 < h)
    (hd : move_drag dx dy w h rotate shear param) (x y : Int) :
    move_drag dx dy w h rotate shear (right_move x y img param).1 := by
  obtain ⟨hws, hmv, hl, hr, ht, hb, hx, hy, hwd, hht, hrot, hsh⟩ := hd
  obtain ⟨e1, e2, e3, e4, e5, e6, e7, e8, e9⟩ := right_move_fields x y img param
  obtain ⟨-, -, f1, f2, -, f3, f4, -⟩ := right_move_frame x y img param
  obtain ⟨a1, a2, a3, a4⟩ := apply_move_fields x y param
  rw [hmv, hl] at a1
  rw [hl, hr] at a2
  rw [hmv, ht] at a3
  rw [ht, hb] at a4
  simp only [if_true, Bool.false_eq_true, if_false, add_zero] at a1 a2 a3 a4
  have hw2 : ¬ (apply_move x y param).width ≤ 0 := by rw [a2, hwd]; omega
  have hh2 : ¬ (apply_move x y param).height ≤ 0 := by rw [a4, hht]; omega
  rw [if_neg hw2] at e1 e2 e3 e4
  rw [if_neg hh2] at e5 e6 e7 e8
  unfold move_drag
  rw [e1, e2, e3, e4, e5, e6, e7, e8, e9, f1, f2, f3, f4, a1, a2, a3, a4]
  refine ⟨hws, hmv, hl, hr, ht, hb, ?_, ?_, hwd, hht, hrot, hsh⟩
  · show param.rect.x + (x - param.point0.x) = x + dx
    omega
  · show param.rect.y + (y - param.point0.y) = y + dy
    omega

theorem drag_move_drag (env : Env) (dx dy w h rotate : Int) (shear : CvPoint)
    (hw : 0 < w) (hh : 0 < h) (moves : List (Int × Int × Nat)) (s : Session)
    (hl : loaded s) (hd : move_drag dx dy w h rotate shear s)
    (hm : ∀ m ∈ moves, right_drag_flags m.2.2) :
    move_drag dx dy w h rotate shear (drag env s moves) := by
  induction moves generalizing s with
  | nil => exact hd
  | cons m moves ih =>
    obtain ⟨x, y, flags⟩ := m
    obtain ⟨img, disp, hsrc, hdisp⟩ := (loaded_iff s).mp hl
    have hf : right_drag_flags flags := hm (x, y, flags) (List.mem_cons_self _ _)
    have e := mouse_callback_right_move env s img hsrc (by simp [hdisp]) hd.1 x y flags hf
    have hl2 := mouse_callback_loaded env CV_EVENT_MOUSEMOVE x y flags s hl
    apply ih _ hl2 _ (fun m hmem => hm m (List.mem_cons_of_mem _ hmem))
    rw [e]
    exact right_move_move_drag dx dy w h rotate shear s img hw hh hd _ _

theorem right_down_move_drag (env : Env) (x y : Int) (p : Session)
    (hws : p.watershed = false) (hi : idle p)
    (hx1 : p.rect.x < x) (hx2 : x < p.rect.x + p.rect.width)
    (hy1 : p.rect.y < y) (hy2 : y < p.rect.y + p.rect.height) :
    move_drag (p.rect.x - x) (p.rect.y - y) p.rect.width p.rect.height p.rotate p.shear
      (right_down env x y p).1 := by
  rw [right_down_idle env x y p hws hi]
  obtain ⟨h1, h2, h3, h4, h5, -⟩ := hi
  unfold move_drag right_down_rectangle
  dsimp only
  refine ⟨rfl, ?_, ?_, ?_, ?_, ?_, ?_, ?_, rfl, rfl, rfl, rfl⟩
  · rw [if_pos ⟨⟨hx1, hx2⟩, ⟨hy1, hy2⟩⟩]
  · rw [if_neg (by omega)]; exact h2
  · rw [if_neg (by omega), if_neg (by omega)]; exact h3
  · rw [if_neg (by omega)]; exact h4
  · rw [if_neg (by omega), if_neg (by omega)]; exact h5
  · omega
  · omega

/-- C22: in rectangle mode, from the idle state, after a right-button-down at a
pointer position p strictly inside the rectangle (x0, y0, w, h) and any
sequence of right-button drag moves ending at the pointer position q, the
region is (x0 + (q.x - p.x), y0 + (q.y - p.y), w, h) and the rotation and the
shear are as before the drag; the position is not clamped: it is negative when
the pointer has moved left or up by more than x0 or y0, and beyond the width or
height of the frame when it has moved right or down by more than the distance
to that bound. -/
theorem move_drag_telescopes (env : Env) (param : Session) (hl : loaded param)
    (hi : idle param) (hws : param.watershed = false)
    (px py : Int) (flags : Nat) (moves : List (Int × Int × Nat))
    (hm : ∀ m ∈ moves, right_drag_flags m.2.2)
    (hx1 : param.rect.x < outside_to_negative px)
    (hx2 : outside_to_negative px < param.rect.x + param.rect.width)
    (hy1 : param.rect.y < outside_to_negative py)
    (hy2 : outside_to_negative py < param.rect.y + param.rect.height) :
    let s := drag env (mouse_callback env CV_EVENT_RBUTTONDOWN px py flags param).1 moves
    let p : CvPoint := ⟨outside_to_negative px, outside_to_negative py⟩
    let q := pointer_after p moves
    let r := param.rect
    s.rect = ⟨r.x + (q.x - p.x), r.y + (q.y - p.y), r.width, r.height⟩ ∧
    s.rotate = param.rotate ∧ s.shear = param.shear ∧
    (q.x - p.x < -r.x → s.rect.x < 0) ∧ (q.y - p.y < -r.y → s.rect.y < 0) ∧
    (∀ img, param.img_src = some img →
      (img.width - r.x < q.x - p.x → img.width < s.rect.x) ∧
      (img.height - r.y < q.y - p.y → img.height < s.rect.y)) := by
  intro s p q r
  have e := mouse_callback_right_down env param hl px py flags
  have hl1 : loaded (mouse_callback env CV_EVENT_RBUTTONDOWN px py flags param).1 :=
    mouse_callback_loaded env _ px py flags param hl
  have hp := right_down_point0 env p.x p.y param hws hi
  rw [← e] at hp
  obtain ⟨d1, -, -, -⟩ := drag_right env moves _ hl1 hp.2 hm
  rw [hp.1] at d1
  have hq : s.point0 = q := d1
  have h0 := right_down_move_drag env p.x p.y param hws hi hx1 hx2 hy1 hy2
  rw [← e] at h0
  have hw : 0 < param.rect.width := by omega
  have hh : 0 < param.rect.height := by omega
  obtain ⟨-, -, -, -, -, -, m1, m2, m3, m4, m5, m6⟩ :=
    drag_move_drag env _ _ _ _ _ _ hw hh moves _ hl1 h0 hm
  have hsx : s.rect.x = r.x + (q.x - p.x) := by
    have : s.rect.x = s.point0.x + (param.rect.x - p.x) := m1
    rw [this, hq]
    show q.x + (r.x - p.x) = _
    omega
  have hsy : s.rect.y = r.y + (q.y - p.y) := by
    have : s.rect.y = s.point0.y + (param.rect.y - p.y) := m2
    rw [this, hq]
    show q.y + (r.y - p.y) = _
    omega
  have hsw : s.rect.width = r.width := m3
  have hsh : s.rect.height = r.height := m4
  refine ⟨?_, m5, m6, ?_, ?_, ?_⟩
  · rw [← hsx, ← hsy, ← hsw, ← hsh]
  · intro h; rw [hsx]; omega
  · intro h; rw [hsy]; omega
  · intro img _
    exact ⟨fun h => by rw [hsx]; omega, fun h => by rw [hsy]; omega⟩

/-- C22 (witness): on the sample session, whose region is (10, 10, 10, 20) on a
640 x 480 frame, a right-button-down at (15, 20) and right-button moves to
(300, 200) and then to (0, 0) leave the region at (-5, -10, 10, 20), outside
the frame. -/
theorem move_drag_telescopes_witness :
    (loaded sample_session ∧ idle sample_session ∧ sample_session.watershed = false ∧
      (∀ m ∈ [((300 : Int), (200 : Int), 2), (0, 0, 2)], right_drag_flags m.2.2) ∧
      sample_session.rect = ⟨10, 10, 10, 20⟩ ∧
      pointer_after ⟨outside_to_negative 15, outside_to_negative 20⟩
        [(300, 200, 2), (0, 0, 2)] = ⟨0, 0⟩ ∧
      (drag sample_env
        (mouse_callback sample_env CV_EVENT_RBUTTONDOWN 15 20 2 sample_session).1
        [(300, 200, 2), (0, 0, 2)]).rect = ⟨-5, -10, 10, 20⟩) ∧
    (let s := drag sample_env
        (mouse_callback sample_env CV_EVENT_RBUTTONDOWN 15 20 2 sample_session).1
        [(300, 200, 2), (0, 0, 2)]
     let p : CvPoint := ⟨outside_to_negative 15, outside_to_negative 20⟩
     let q := pointer_after p [(300, 200, 2), (0, 0, 2)]
     let r := sample_session.rect
     s.rect = ⟨r.x + (q.x - p.x), r.y + (q.y - p.y), r.width, r.height⟩ ∧
     s.rotate = sample_session.rotate ∧ s.shear = sample_session.shear ∧
     (q.x - p.x < -r.x → s.rect.x < 0) ∧ (q.y - p.y < -r.y → s.rect.y < 0) ∧
     (∀ img, sample_session.img_src = some img →
       (img.width - r.x < q.x - p.x → img.width < s.rect.x) ∧
       (img.height - r.y < q.y - p.y → img.height < s.rect.y))) :=
  ⟨by decide,
   move_drag_telescopes sample_env sample_session (by decide) (by decide) rfl 15 20 2
     [(300, 200, 2), (0, 0, 2)] (by decide) (by decide) (by decide) (by decide) (by decide)⟩

/-! ### The display at the first wait of the loop -/

theorem key_callback_setup_4000x3000 (data : Nat) (s : Session) (reference name : String)
    (himg : s.img_src = some ⟨4000, 3000, data⟩) (hscreen : s.screen_size = ⟨1366, 768⟩)
    (hname : key_callback_filename reference s = some name) :
    ∃ out, key_callback_setup reference s =
      .running { s with filename := name, scale_factor := 1 / 2,
                        img_display := some ⟨2000, 1500, data⟩ } out := by
  have h2000 : float_to_int (float_mul (int_to_float 4000) (1 / 2)) = 2000 :=
    int_mul_half 2000 (by decide)
  have h1500 : float_to_int (float_mul (int_to_float 3000) (1 / 2)) = 1500 :=
    int_mul_half 1500 (by decide)
  unfold key_callback_setup
  rw [hname]
  dsimp only
  rw [himg]
  dsimp only
  rw [hscreen]
  dsimp only
  rw [if_pos (by decide)]
  unfold cvCreateImage
  dsimp only
  rw [h2000, h1500]
  exact ⟨_, rfl⟩

/-- C23 (failing input): for the 4000 x 3000 image `c.png` on a 1366 x 768
screen, `load_reference` halves twice, to the scale factor 1/4 and a
1000 x 750 display image, which fits the screen; the setup at the top of
`key_callback` then sets the scale factor back to 1.0 and halves once, so the
loop first waits with the scale factor 1/2 and a 2000 x 1500 display image,
which does not fit the screen and is not what the policy computed at load
time. -/
theorem setup_halves_once :
    ∃ s s' out,
      load_reference ⟨1366, 768⟩ ⟨4000, 3000, 3⟩ large_image_session = some s ∧
      s.scale_factor = 1 / 2 / 2 ∧ s.img_display = some ⟨1000, 750, 3⟩ ∧
      fit_while ⟨1366, 768⟩ ⟨4000, 3000⟩ 1 = some (⟨1000, 750⟩, 1 / 2 / 2) ∧
      key_callback_setup "." s = .running s' out ∧
      s'.img_src = some ⟨4000, 3000, 3⟩ ∧ s'.screen_size = ⟨1366, 768⟩ ∧
      s'.scale_factor = 1 / 2 ∧ s'.img_display = some ⟨2000, 1500, 3⟩ ∧
      ¬ ((2000 : Int) ≤ s'.screen_size.width ∧ (1500 : Int) ≤ s'.screen_size.height) ∧
      s'.scale_factor ≠ s.scale_factor ∧ s'.img_display ≠ s.img_display := by
  have hl : load_reference ⟨1366, 768⟩ ⟨4000, 3000, 3⟩ large_image_session =
      some { large_image_session with img_src := some ⟨4000, 3000, 3⟩,
                                      screen_size := ⟨1366, 768⟩,
                                      scale_factor := 1 / 2 / 2,
                                      img_display := some ⟨1000, 750, 3⟩ } := rfl
  obtain ⟨out, hk⟩ := key_callback_setup_4000x3000 3
    { large_image_session with img_src := some ⟨4000, 3000, 3⟩, screen_size := ⟨1366, 768⟩,
                               scale_factor := 1 / 2 / 2,
                               img_display := some ⟨1000, 750, 3⟩ }
    "." "c.png" rfl rfl rfl
  refine ⟨_, _, out, hl, rfl, rfl, rfl, hk, rfl, rfl, rfl, rfl, by decide, ?_, by decide⟩
  show (1 : ℚ) / 2 ≠ 1 / 2 / 2
  norm_num

end ImageClipper
